import Mathlib

/-! The wreath looper: a shallow embedding of `looper.cpp` and of
`stereo_looper.h`.

The single-channel `Looper` engine of `src/looper.cpp` is embedded as pure
functions on a record of its member variables.

Modelling conventions.

* The class declaration that belongs to `looper.cpp` (the member types, the
  constant `kMinSamples`, the inline helpers `Write` and `GetFadeSamples`) is
  not among the sources. Integer members are embedded as mathematical integers
  (`Int`); every theorem below is stated on inputs where no machine
  wrap-around can occur, whether the members are declared signed or unsigned.
  `kMinSamples` is a parameter of the one function that uses it.
* `float` values (samples, head positions) are embedded as exact rationals.
  Where a property depends on the rounding of `float` arithmetic (the
  crossfade position of `Read`), the rounding is explicit (`float32`).
* A `float &pos` in/out parameter becomes an argument and a component of the
  result.
-/

namespace wreath

/-- Movement types of the looper (`Movement` enumeration). -/
inductive Movement where
  | FORWARD
  | BACKWARDS
  | PENDULUM
  | RANDOM
  | DRUNK
deriving DecidableEq, Repr

/-- Member variables of `Looper`, named as in `looper.cpp`. The field
`cfPos_` is the position last given to the crossfade object `cf_`, and
`fadeSamples_` is the value that `GetFadeSamples()` returns. -/
structure Looper where
  sampleRate_ : Int
  buffer_ : Int → ℚ
  initBufferSamples_ : Int
  movement_ : Movement
  forward_ : Bool
  cfPos_ : ℚ
  speed_ : ℚ
  bufferSamples_ : Int
  bufferSeconds_ : ℚ
  readPos_ : ℚ
  readPosSeconds_ : ℚ
  nextReadPos_ : ℚ
  fadePos_ : Int
  loopLengthSeconds_ : ℚ
  writePos_ : Int
  loopStart_ : Int
  loopEnd_ : Int
  loopLength_ : Int
  fadeIndex_ : Int
  mustRestart_ : Bool
  mustFadeIn_ : Bool
  mustFadeOut_ : Bool
  fadeSamples_ : ℚ

/-- The conversion `static_cast<uint32_t>(pos)` of a position: truncation,
which for a position that is not negative is the floor. (For a negative
position the conversion is undefined in C++; the model gives 0.) -/
def toIndex (pos : ℚ) : Int := ((⌊pos⌋ : Int).toNat : Int)

/-- Modelled from the spec: `GetFadeSamples()` is declared in the absent class
header; it returns the fixed fade length of the looper, in samples. -/
def GetFadeSamples (s : Looper) : ℚ := s.fadeSamples_

/-- Modelled from the spec: `Write(value)` is declared in the absent class
header; during buffering it appends one sample, that is, it stores `value` at
the write position and changes nothing else. -/
def Write (s : Looper) (value : ℚ) : Looper :=
  { s with buffer_ := fun i => if i = s.writePos_ then value else s.buffer_ i }

/-- `Looper::ResetBuffer`: `std::fill` over `[&buffer_[0], &buffer_[initBufferSamples_ - 1])`
and the reset of the looper state. -/
def ResetBuffer (s : Looper) : Looper :=
  { s with
    buffer_ := fun i => if 0 ≤ i ∧ i < s.initBufferSamples_ - 1 then 0 else s.buffer_ i
    bufferSamples_ := 0
    bufferSeconds_ := 0
    readPos_ := 0
    readPosSeconds_ := 0
    nextReadPos_ := 0
    fadePos_ := 0
    loopLengthSeconds_ := 0
    writePos_ := 0
    loopStart_ := 0
    loopEnd_ := 0
    loopLength_ := 0
    speed_ := 1
    fadeIndex_ := 0 }

/-- `Looper::Init`. The crossfade curve set by `cf_.Init` is not part of the
embedded state. -/
def Init (s : Looper) (sampleRate : Int) (mem : Int → ℚ) (maxBufferSeconds : Int) : Looper :=
  let s1 := { s with sampleRate_ := sampleRate }
  let s2 := { s1 with buffer_ := mem }
  let s3 := { s2 with initBufferSamples_ := sampleRate * maxBufferSeconds }
  let s4 := ResetBuffer s3
  let s5 := { s4 with movement_ := Movement.FORWARD }
  { s5 with forward_ := decide (Movement.FORWARD = s5.movement_) }

/-- `Looper::SetMovement`. -/
def SetMovement (s : Looper) (movement : Movement) : Looper :=
  let s1 :=
    if Movement.FORWARD = movement ∧ s.forward_ = false then { s with forward_ := true }
    else if Movement.BACKWARDS = movement ∧ s.forward_ = true then { s with forward_ := false }
    else s
  { s1 with movement_ := movement }

/-- `Looper::MustRestart`. -/
def MustRestart (s : Looper) : Looper := { s with mustRestart_ := true }

/-- `Looper::SetLoopLength`. -/
def SetLoopLength (s : Looper) (length : Int) : Looper :=
  let s1 := { s with loopLength_ := length }
  let s2 := { s1 with loopEnd_ := s1.loopLength_ - 1 }
  { s2 with loopLengthSeconds_ := (s2.loopLength_ : ℚ) / (s2.sampleRate_ : ℚ) }

/-- `Looper::ResetLoopLength`: sets the loop length to that of the written
buffer. -/
def ResetLoopLength (s : Looper) : Looper := SetLoopLength s s.bufferSamples_

/-- `Looper::IncrementLoopLength`. -/
def IncrementLoopLength (s : Looper) (samples : Int) : Looper :=
  SetLoopLength s
    (if s.loopLength_ + samples < s.bufferSamples_ then s.loopLength_ + samples
     else s.bufferSamples_)

/-- `Looper::DecrementLoopLength`; `kMinSamples` is the constant of the absent
class header. -/
def DecrementLoopLength (kMinSamples : Int) (s : Looper) (samples : Int) : Looper :=
  SetLoopLength s (if s.loopLength_ > samples then s.loopLength_ - samples else kMinSamples)

/-- `Looper::SetReadPos`: stores the read position and sets up a fade in or a
fade out if needed. -/
def SetReadPos (s : Looper) (pos : ℚ) : Looper :=
  let i_idx : Int := toIndex pos
  let samples : ℚ := GetFadeSamples s
  let s1 :=
    if (s.forward_ = true ∧ i_idx = s.loopStart_) ∨ (s.forward_ = false ∧ i_idx = s.loopEnd_)
        ∨ s.mustRestart_ = true then
      { s with
        fadePos_ := toIndex pos
        fadeIndex_ := 0
        mustFadeIn_ := true
        mustRestart_ := false }
    else s
  let s2 :=
    if (s1.forward_ = true ∧ (i_idx : ℚ) + samples = (s1.loopEnd_ : ℚ))
        ∨ (s1.forward_ = false ∧ (i_idx : ℚ) - samples = (s1.loopStart_ : ℚ))
        ∨ (s1.forward_ = false ∧ (i_idx : ℚ) - samples = (s1.writePos_ : ℚ)) then
      { s1 with
        fadePos_ := toIndex pos
        fadeIndex_ := 0
        mustFadeOut_ := true }
    else s1
  let s3 := { s2 with readPos_ := pos }
  { s3 with readPosSeconds_ := s3.readPos_ / (s3.sampleRate_ : ℚ) }

/-- `Looper::Buffer`: the second component is the returned flag. -/
def Buffer (s : Looper) (value : ℚ) : Looper × Bool :=
  if s.writePos_ > s.initBufferSamples_ - 1 then (s, true)
  else
    let s1 := Write s value
    let s2 := { s1 with writePos_ := s1.writePos_ + 1 }
    let s3 := { s2 with bufferSamples_ := s2.writePos_ }
    let s4 := { s3 with bufferSeconds_ := (s3.bufferSamples_ : ℚ) / (s3.sampleRate_ : ℚ) }
    (s4, false)

/-- `Looper::StopBuffering`. -/
def StopBuffering (s : Looper) : Looper :=
  let s1 := { s with loopStart_ := 0 }
  let s2 := { s1 with writePos_ := 0 }
  let s3 := ResetLoopLength s2
  SetReadPos s3 (if s3.forward_ = true then (s3.loopStart_ : ℚ) else (s3.loopEnd_ : ℚ))

/-- `Looper::HandlePosBoundaries`: updates the given position depending on the
loop boundaries and the current movement type. The result is the looper (whose
direction may have been inverted) and the updated position. -/
def HandlePosBoundaries (s : Looper) (pos : ℚ) (isReadPos : Bool) : Looper × ℚ :=
  -- Handle normal loop boundaries.
  if s.loopEnd_ > s.loopStart_ then
    -- Forward direction.
    if s.forward_ = true ∧ pos > (s.loopEnd_ : ℚ) then
      let pos1 : ℚ := (s.loopStart_ : ℚ)
      if Movement.PENDULUM = s.movement_ then
        let s1 := if isReadPos = true then { s with forward_ := !s.forward_ } else s
        (s1, (s.loopEnd_ : ℚ))
      else (s, pos1)
    -- Backwards direction.
    else if s.forward_ = false ∧ pos < (s.loopStart_ : ℚ) then
      let pos1 : ℚ := (s.loopEnd_ : ℚ)
      if Movement.PENDULUM = s.movement_ then
        let s1 := if isReadPos = true then { s with forward_ := !s.forward_ } else s
        (s1, (s.loopStart_ : ℚ))
      else (s, pos1)
    else (s, pos)
  -- Handle inverted loop boundaries (end point comes before start point).
  else
    if s.forward_ = true then
      if pos > (s.bufferSamples_ : ℚ) then
        -- Wrap-around.
        (s, 0)
      else if pos > (s.loopEnd_ : ℚ) ∧ pos < (s.loopStart_ : ℚ) then
        let pos1 : ℚ := (s.loopStart_ : ℚ)
        if Movement.PENDULUM = s.movement_ then
          let s1 := if isReadPos = true then { s with forward_ := !s.forward_ } else s
          (s1, (s.loopEnd_ : ℚ))
        else (s, pos1)
      else (s, pos)
    else
      if pos < 0 then
        -- Wrap-around.
        (s, ((s.bufferSamples_ - 1 : Int) : ℚ))
      else if pos > (s.loopEnd_ : ℚ) ∧ pos < (s.loopStart_ : ℚ) then
        let pos1 : ℚ := (s.loopEnd_ : ℚ)
        if Movement.PENDULUM = s.movement_ then
          let s1 := if isReadPos = true then { s with forward_ := !s.forward_ } else s
          (s1, (s.loopStart_ : ℚ))
        else (s, pos1)
      else (s, pos)

/-- Calling `Buffer` once for every value of the list, in order, ignoring the
returned flags. -/
def bufferAll (s : Looper) (values : List ℚ) : Looper :=
  values.foldl (fun st v => (Buffer st v).1) s

/-- One unit-rate step of a head, in the words of the pendulum-period and
inverted-window properties: add 1 to the position when the direction is
forward (subtract 1 when it is backward), then apply `HandlePosBoundaries`;
`isReadPos` tells whether the head is the read head. -/
def unitStep (isReadPos : Bool) (st : Looper × ℚ) : Looper × ℚ :=
  HandlePosBoundaries st.1 (if st.1.forward_ = true then st.2 + 1 else st.2 - 1) isReadPos

/-- A looper with the inverted window `loopStart = 70`, `loopEnd = 49` in a
buffer of 100 samples, in the given movement and direction. -/
def invertedLooper (movement : Movement) (forward : Bool) : Looper :=
  { sampleRate_ := 48000
    buffer_ := fun _ => 0
    initBufferSamples_ := 100
    movement_ := movement
    forward_ := forward
    cfPos_ := 0
    speed_ := 1
    bufferSamples_ := 100
    bufferSeconds_ := 0
    readPos_ := 0
    readPosSeconds_ := 0
    nextReadPos_ := 0
    fadePos_ := 0
    loopLengthSeconds_ := 0
    writePos_ := 0
    loopStart_ := 70
    loopEnd_ := 49
    loopLength_ := 50
    fadeIndex_ := 0
    mustRestart_ := false
    mustFadeIn_ := false
    mustFadeOut_ := false
    fadeSamples_ := 240 }

/-- The looper of the end-to-end test after `SetLoopLength(24000)`: 48000
samples buffered, window `[0, 23999]`, forward. -/
def halfLoopLooper : Looper :=
  { sampleRate_ := 48000
    buffer_ := fun _ => 0
    initBufferSamples_ := 48000
    movement_ := Movement.FORWARD
    forward_ := true
    cfPos_ := 0
    speed_ := 1
    bufferSamples_ := 48000
    bufferSeconds_ := 1
    readPos_ := 0
    readPosSeconds_ := 0
    nextReadPos_ := 0
    fadePos_ := 0
    loopLengthSeconds_ := 1 / 2
    writePos_ := 0
    loopStart_ := 0
    loopEnd_ := 23999
    loopLength_ := 24000
    fadeIndex_ := 0
    mustRestart_ := false
    mustFadeIn_ := false
    mustFadeOut_ := false
    fadeSamples_ := 240 }

/-- A looper in `PENDULUM` movement with the normal window `[2, 4]`. -/
def pendulumLooper : Looper :=
  { sampleRate_ := 48000
    buffer_ := fun _ => 0
    initBufferSamples_ := 100
    movement_ := Movement.PENDULUM
    forward_ := true
    cfPos_ := 0
    speed_ := 1
    bufferSamples_ := 100
    bufferSeconds_ := 0
    readPos_ := 0
    readPosSeconds_ := 0
    nextReadPos_ := 0
    fadePos_ := 0
    loopLengthSeconds_ := 0
    writePos_ := 0
    loopStart_ := 2
    loopEnd_ := 4
    loopLength_ := 3
    fadeIndex_ := 0
    mustRestart_ := false
    mustFadeIn_ := false
    mustFadeOut_ := false
    fadeSamples_ := 240 }

/-- A looper value used to evaluate the operations on concrete inputs: an
all-zero buffer, forward direction, no pending fade. -/
def exampleLooper : Looper :=
  { sampleRate_ := 48000
    buffer_ := fun _ => 0
    initBufferSamples_ := 100
    movement_ := Movement.FORWARD
    forward_ := true
    cfPos_ := 0
    speed_ := 1
    bufferSamples_ := 100
    bufferSeconds_ := 0
    readPos_ := 0
    readPosSeconds_ := 0
    nextReadPos_ := 0
    fadePos_ := 0
    loopLengthSeconds_ := 0
    writePos_ := 0
    loopStart_ := 0
    loopEnd_ := 99
    loopLength_ := 100
    fadeIndex_ := 0
    mustRestart_ := false
    mustFadeIn_ := false
    mustFadeOut_ := false
    fadeSamples_ := 240 }

/-- `Looper::GetRandomPosition`; `r` is the value that `rand()` returns. The
result is `none` when the modulus `loopLength_ - 1` is zero, where the
remainder is undefined. -/
def GetRandomPosition (s : Looper) (r : Int) : Option Int :=
  if s.loopLength_ - 1 = 0 then none
  else
    let pos : Int := s.loopStart_ + r % (s.loopLength_ - 1)
    if s.forward_ = true ∧ pos > s.loopEnd_ then some s.loopEnd_
    else if s.forward_ = false ∧ pos < s.loopStart_ then some s.loopStart_
    else some pos

/-- `Looper::SetReadPosAtStart`: sets the read position at the beginning of
the loop. -/
def SetReadPosAtStart (s : Looper) : Looper :=
  let s1 := SetReadPos s (s.loopStart_ : ℚ)
  -- Invert direction when in pendulum.
  if Movement.PENDULUM = s1.movement_ then
    let s2 := { s1 with forward_ := !s1.forward_ }
    SetReadPos s2 (s2.loopEnd_ : ℚ)
  else s1

/-- `Looper::SetReadPosAtEnd`: sets the read position at the end of the loop. -/
def SetReadPosAtEnd (s : Looper) : Looper :=
  let s1 := SetReadPos s (s.loopEnd_ : ℚ)
  -- Invert direction when in pendulum.
  if Movement.PENDULUM = s1.movement_ then
    let s2 := { s1 with forward_ := !s1.forward_ }
    SetReadPos s2 (s2.loopStart_ : ℚ)
  else s1

/-- `Looper::Restart`; `r` is the value that `rand()` returns in the `RANDOM`
movement. The result is `none` when `GetRandomPosition` has no result. -/
def Restart (s : Looper) (r : Int) : Option Looper :=
  if Movement.RANDOM = s.movement_ then
    match GetRandomPosition s r with
    | none => none
    | some p =>
      let s1 := { s with nextReadPos_ := (p : ℚ) }
      some { s1 with forward_ := decide (s1.nextReadPos_ > s1.readPos_) }
  else
    if s.forward_ = true then some (SetReadPosAtStart s)
    else some (SetReadPosAtEnd s)

/-! The stereo looper: a shallow embedding of `stereo_looper.h`.

`StereoLooper` drives two loopers, a state-variable filter and an envelope
follower. The `Looper` class that `stereo_looper.h` drives (a later one than
that of `looper.cpp`), the filter, the envelope follower, the DSP helpers and
the constants `kMinLoopLengthSamples`, `kMinSamplesForTone` and
`kMinSamplesForFlanger` are not among the sources: the embedding takes them as
parameters (`LooperOps`, `DspEnv`) and every theorem holds for all of them.

The `float` values of `StereoLooper` are embedded as the elements of a number
type `K`, any linearly ordered field with a floor function, in exact
arithmetic: the rationals, over which the operations are evaluated on concrete
inputs, and also the reals.
-/

/-- Playback directions (`Direction` enumeration). -/
inductive Direction where
  | FORWARD
  | BACKWARDS
deriving DecidableEq, Repr

/-- Trigger modes (`Looper::TriggerMode`). -/
inductive TriggerMode where
  | GATE
  | TRIGGER
  | LOOP
deriving DecidableEq, Repr

/-- Channel selectors (the anonymous enumeration of `StereoLooper`). -/
inductive Channel where
  | LEFT
  | RIGHT
  | BOTH
  | NONE
deriving DecidableEq, Repr

/-- `StereoLooper::State`. -/
inductive StereoLooper.State where
  | STARTUP
  | BUFFERING
  | READY
  | RECORDING
  | FROZEN
deriving DecidableEq, Repr

/-- `StereoLooper::Mode`. -/
inductive StereoLooper.Mode where
  | MONO
  | CROSS
  | DUAL
  | LAST_MODE
deriving DecidableEq, Repr

/-- `StereoLooper::FilterType`. -/
inductive StereoLooper.FilterType where
  | LP
  | BP
  | HP
deriving DecidableEq, Repr

/-- `StereoLooper::NoteMode`. -/
inductive StereoLooper.NoteMode where
  | NO_MODE
  | NOTE
  | FLANGER
deriving DecidableEq, Repr

/-- `StereoLooper::Conf`. -/
structure StereoLooper.Conf (K : Type) where
  mode : StereoLooper.Mode
  triggerMode : TriggerMode
  movement : Movement
  direction : Direction
  rate : K

/-- The member functions of the looper class that `StereoLooper` calls, on an
arbitrary looper state `L`. A member function that returns a value and may
change the looper gives the new looper and the value. -/
structure LooperOps (K L : Type) where
  Init : L → Int → Int → L
  Reset : L → L
  SetLoopSync : L → Bool → L
  SetSamplesToFade : L → K → L
  GetReadPos : L → K
  GetLoopEnd : L → Int
  SetReadPos : L → K → L
  SetMovement : L → Movement → L
  GetBufferSamples : L → Int
  GetLoopLength : L → Int
  GetLoopStart : L → Int
  GetTriggerMode : L → TriggerMode
  SetTriggerMode : L → TriggerMode → L
  GetDirection : L → Direction
  SetDirection : L → Direction → L
  SetLoopLength : L → Int → L
  SetLoopStart : L → Int → L
  GetReadRate : L → K
  SetReadRate : L → K → L
  GetWriteRate : L → K
  SetWriteRate : L → K → L
  GetFreeze : L → K
  SetFreeze : L → K → L
  Start : L → Bool → L × Bool
  Stop : L → Bool → L × Bool
  Trigger : L → L
  ClearBuffer : L → L
  Buffer : L → K → L × Bool
  StopBuffering : L → L
  HandleFade : L → L
  Read : L → K → L × K
  Write : L → K → L
  UpdateWritePos : L → L
  UpdateReadPos : L → L

/-- The DSP helpers, the filter (`Svf`, on a filter state `F`), the envelope
follower (`EnvFollow`, on a state `E`) and the constants that `StereoLooper`
uses. `fonepole out in coeff` is the new value of the in/out argument. -/
structure DspEnv (K F E : Type) where
  SoftClip : K → K
  fastroot : K → Int → K
  fonepole : K → K → K → K
  fmap : K → K → K → K
  fclamp : K → K → K → K
  EqualCrossFade : K → K → K → K
  svfInit : F → K → F
  svfSetFreq : F → K → F
  svfSetDrive : F → K → F
  svfSetRes : F → K → F
  svfProcess : F → K → F
  svfBand : F → K
  svfHigh : F → K
  svfLow : F → K
  envGetEnv : E → K → E × K
  kBufferSamples : Int
  kMinLoopLengthSamples : K
  kMinSamplesForTone : K
  kMinSamplesForFlanger : K

/-- The array `loopers_[2]`, indexed by `LEFT` and `RIGHT`. -/
structure Loopers (L : Type) where
  LEFT : L
  RIGHT : L

/-- Member variables of `StereoLooper`, named as in `stereo_looper.h`;
`fadeIndex` is the `static` local variable of `Process`. -/
structure StereoLooper (K L F E : Type) where
  mustResetLooper : Bool
  mustClearBuffer : Bool
  mustStopBuffering : Bool
  inputGain : K
  outputGain : K
  dryWetMix : K
  feedback : K
  feedbackLevel : K
  filterLevel : K
  rateSlew : K
  stereoWidth : K
  dryLevel : K
  filterType : StereoLooper.FilterType
  noteModeLeft : StereoLooper.NoteMode
  noteModeRight : StereoLooper.NoteMode
  nextLeftLoopStart : Int
  nextRightLoopStart : Int
  leftDirection : Direction
  rightDirection : Direction
  nextLeftLoopLength : Int
  nextRightLoopLength : Int
  nextLeftReadRate : K
  nextRightReadRate : K
  nextLeftWriteRate : K
  nextRightWriteRate : K
  nextLeftFreeze : K
  nextRightFreeze : K
  leftTriggerMode : TriggerMode
  rightTriggerMode : TriggerMode
  mustStart : Bool
  mustStop : Bool
  mustRetrigger : Bool
  loopSync_ : Bool
  loopers_ : Loopers L
  state_ : StereoLooper.State
  filterEnvelope_ : E
  feedbackFilter_ : F
  sampleRate_ : Int
  freeze_ : K
  filterValue_ : K
  conf_ : StereoLooper.Conf K
  fadeIndex : Int

/-- Conversion of a `float` to `int32_t`: truncation toward zero. -/
def toInt32 {K : Type} [LinearOrderedField K] [FloorRing K] (q : K) : Int :=
  if 0 ≤ q then ⌊q⌋ else ⌈q⌉

/-- The mid-side widening of `StereoLooper::Process`, over any field; `root`
is the value of `fastroot(2, 10)`. The result is (`stereoLeft`,
`stereoRight`). -/
def midSide {K : Type} [Field K] (root leftWet rightWet stereoWidth : K) : K × K :=
  let mid := (leftWet + rightWet) / root
  let side := ((leftWet - rightWet) / root) * stereoWidth
  let stereoLeft := (mid + side) / root
  let stereoRight := (mid - side) / root
  (stereoLeft, stereoRight)

namespace StereoLooper

/-- `StereoLooper::IsFrozen`. -/
def IsFrozen {K : Type} [LinearOrderedField K] [FloorRing K]
    {L F E : Type} (st : StereoLooper K L F E) : Bool :=
  decide (State.FROZEN = st.state_)

/-- `StereoLooper::Init`; the buffers given to the loopers are memory and are
not part of the embedded state. -/
def Init {K : Type} [LinearOrderedField K] [FloorRing K]
    {L F E : Type} (ops : LooperOps K L) (dsp : DspEnv K F E) (st : StereoLooper K L F E)
    (sampleRate : Int) (conf : Conf K) : StereoLooper K L F E :=
  let st1 := { st with sampleRate_ := sampleRate }
  let st2 := { st1 with loopers_ :=
    { st1.loopers_ with LEFT := ops.Init st1.loopers_.LEFT st1.sampleRate_ dsp.kBufferSamples } }
  let st3 := { st2 with loopers_ :=
    { st2.loopers_ with RIGHT := ops.Init st2.loopers_.RIGHT st2.sampleRate_ dsp.kBufferSamples } }
  let st4 := { st3 with state_ := State.STARTUP }
  let st5 := { st4 with feedbackFilter_ := dsp.svfInit st4.feedbackFilter_ (st4.sampleRate_ : K) }
  let st6 := { st5 with conf_ := conf }
  let st7 := { st6 with loopers_ := { st6.loopers_ with LEFT := ops.Reset st6.loopers_.LEFT } }
  { st7 with loopers_ := { st7.loopers_ with RIGHT := ops.Reset st7.loopers_.RIGHT } }

/-- `StereoLooper::SetLoopSync`. -/
def SetLoopSync {K : Type} [LinearOrderedField K] [FloorRing K]
    {L F E : Type} (ops : LooperOps K L) (st : StereoLooper K L F E)
    (loopSync : Bool) : StereoLooper K L F E :=
  let st1 := { st with loopSync_ := loopSync }
  let st2 := { st1 with loopers_ :=
    { st1.loopers_ with LEFT := ops.SetLoopSync st1.loopers_.LEFT loopSync } }
  { st2 with loopers_ :=
    { st2.loopers_ with RIGHT := ops.SetLoopSync st2.loopers_.RIGHT loopSync } }

/-- `StereoLooper::SetSamplesToFade`. -/
def SetSamplesToFade {K : Type} [LinearOrderedField K] [FloorRing K]
    {L F E : Type} (ops : LooperOps K L) (st : StereoLooper K L F E)
    (samples : K) : StereoLooper K L F E :=
  let st1 := { st with loopers_ :=
    { st.loopers_ with LEFT := ops.SetSamplesToFade st.loopers_.LEFT samples } }
  { st1 with loopers_ :=
    { st1.loopers_ with RIGHT := ops.SetSamplesToFade st1.loopers_.RIGHT samples } }

/-- `StereoLooper::SetFilterValue`. -/
def SetFilterValue {K : Type} [LinearOrderedField K] [FloorRing K]
    {L F E : Type} (dsp : DspEnv K F E) (st : StereoLooper K L F E)
    (value : K) : StereoLooper K L F E :=
  let st1 := { st with filterValue_ := value }
  let st2 := { st1 with feedbackFilter_ := dsp.svfSetFreq st1.feedbackFilter_ st1.filterValue_ }
  let st3 := { st2 with feedbackFilter_ := dsp.svfSetDrive st2.feedbackFilter_ (3 / 4) }
  let res := dsp.fmap (1 - st3.feedback) (1 / 20) (1 / 5 + st3.freeze_ * (1 / 5))
  { st3 with feedbackFilter_ := dsp.svfSetRes st3.feedbackFilter_ res }

/-- `StereoLooper::OffsetLoopers`. -/
def OffsetLoopers {K : Type} [LinearOrderedField K] [FloorRing K]
    {L F E : Type} (ops : LooperOps K L) (dsp : DspEnv K F E)
    (st : StereoLooper K L F E) (value : K) : StereoLooper K L F E :=
  let pos := dsp.fclamp (ops.GetReadPos st.loopers_.LEFT + value) 0
    (ops.GetLoopEnd st.loopers_.RIGHT : K)
  { st with loopers_ := { st.loopers_ with RIGHT := ops.SetReadPos st.loopers_.RIGHT pos } }

/-- `StereoLooper::SetTriggerMode`. -/
def SetTriggerMode {K : Type} [LinearOrderedField K] [FloorRing K]
    {L F E : Type} (st : StereoLooper K L F E) (mode : TriggerMode) :
    StereoLooper K L F E :=
  let st1 := { st with leftTriggerMode := mode }
  let st2 := { st1 with rightTriggerMode := mode }
  let st3 :=
    match mode with
    | TriggerMode.GATE => { st2 with dryLevel := 0, mustStart := true }
    | TriggerMode.TRIGGER => { st2 with dryLevel := 1, mustStop := true }
    | TriggerMode.LOOP => { st2 with dryLevel := 1, mustStart := true }
  { st3 with conf_ := { st3.conf_ with triggerMode := mode } }

/-- `StereoLooper::SetMovement`. With the selector `NONE` the source indexes
`loopers_` outside its two elements; the model then leaves the loopers as they
are. -/
def SetMovement {K : Type} [LinearOrderedField K] [FloorRing K]
    {L F E : Type} (ops : LooperOps K L) (st : StereoLooper K L F E)
    (channel : Channel) (movement : Movement) : StereoLooper K L F E :=
  if Channel.BOTH = channel then
    let st1 := { st with loopers_ :=
      { st.loopers_ with LEFT := ops.SetMovement st.loopers_.LEFT movement } }
    let st2 := { st1 with loopers_ :=
      { st1.loopers_ with RIGHT := ops.SetMovement st1.loopers_.RIGHT movement } }
    { st2 with conf_ := { st2.conf_ with movement := movement } }
  else
    match channel with
    | Channel.LEFT => { st with loopers_ :=
        { st.loopers_ with LEFT := ops.SetMovement st.loopers_.LEFT movement } }
    | Channel.RIGHT => { st with loopers_ :=
        { st.loopers_ with RIGHT := ops.SetMovement st.loopers_.RIGHT movement } }
    | _ => st

/-- `StereoLooper::SetDirection`. -/
def SetDirection {K : Type} [LinearOrderedField K] [FloorRing K]
    {L F E : Type} (ops : LooperOps K L) (st : StereoLooper K L F E)
    (channel : Channel) (direction : Direction) : StereoLooper K L F E :=
  let st1 :=
    if Channel.LEFT = channel ∨ Channel.BOTH = channel then
      { st with leftDirection := direction }
    else st
  let st2 :=
    if Channel.RIGHT = channel ∨ Channel.BOTH = channel then
      { st1 with rightDirection := direction }
    else st1
  let st3 :=
    if Channel.BOTH = channel then
      { st2 with conf_ := { st2.conf_ with direction := direction } }
    else st2
  -- Before the looper starts, if the direction is backwards set the read head
  -- at the end of the loop.
  if State.READY = st3.state_ ∧ Direction.BACKWARDS = direction then
    let st4 := { st3 with loopers_ := { st3.loopers_ with
      LEFT := ops.SetReadPos st3.loopers_.LEFT (ops.GetLoopEnd st3.loopers_.LEFT : K) } }
    { st4 with loopers_ := { st4.loopers_ with
      RIGHT := ops.SetReadPos st4.loopers_.RIGHT (ops.GetLoopEnd st4.loopers_.RIGHT : K) } }
  else st3

/-- `StereoLooper::SetLoopStart`. -/
def SetLoopStart {K : Type} [LinearOrderedField K] [FloorRing K]
    {L F E : Type} (ops : LooperOps K L) (st : StereoLooper K L F E)
    (channel : Channel) (value : K) : StereoLooper K L F E :=
  let st1 :=
    if Channel.LEFT = channel ∨ Channel.BOTH = channel then
      let v := min (max value 0) ((ops.GetBufferSamples st.loopers_.LEFT : K) - 1)
      { st with nextLeftLoopStart := toInt32 v }
    else st
  if Channel.RIGHT = channel ∨ Channel.BOTH = channel then
    let v := min (max value 0) ((ops.GetBufferSamples st1.loopers_.RIGHT : K) - 1)
    { st1 with nextRightLoopStart := toInt32 v }
  else st1

/-- `StereoLooper::SetFreeze`. -/
def SetFreeze {K : Type} [LinearOrderedField K] [FloorRing K]
    {L F E : Type} (st : StereoLooper K L F E) (channel : Channel) (amount : K) :
    StereoLooper K L F E :=
  let st1 :=
    if Channel.LEFT = channel ∨ Channel.BOTH = channel then { st with nextLeftFreeze := amount }
    else st
  let st2 :=
    if Channel.RIGHT = channel ∨ Channel.BOTH = channel then
      { st1 with nextRightFreeze := amount }
    else st1
  let st3 := { st2 with freeze_ := amount }
  if State.READY ≠ st3.state_ then
    { st3 with state_ := if amount = 1 then State.FROZEN else State.RECORDING }
  else st3

/-- `StereoLooper::ToggleFreeze`; the `bool` argument `!frozen` is converted to
the `float` 1 or 0. -/
def ToggleFreeze {K : Type} [LinearOrderedField K] [FloorRing K]
    {L F E : Type} (st : StereoLooper K L F E) : StereoLooper K L F E :=
  let frozen := IsFrozen st
  SetFreeze st Channel.BOTH (if (!frozen) = true then 1 else 0)

/-- `StereoLooper::SetReadRate`. -/
def SetReadRate {K : Type} [LinearOrderedField K] [FloorRing K]
    {L F E : Type} (st : StereoLooper K L F E) (channel : Channel) (rate : K) :
    StereoLooper K L F E :=
  let st1 :=
    if Channel.LEFT = channel ∨ Channel.BOTH = channel then { st with nextLeftReadRate := rate }
    else st
  let st2 :=
    if Channel.RIGHT = channel ∨ Channel.BOTH = channel then
      { st1 with nextRightReadRate := rate }
    else st1
  { st2 with conf_ := { st2.conf_ with rate := rate } }

/-- `StereoLooper::SetWriteRate`. -/
def SetWriteRate {K : Type} [LinearOrderedField K] [FloorRing K]
    {L F E : Type} (st : StereoLooper K L F E) (channel : Channel) (rate : K) :
    StereoLooper K L F E :=
  let st1 :=
    if Channel.LEFT = channel ∨ Channel.BOTH = channel then { st with nextLeftWriteRate := rate }
    else st
  if Channel.RIGHT = channel ∨ Channel.BOTH = channel then
    { st1 with nextRightWriteRate := rate }
  else st1

/-- `StereoLooper::SetLoopLength`. -/
def SetLoopLength {K : Type} [LinearOrderedField K] [FloorRing K]
    {L F E : Type} (ops : LooperOps K L) (dsp : DspEnv K F E)
    (st : StereoLooper K L F E) (channel : Channel) (length : K) : StereoLooper K L F E :=
  let st1 :=
    if Channel.LEFT = channel ∨ Channel.BOTH = channel then
      let v := min (max length dsp.kMinLoopLengthSamples)
        (ops.GetBufferSamples st.loopers_.LEFT : K)
      let a := { st with nextLeftLoopLength := toInt32 v }
      let b := { a with noteModeLeft := NoteMode.NO_MODE }
      if length ≤ dsp.kMinLoopLengthSamples then { b with noteModeLeft := NoteMode.NOTE }
      else if length ≥ dsp.kMinSamplesForTone ∧ length ≤ dsp.kMinSamplesForFlanger then
        { b with noteModeLeft := NoteMode.FLANGER }
      else b
    else st
  if Channel.RIGHT = channel ∨ Channel.BOTH = channel then
    let v := min (max length dsp.kMinLoopLengthSamples)
      (ops.GetBufferSamples st1.loopers_.RIGHT : K)
    let a := { st1 with nextRightLoopLength := toInt32 v }
    let b := { a with noteModeRight := NoteMode.NO_MODE }
    if length ≤ dsp.kMinLoopLengthSamples then { b with noteModeRight := NoteMode.NOTE }
    else if length ≥ dsp.kMinSamplesForTone ∧ length ≤ dsp.kMinSamplesForFlanger then
      { b with noteModeRight := NoteMode.FLANGER }
    else b
  else st1

/-- `StereoLooper::Start`. -/
def Start {K : Type} [LinearOrderedField K] [FloorRing K]
    {L F E : Type} (ops : LooperOps K L) (st : StereoLooper K L F E) : StereoLooper K L F E :=
  if State.READY = st.state_ then
    let st1 := { st with loopers_ :=
      { st.loopers_ with LEFT := (ops.Start st.loopers_.LEFT true).1 } }
    let st2 := { st1 with loopers_ :=
      { st1.loopers_ with RIGHT := (ops.Start st1.loopers_.RIGHT true).1 } }
    { st2 with state_ := if st2.freeze_ = 1 then State.FROZEN else State.RECORDING }
  else st

end StereoLooper

namespace StereoLooper

/-- The assignment of a new value to `loopers_[LEFT]`. -/
def withLeft {K : Type} [LinearOrderedField K] [FloorRing K]
    {L F E : Type} (st : StereoLooper K L F E) (l : L) : StereoLooper K L F E :=
  { st with loopers_ := { st.loopers_ with LEFT := l } }

/-- The assignment of a new value to `loopers_[RIGHT]`. -/
def withRight {K : Type} [LinearOrderedField K] [FloorRing K]
    {L F E : Type} (st : StereoLooper K L F E) (r : L) : StereoLooper K L F E :=
  { st with loopers_ := { st.loopers_ with RIGHT := r } }

/-- `StereoLooper::Reset` (private). -/
def Reset {K : Type} [LinearOrderedField K] [FloorRing K]
    {L F E : Type} (ops : LooperOps K L) (st : StereoLooper K L F E) : StereoLooper K L F E :=
  let st1 := withLeft st (ops.Reset st.loopers_.LEFT)
  let st2 := withRight st1 (ops.Reset st1.loopers_.RIGHT)
  let st3 := SetTriggerMode st2 st2.conf_.triggerMode
  let st4 := SetMovement ops st3 Channel.BOTH st3.conf_.movement
  let st5 := SetDirection ops st4 Channel.BOTH st4.conf_.direction
  let st6 := SetReadRate st5 Channel.BOTH st5.conf_.rate
  SetWriteRate st6 Channel.BOTH st6.conf_.rate

/-- `StereoLooper::Mix` (private). -/
def Mix {K : Type} [LinearOrderedField K] [FloorRing K]
    {F E : Type} (dsp : DspEnv K F E) (a b : K) : K := dsp.SoftClip (a + b)

/-- `StereoLooper::Filter` (private): the new state (whose filter has processed
the value) and the returned filter output. -/
def Filter {K : Type} [LinearOrderedField K] [FloorRing K]
    {L F E : Type} (dsp : DspEnv K F E) (st : StereoLooper K L F E) (value : K) :
    StereoLooper K L F E × K :=
  let st1 := { st with feedbackFilter_ := dsp.svfProcess st.feedbackFilter_ value }
  match st1.filterType with
  | FilterType.BP => (st1, dsp.svfBand st1.feedbackFilter_)
  | FilterType.HP => (st1, dsp.svfHigh st1.feedbackFilter_)
  | FilterType.LP => (st1, dsp.svfLow st1.feedbackFilter_)

/-- The slew coefficient computed in `UpdateParameters`. -/
def slewCoeff {K : Type} [LinearOrderedField K] [FloorRing K]
    {L F E : Type} (st : StereoLooper K L F E) : K :=
  if st.rateSlew > 0 then 1 / (st.rateSlew * (st.sampleRate_ : K)) else 1

/-- `StereoLooper::UpdateParameters` (private). -/
def UpdateParameters {K : Type} [LinearOrderedField K] [FloorRing K]
    {L F E : Type} (ops : LooperOps K L) (dsp : DspEnv K F E)
    (st : StereoLooper K L F E) : StereoLooper K L F E :=
  let a1 :=
    if st.leftTriggerMode ≠ ops.GetTriggerMode st.loopers_.LEFT then
      withLeft st (ops.SetTriggerMode st.loopers_.LEFT st.leftTriggerMode)
    else st
  let a2 :=
    if a1.rightTriggerMode ≠ ops.GetTriggerMode a1.loopers_.RIGHT then
      withRight a1 (ops.SetTriggerMode a1.loopers_.RIGHT a1.rightTriggerMode)
    else a1
  let a3 :=
    if a2.leftDirection ≠ ops.GetDirection a2.loopers_.LEFT then
      withLeft a2 (ops.SetDirection a2.loopers_.LEFT a2.leftDirection)
    else a2
  let a4 :=
    if a3.rightDirection ≠ ops.GetDirection a3.loopers_.RIGHT then
      withRight a3 (ops.SetDirection a3.loopers_.RIGHT a3.rightDirection)
    else a3
  let leftLoopLength : K := (ops.GetLoopLength a4.loopers_.LEFT : K)
  let a5 :=
    if leftLoopLength ≠ (a4.nextLeftLoopLength : K) then
      withLeft a4 (ops.SetLoopLength a4.loopers_.LEFT a4.nextLeftLoopLength)
    else a4
  let rightLoopLength : K := (ops.GetLoopLength a5.loopers_.RIGHT : K)
  let a6 :=
    if rightLoopLength ≠ (a5.nextRightLoopLength : K) then
      withRight a5 (ops.SetLoopLength a5.loopers_.RIGHT a5.nextLeftLoopLength)
    else a5
  let leftLoopStart : K := (ops.GetLoopStart a6.loopers_.LEFT : K)
  let a7 :=
    if leftLoopStart ≠ (a6.nextLeftLoopStart : K) then
      withLeft a6 (ops.SetLoopStart a6.loopers_.LEFT a6.nextLeftLoopStart)
    else a6
  let rightLoopStart : K := (ops.GetLoopStart a7.loopers_.RIGHT : K)
  let a8 :=
    if rightLoopStart ≠ (a7.nextRightLoopStart : K) then
      withRight a7 (ops.SetLoopStart a7.loopers_.RIGHT a7.nextRightLoopStart)
    else a7
  let leftReadRate : K := ops.GetReadRate a8.loopers_.LEFT
  let a9 :=
    if leftReadRate ≠ a8.nextLeftReadRate then
      let coeff := slewCoeff a8
      let leftReadRate1 := dsp.fonepole leftReadRate a8.nextLeftReadRate coeff
      withLeft a8 (ops.SetReadRate a8.loopers_.LEFT leftReadRate1)
    else a8
  let rightReadRate : K := ops.GetReadRate a9.loopers_.RIGHT
  let a10 :=
    if rightReadRate ≠ a9.nextRightReadRate then
      let coeff := slewCoeff a9
      let rightReadRate1 := dsp.fonepole rightReadRate a9.nextRightReadRate coeff
      withRight a9 (ops.SetReadRate a9.loopers_.RIGHT rightReadRate1)
    else a9
  let leftWriteRate : K := ops.GetWriteRate a10.loopers_.LEFT
  let a11 :=
    if leftWriteRate ≠ a10.nextLeftWriteRate then
      let coeff := slewCoeff a10
      let leftWriteRate1 := dsp.fonepole leftWriteRate a10.nextLeftWriteRate coeff
      withLeft a10 (ops.SetWriteRate a10.loopers_.LEFT leftWriteRate1)
    else a10
  let rightWriteRate : K := ops.GetWriteRate a11.loopers_.RIGHT
  let a12 :=
    if rightWriteRate ≠ a11.nextRightWriteRate then
      let coeff := slewCoeff a11
      let rightWriteRate1 := dsp.fonepole rightWriteRate a11.nextRightWriteRate coeff
      withRight a11 (ops.SetWriteRate a11.loopers_.RIGHT rightWriteRate1)
    else a11
  let leftFreeze : K := ops.GetFreeze a12.loopers_.LEFT
  let a13 :=
    if leftFreeze ≠ a12.nextLeftFreeze then
      withLeft a12 (ops.SetFreeze a12.loopers_.LEFT a12.nextLeftFreeze)
    else a12
  let rightFreeze : K := ops.GetFreeze a13.loopers_.RIGHT
  if rightFreeze ≠ a13.nextRightFreeze then
    withRight a13 (ops.SetFreeze a13.loopers_.RIGHT a13.nextRightFreeze)
  else a13

/-- The `if (mustClearBuffer)` block of `Process`. -/
def clearBufferBlock {K : Type} [LinearOrderedField K] [FloorRing K]
    {L F E : Type} (ops : LooperOps K L) (st : StereoLooper K L F E) :
    StereoLooper K L F E :=
  if st.mustClearBuffer = true then
    let st1 := { st with mustClearBuffer := false }
    let st2 := withLeft st1 (ops.ClearBuffer st1.loopers_.LEFT)
    withRight st2 (ops.ClearBuffer st2.loopers_.RIGHT)
  else st

/-- The body of the `if (mustResetLooper)` block of `Process`. -/
def resetBlock {K : Type} [LinearOrderedField K] [FloorRing K]
    {L F E : Type} (ops : LooperOps K L) (st : StereoLooper K L F E) :
    StereoLooper K L F E :=
  let st1 := { st with mustResetLooper := false }
  let st2 := withLeft st1 (ops.Stop st1.loopers_.LEFT true).1
  let st3 := withRight st2 (ops.Stop st2.loopers_.RIGHT true).1
  let st4 := Reset ops st3
  { st4 with state_ := State.BUFFERING }

/-- The `if (mustRetrigger)` block of `Process`. -/
def retriggerBlock {K : Type} [LinearOrderedField K] [FloorRing K]
    {L F E : Type} (ops : LooperOps K L) (st : StereoLooper K L F E) :
    StereoLooper K L F E :=
  if st.mustRetrigger = true then
    let st1 := withLeft st (ops.Trigger st.loopers_.LEFT)
    let st2 := withRight st1 (ops.Trigger st1.loopers_.RIGHT)
    { st2 with mustRetrigger := false }
  else st

/-- The `if (mustStart)` block of `Process`. -/
def startBlock {K : Type} [LinearOrderedField K] [FloorRing K]
    {L F E : Type} (ops : LooperOps K L) (st : StereoLooper K L F E) :
    StereoLooper K L F E :=
  if st.mustStart = true then
    let doneLeft := ops.Start st.loopers_.LEFT false
    let st1 := withLeft st doneLeft.1
    let doneRight := ops.Start st1.loopers_.RIGHT false
    let st2 := withRight st1 doneRight.1
    if doneLeft.2 = true ∧ doneRight.2 = true then { st2 with mustStart := false } else st2
  else st

/-- The `if (mustStop)` block of `Process`. -/
def stopBlock {K : Type} [LinearOrderedField K] [FloorRing K]
    {L F E : Type} (ops : LooperOps K L) (st : StereoLooper K L F E) :
    StereoLooper K L F E :=
  if st.mustStop = true then
    let doneLeft := ops.Stop st.loopers_.LEFT false
    let st1 := withLeft st doneLeft.1
    let doneRight := ops.Stop st1.loopers_.RIGHT false
    let st2 := withRight st1 doneRight.1
    if doneLeft.2 = true ∧ doneRight.2 = true then { st2 with mustStop := false } else st2
  else st

/-- The part of the `RECORDING`/`FROZEN` case of `Process` from `HandleFade` to
`UpdateReadPos`: the new state and the values of `leftWet` and `rightWet`. -/
def signalChain {K : Type} [LinearOrderedField K] [FloorRing K]
    {L F E : Type} (ops : LooperOps K L) (dsp : DspEnv K F E)
    (st : StereoLooper K L F E) (leftDry rightDry : K) : StereoLooper K L F E × K × K :=
  let b1 := withLeft st (ops.HandleFade st.loopers_.LEFT)
  let b2 := withRight b1 (ops.HandleFade b1.loopers_.RIGHT)
  let readLeft := ops.Read b2.loopers_.LEFT leftDry
  let b3 := withLeft b2 readLeft.1
  let leftWet := readLeft.2
  let readRight := ops.Read b3.loopers_.RIGHT rightDry
  let b4 := withRight b3 readRight.1
  let rightWet := readRight.2
  -- Feedback path.
  let leftFeedback := leftWet * b4.feedback
  let rightFeedback := rightWet * b4.feedback
  let f1 := Filter dsp b4 leftFeedback
  let leftFeedback1 := Mix dsp leftFeedback (f1.1.filterLevel * f1.2)
  let f2 := Filter dsp f1.1 rightFeedback
  let rightFeedback1 := Mix dsp rightFeedback (f2.1.filterLevel * f2.2)
  let e1 := dsp.envGetEnv f2.1.filterEnvelope_ leftFeedback1
  let b5 := { f2.1 with filterEnvelope_ := e1.1 }
  let leftFeedback2 := leftFeedback1 * (b5.feedbackLevel - e1.2)
  let e2 := dsp.envGetEnv b5.filterEnvelope_ rightFeedback1
  let b6 := { b5 with filterEnvelope_ := e2.1 }
  let rightFeedback2 := rightFeedback1 * (b6.feedbackLevel - e2.2)
  let f3 := Filter dsp b6 leftFeedback2
  let leftWet1 := Mix dsp leftWet (f3.2 * f3.1.freeze_ * (1 / 2))
  let f4 := Filter dsp f3.1 rightFeedback2
  let rightWet1 := Mix dsp rightWet (f4.2 * f4.1.freeze_ * (1 / 2))
  let b7 := withLeft f4.1 (ops.Write f4.1.loopers_.LEFT (Mix dsp leftDry leftFeedback2))
  let b8 := withRight b7 (ops.Write b7.loopers_.RIGHT (Mix dsp rightDry rightFeedback2))
  let b9 := withLeft b8 (ops.UpdateWritePos b8.loopers_.LEFT)
  let b10 := withRight b9 (ops.UpdateWritePos b9.loopers_.RIGHT)
  let b11 := withLeft b10 (ops.UpdateReadPos b10.loopers_.LEFT)
  let b12 := withRight b11 (ops.UpdateReadPos b11.loopers_.RIGHT)
  (b12, leftWet1, rightWet1)

/-- The end of `Process`, after the `switch`: mid-side processing and output
gain stage. The result is (`leftOut`, `rightOut`). -/
def outputStage {K : Type} [LinearOrderedField K] [FloorRing K]
    {L F E : Type} (dsp : DspEnv K F E) (st : StereoLooper K L F E)
    (leftDry rightDry leftWet rightWet : K) : K × K :=
  let stereo := midSide (dsp.fastroot 2 10) leftWet rightWet st.stereoWidth
  (dsp.SoftClip (dsp.EqualCrossFade leftDry stereo.1 st.dryWetMix * st.outputGain),
   dsp.SoftClip (dsp.EqualCrossFade rightDry stereo.2 st.dryWetMix * st.outputGain))

/-- The `RECORDING`/`FROZEN` case of `Process`, followed by the end of
`Process`. -/
def processRunning {K : Type} [LinearOrderedField K] [FloorRing K]
    {L F E : Type} (ops : LooperOps K L) (dsp : DspEnv K F E)
    (st : StereoLooper K L F E) (leftDry rightDry : K) : StereoLooper K L F E × K × K :=
  let c1 := UpdateParameters ops dsp st
  let leftDry1 := leftDry * c1.dryLevel
  let rightDry1 := rightDry * c1.dryLevel
  let c2 := clearBufferBlock ops c1
  if c2.mustResetLooper = true then
    let c3 := resetBlock ops c2
    (c3, outputStage dsp c3 leftDry1 rightDry1 0 0)
  else
    let c3 := retriggerBlock ops c2
    let c4 := startBlock ops c3
    let c5 := stopBlock ops c4
    let c6 := signalChain ops dsp c5 leftDry1 rightDry1
    (c6.1, outputStage dsp c6.1 leftDry1 rightDry1 c6.2.1 c6.2.2)

/-- `StereoLooper::Process`. The arguments `leftOut` and `rightOut` are the
values of the output variables before the call; the result is the new state
and the values of the output variables after the call. -/
def Process {K : Type} [LinearOrderedField K] [FloorRing K]
    {L F E : Type} (ops : LooperOps K L) (dsp : DspEnv K F E) (st : StereoLooper K L F E)
    (leftIn rightIn leftOut rightOut : K) : StereoLooper K L F E × K × K :=
  -- Input gain stage.
  let leftDry := dsp.SoftClip (leftIn * st.inputGain)
  let rightDry := dsp.SoftClip (rightIn * st.inputGain)
  match st.state_ with
  | State.STARTUP =>
    let st1 :=
      if st.fadeIndex > st.sampleRate_ then { st with fadeIndex := 0, state_ := State.BUFFERING }
      else st
    let st2 := { st1 with fadeIndex := st1.fadeIndex + 1 }
    -- Return now, so we don't emit any sound.
    (st2, leftOut, rightOut)
  | State.BUFFERING =>
    let doneLeft := ops.Buffer st.loopers_.LEFT leftDry
    let st1 := withLeft st doneLeft.1
    let doneRight := ops.Buffer st1.loopers_.RIGHT rightDry
    let st2 := withRight st1 doneRight.1
    let st3 :=
      if (doneLeft.2 = true ∧ doneRight.2 = true) ∨ st2.mustStopBuffering = true then
        let d1 := { st2 with mustStopBuffering := false }
        let d2 := withLeft d1 (ops.StopBuffering d1.loopers_.LEFT)
        let d3 := withRight d2 (ops.StopBuffering d2.loopers_.RIGHT)
        { d3 with state_ := State.READY }
      else st2
    -- Pass the audio through.
    (st3, outputStage dsp st3 leftDry rightDry leftDry rightDry)
  | State.READY =>
    let st1 := { st with nextLeftLoopLength := ops.GetLoopLength st.loopers_.LEFT }
    let st2 := { st1 with nextRightLoopLength := ops.GetLoopLength st1.loopers_.RIGHT }
    let st3 := { st2 with nextLeftLoopStart := ops.GetLoopStart st2.loopers_.LEFT }
    let st4 := { st3 with nextRightLoopStart := ops.GetLoopStart st3.loopers_.RIGHT }
    let st5 := { st4 with
      nextLeftReadRate := 1
      nextRightReadRate := 1
      nextLeftWriteRate := 1
      nextRightWriteRate := 1
      nextLeftFreeze := 0
      nextRightFreeze := 0 }
    (st5, outputStage dsp st5 leftDry rightDry 0 0)
  | State.RECORDING => processRunning ops dsp st leftDry rightDry
  | State.FROZEN => processRunning ops dsp st leftDry rightDry

/-- The public operations of `StereoLooper` that change it, with their
arguments (initialisation apart). -/
inductive Op (K : Type) where
  | Process (leftIn rightIn leftOut rightOut : K)
  | Start
  | ToggleFreeze
  | SetFreeze (channel : Channel) (amount : K)
  | SetTriggerMode (mode : TriggerMode)
  | SetMovement (channel : Channel) (movement : Movement)
  | SetDirection (channel : Channel) (direction : Direction)
  | SetLoopStart (channel : Channel) (value : K)
  | SetReadRate (channel : Channel) (rate : K)
  | SetWriteRate (channel : Channel) (rate : K)
  | SetLoopLength (channel : Channel) (length : K)
  | SetLoopSync (loopSync : Bool)
  | SetSamplesToFade (samples : K)
  | SetFilterValue (value : K)
  | OffsetLoopers (value : K)

/-- The state of the stereo looper after one public operation. -/
def perform {K : Type} [LinearOrderedField K] [FloorRing K]
    {L F E : Type} (ops : LooperOps K L) (dsp : DspEnv K F E) (st : StereoLooper K L F E) :
    Op K → StereoLooper K L F E
  | Op.Process leftIn rightIn leftOut rightOut =>
    (Process ops dsp st leftIn rightIn leftOut rightOut).1
  | Op.Start => Start ops st
  | Op.ToggleFreeze => ToggleFreeze st
  | Op.SetFreeze channel amount => SetFreeze st channel amount
  | Op.SetTriggerMode mode => SetTriggerMode st mode
  | Op.SetMovement channel movement => SetMovement ops st channel movement
  | Op.SetDirection channel direction => SetDirection ops st channel direction
  | Op.SetLoopStart channel value => SetLoopStart ops st channel value
  | Op.SetReadRate channel rate => SetReadRate st channel rate
  | Op.SetWriteRate channel rate => SetWriteRate st channel rate
  | Op.SetLoopLength channel length => SetLoopLength ops dsp st channel length
  | Op.SetLoopSync loopSync => SetLoopSync ops st loopSync
  | Op.SetSamplesToFade samples => SetSamplesToFade ops st samples
  | Op.SetFilterValue value => SetFilterValue dsp st value
  | Op.OffsetLoopers value => OffsetLoopers ops dsp st value

/-- The documented transitions of the top-level state: no change,
`STARTUP -> BUFFERING`, `BUFFERING -> READY`, `READY -> RECORDING`,
`READY -> FROZEN`, `RECORDING <-> FROZEN`, and `RECORDING`/`FROZEN ->
BUFFERING`. -/
def documentedTransition (a b : State) : Prop :=
  a = b ∨ (a = State.STARTUP ∧ b = State.BUFFERING) ∨ (a = State.BUFFERING ∧ b = State.READY)
    ∨ (a = State.READY ∧ b = State.RECORDING) ∨ (a = State.READY ∧ b = State.FROZEN)
    ∨ (a = State.RECORDING ∧ b = State.FROZEN) ∨ (a = State.FROZEN ∧ b = State.RECORDING)
    ∨ (a = State.RECORDING ∧ b = State.BUFFERING) ∨ (a = State.FROZEN ∧ b = State.BUFFERING)

/-- Calling `Process` once for every input pair of the list, in order, the
output variables being kept from one call to the next. -/
def processAll {K : Type} [LinearOrderedField K] [FloorRing K]
    {L F E : Type} (ops : LooperOps K L) (dsp : DspEnv K F E) :
    StereoLooper K L F E × K × K → List (K × K) → StereoLooper K L F E × K × K
  | acc, [] => acc
  | acc, x :: xs => processAll ops dsp (Process ops dsp acc.1 x.1 x.2 acc.2.1 acc.2.2) xs

end StereoLooper

/-- A stand-in looper used to evaluate `StereoLooper` on concrete inputs: it
stores the value last given to each setter and answers `Start`, `Stop` and
`Buffer` with fixed flags. -/
structure ProbeLooper where
  triggerMode : TriggerMode
  direction : Direction
  loopLength : Int
  loopStart : Int
  readRate : ℚ
  writeRate : ℚ
  freeze : ℚ
  bufferSamples : Int
  startDone : Bool
  stopDone : Bool
  bufferDone : Bool
  startCalls : Nat

/-- The operations of the stand-in looper. -/
def probeOps : LooperOps ℚ ProbeLooper :=
  { Init := fun l _ n => { l with bufferSamples := n }
    Reset := fun l => l
    SetLoopSync := fun l _ => l
    SetSamplesToFade := fun l _ => l
    GetReadPos := fun _ => 0
    GetLoopEnd := fun l => l.loopStart + l.loopLength - 1
    SetReadPos := fun l _ => l
    SetMovement := fun l _ => l
    GetBufferSamples := fun l => l.bufferSamples
    GetLoopLength := fun l => l.loopLength
    GetLoopStart := fun l => l.loopStart
    GetTriggerMode := fun l => l.triggerMode
    SetTriggerMode := fun l m => { l with triggerMode := m }
    GetDirection := fun l => l.direction
    SetDirection := fun l d => { l with direction := d }
    SetLoopLength := fun l n => { l with loopLength := n }
    SetLoopStart := fun l n => { l with loopStart := n }
    GetReadRate := fun l => l.readRate
    SetReadRate := fun l r => { l with readRate := r }
    GetWriteRate := fun l => l.writeRate
    SetWriteRate := fun l r => { l with writeRate := r }
    GetFreeze := fun l => l.freeze
    SetFreeze := fun l x => { l with freeze := x }
    Start := fun l _ => ({ l with startCalls := l.startCalls + 1 }, l.startDone)
    Stop := fun l _ => (l, l.stopDone)
    Trigger := fun l => l
    ClearBuffer := fun l => l
    Buffer := fun l _ => (l, l.bufferDone)
    StopBuffering := fun l => l
    HandleFade := fun l => l
    Read := fun l _ => (l, 0)
    Write := fun l _ => l
    UpdateWritePos := fun l => l
    UpdateReadPos := fun l => l }

/-- Stand-ins for the DSP helpers, used to evaluate `StereoLooper` on concrete
inputs; the filter and the envelope follower have no state. -/
def probeDsp : DspEnv ℚ Unit Unit :=
  { SoftClip := fun x => x
    fastroot := fun _ _ => 1
    fonepole := fun out inp coeff => out + coeff * (inp - out)
    fmap := fun x lo hi => lo + x * (hi - lo)
    fclamp := fun x lo hi => min (max x lo) hi
    EqualCrossFade := fun a b mix => a * (1 - mix) + b * mix
    svfInit := fun f _ => f
    svfSetFreq := fun f _ => f
    svfSetDrive := fun f _ => f
    svfSetRes := fun f _ => f
    svfProcess := fun f _ => f
    svfBand := fun _ => 0
    svfHigh := fun _ => 0
    svfLow := fun _ => 0
    envGetEnv := fun e _ => (e, 0)
    kBufferSamples := 3840000
    kMinLoopLengthSamples := 48
    kMinSamplesForTone := 1440
    kMinSamplesForFlanger := 4800 }

/-- A stand-in looper with 48000 samples buffered, loop length `n`, at unit
rates, whose `Start`, `Stop` and `Buffer` answer `done`. -/
def probeLooper (n : Int) (done : Bool) : ProbeLooper :=
  { triggerMode := TriggerMode.LOOP
    direction := Direction.FORWARD
    loopLength := n
    loopStart := 0
    readRate := 1
    writeRate := 1
    freeze := 0
    bufferSamples := 48000
    startDone := done
    stopDone := done
    bufferDone := done
    startCalls := 0 }

/-- A stereo looper over stand-in loopers, used to evaluate the operations on
concrete inputs: top-level state `state`, the given loopers, pending loop
lengths `nextLeft` and `nextRight`, every other pending value equal to the
loopers' current one, no request latched. -/
def probeStereo (state : StereoLooper.State) (left right : ProbeLooper)
    (nextLeft nextRight : Int) : StereoLooper ℚ ProbeLooper Unit Unit :=
  { mustResetLooper := false
    mustClearBuffer := false
    mustStopBuffering := false
    inputGain := 1
    outputGain := 1
    dryWetMix := 1 / 2
    feedback := 0
    feedbackLevel := 1
    filterLevel := 3 / 10
    rateSlew := 0
    stereoWidth := 1
    dryLevel := 1
    filterType := StereoLooper.FilterType.BP
    noteModeLeft := StereoLooper.NoteMode.NO_MODE
    noteModeRight := StereoLooper.NoteMode.NO_MODE
    nextLeftLoopStart := 0
    nextRightLoopStart := 0
    leftDirection := Direction.FORWARD
    rightDirection := Direction.FORWARD
    nextLeftLoopLength := nextLeft
    nextRightLoopLength := nextRight
    nextLeftReadRate := 1
    nextRightReadRate := 1
    nextLeftWriteRate := 1
    nextRightWriteRate := 1
    nextLeftFreeze := 0
    nextRightFreeze := 0
    leftTriggerMode := TriggerMode.LOOP
    rightTriggerMode := TriggerMode.LOOP
    mustStart := false
    mustStop := false
    mustRetrigger := false
    loopSync_ := false
    loopers_ := { LEFT := left, RIGHT := right }
    state_ := state
    filterEnvelope_ := ()
    feedbackFilter_ := ()
    sampleRate_ := 48000
    freeze_ := 0
    filterValue_ := 0
    conf_ :=
      { mode := StereoLooper.Mode.MONO
        triggerMode := TriggerMode.LOOP
        movement := Movement.FORWARD
        direction := Direction.FORWARD
        rate := 1 }
    fadeIndex := 0 }

/-- The request latches `mustResetLooper`, `mustStart`, `mustStop` and the
top-level state of a stereo looper. -/
def StereoLooper.latches {K : Type} [LinearOrderedField K] [FloorRing K]
    {L F E : Type} (st : StereoLooper K L F E) :
    Bool × Bool × Bool × StereoLooper.State :=
  (st.mustResetLooper, st.mustStart, st.mustStop, st.state_)

/-- The state at the `if (mustStart)` block of a `RECORDING`/`FROZEN` step
with no reset request: after `UpdateParameters`, the `if (mustClearBuffer)`
block and the `if (mustRetrigger)` block. -/
def StereoLooper.beforeStart {K : Type} [LinearOrderedField K] [FloorRing K]
    {L F E : Type} (ops : LooperOps K L) (dsp : DspEnv K F E)
    (st : StereoLooper K L F E) : StereoLooper K L F E :=
  StereoLooper.retriggerBlock ops
    (StereoLooper.clearBufferBlock ops (StereoLooper.UpdateParameters ops dsp st))

/-- The state at the `if (mustStop)` block of a `RECORDING`/`FROZEN` step
with no reset request: after the `if (mustStart)` block. -/
def StereoLooper.beforeStop {K : Type} [LinearOrderedField K] [FloorRing K]
    {L F E : Type} (ops : LooperOps K L) (dsp : DspEnv K F E)
    (st : StereoLooper K L F E) : StereoLooper K L F E :=
  StereoLooper.startBlock ops (StereoLooper.beforeStart ops dsp st)

/-- The stand-in stereo looper in `STARTUP` with a sample rate of 2. -/
def warmUpStereo : StereoLooper ℚ ProbeLooper Unit Unit :=
  { probeStereo StereoLooper.State.STARTUP (probeLooper 0 false) (probeLooper 0 false) 0 0 with
    sampleRate_ := 2 }

/-- The stand-in stereo looper in `RECORDING` with a start request latched,
over loopers whose `Start` and `Stop` answer `done`. -/
def startRequested (done : Bool) : StereoLooper ℚ ProbeLooper Unit Unit :=
  { probeStereo StereoLooper.State.RECORDING (probeLooper 500 done) (probeLooper 500 done)
      500 500 with
    mustStart := true }

/-- Modelled from the spec: `fclamp(in, min, max)` is declared in the library
header `Utility/dsp.h`, which is not among the sources; it clamps its first
argument to the bounds given. -/
def fclamp (x lo hi : ℚ) : ℚ := min (max x lo) hi

/-- The index of the neighbour sample that `Looper::Read` interpolates with,
`static_cast<uint32_t>(fclamp(i_idx + (forward_ ? 1 : -1), 0, bufferSamples_ - 1))`.
The sum has the type `uint32_t` of `i_idx` and is computed modulo `2^32`. -/
def neighbourIndex (s : Looper) (pos : ℚ) : Int :=
  let i_idx : Int := toIndex pos
  let next : Int := (i_idx + (if s.forward_ = true then 1 else -1)) % 4294967296
  toIndex (fclamp (next : ℚ) 0 ((s.bufferSamples_ - 1 : Int) : ℚ))

/-- Part 1 of `Looper::Read`: the value at the position, interpolated with the
neighbour sample when the position is not an integer. -/
def interpolated (s : Looper) (pos : ℚ) : ℚ :=
  -- Integer position.
  let i_idx : Int := toIndex pos
  -- Value at the integer position.
  let val : ℚ := s.buffer_ i_idx
  -- Position decimal part.
  let frac : ℚ := pos - (i_idx : ℚ)
  if frac ≠ 0 then
    let val2 : ℚ := s.buffer_ (neighbourIndex s pos)
    val + (val2 - val) * frac
  else val

/-- Rounding of a number to the nearest integer, a tie going to the even
neighbour. -/
def roundHalfEven (x : ℚ) : Int :=
  let f : Int := ⌊x⌋
  let r : ℚ := x - (f : ℚ)
  if r < 1 / 2 then f
  else if 1 / 2 < r then f + 1
  else if f % 2 = 0 then f else f + 1

/-- The `float` (IEEE 754 binary32) nearest to `q`, rounding to nearest with
ties to even, as the machine rounds the result of every `float` operation:
24 significant bits, the exponent of the leading bit not below `-126`
(smaller numbers are rounded to a multiple of `2 ^ (-149)`). Overflow to
infinity, for `|q|` of `2 ^ 128` and more, is not modelled. -/
def float32 (q : ℚ) : ℚ :=
  if q = 0 then 0
  else
    let e : Int := max (Int.log 2 |q|) (-126)
    let ulp : ℚ := (2 : ℚ) ^ (e - 23)
    (roundHalfEven (q / ulp) : ℚ) * ulp

/-- `Looper::Read`. The crossfade object `cf_` of the library is taken as the
function `cf`: `cf pos in1 in2` is what `cf_.Process(in1, in2)` returns after
`cf_.SetPos(pos)`. The crossfade position `fadeIndex_ * (1.f / samples)` is
computed as the machine computes it, in `float` arithmetic: the conversion of
`fadeIndex_`, the division and the product are each rounded by `float32`; the
arithmetic on the sample values is exact. The result is the looper after the
call and the returned value. -/
def Read (cf : ℚ → ℚ → ℚ → ℚ) (s : Looper) (pos : ℚ) : Looper × ℚ :=
  -- 1) get the value at position.
  let val : ℚ := interpolated s pos
  -- 2) fade the value if needed.
  if s.mustFadeIn_ = true ∨ s.mustFadeOut_ = true then
    let samples : ℚ := GetFadeSamples s
    let fadeFrom : ℚ := if s.mustFadeIn_ = true then 0 else 1
    let fadeTo : ℚ := if s.mustFadeIn_ = true then 1 else 0
    let s1 := { s with
      cfPos_ := float32 (float32 (s.fadeIndex_ : ℚ) * float32 (1 / samples)) }
    let val1 : ℚ := val * cf s1.cfPos_ fadeFrom fadeTo
    let s2 := { s1 with fadeIndex_ := s1.fadeIndex_ + 1 }
    let s3 :=
      if (s2.fadeIndex_ : ℚ) > samples then { s2 with mustFadeIn_ := false, mustFadeOut_ := false }
      else s2
    (s3, val1)
  else (s, val)

/-- Calling `Read` once for every position of the list, in order, ignoring
the returned values. -/
def readAll (cf : ℚ → ℚ → ℚ → ℚ) (s : Looper) (positions : List ℚ) : Looper :=
  positions.foldl (fun st pos => (Read cf st pos).1) s

/-- One move of a head by `delta` samples in the current direction (forward:
the position grows, backward: it decreases), followed by
`HandlePosBoundaries`. -/
def moveStep (isReadPos : Bool) (st : Looper × ℚ) (delta : ℚ) : Looper × ℚ :=
  HandlePosBoundaries st.1 (if st.1.forward_ = true then st.2 + delta else st.2 - delta)
    isReadPos

/-- A sequence of moves of a head, each followed by `HandlePosBoundaries`. -/
def moveAll (isReadPos : Bool) (st : Looper × ℚ) (deltas : List ℚ) : Looper × ℚ :=
  deltas.foldl (moveStep isReadPos) st

/-- A looper of capacity 100 whose buffer holds the value 1 everywhere. -/
def onesLooper : Looper :=
  { exampleLooper with buffer_ := fun _ => 1 }

/-- The pending fields of the left channel of a stereo looper. -/
def StereoLooper.leftPending {K : Type} [LinearOrderedField K] [FloorRing K]
    {L F E : Type} (st : StereoLooper K L F E) :
    Int × Direction × Int × StereoLooper.NoteMode × K × K × K :=
  (st.nextLeftLoopStart, st.leftDirection, st.nextLeftLoopLength, st.noteModeLeft,
    st.nextLeftReadRate, st.nextLeftWriteRate, st.nextLeftFreeze)

/-- The pending fields of the right channel of a stereo looper. -/
def StereoLooper.rightPending {K : Type} [LinearOrderedField K] [FloorRing K]
    {L F E : Type} (st : StereoLooper K L F E) :
    Int × Direction × Int × StereoLooper.NoteMode × K × K × K :=
  (st.nextRightLoopStart, st.rightDirection, st.nextRightLoopLength, st.noteModeRight,
    st.nextRightReadRate, st.nextRightWriteRate, st.nextRightFreeze)

/-- The member variables of a stereo looper that belong to neither channel,
the configuration `conf_` apart: the top-level state, the freeze amount, the
request flags, the gains and levels, the filter, the envelope follower, the
sample rate and the warm-up counter. -/
def StereoLooper.sharedMembers {K : Type} [LinearOrderedField K] [FloorRing K]
    {L F E : Type} (st : StereoLooper K L F E) :
    (StereoLooper.State × K × Bool × Bool × Bool × Bool × Bool × Bool × Bool)
      × (K × K × K × K × K × K × K × K × K × K)
      × (StereoLooper.FilterType × E × F × Int × Int) :=
  ((st.state_, st.freeze_, st.mustResetLooper, st.mustClearBuffer, st.mustStopBuffering,
      st.mustStart, st.mustStop, st.mustRetrigger, st.loopSync_),
    (st.inputGain, st.outputGain, st.dryWetMix, st.feedback, st.feedbackLevel, st.filterLevel,
      st.rateSlew, st.stereoWidth, st.dryLevel, st.filterValue_),
    (st.filterType, st.filterEnvelope_, st.feedbackFilter_, st.sampleRate_, st.fadeIndex))

/-- A stand-in looper with nothing buffered. -/
def emptyProbeLooper : ProbeLooper :=
  { probeLooper 0 false with bufferSamples := 0 }

/-- The condition of the first `if` of `Looper::SetReadPos`, under which a
fade in is set up. -/
def fadeInCondition (s : Looper) (pos : ℚ) : Prop :=
  (s.forward_ = true ∧ toIndex pos = s.loopStart_) ∨ (s.forward_ = false ∧ toIndex pos = s.loopEnd_)
    ∨ s.mustRestart_ = true

/-- The condition of the second `if` of `Looper::SetReadPos`, under which a
fade out is set up. -/
def fadeOutCondition (s : Looper) (pos : ℚ) : Prop :=
  (s.forward_ = true ∧ (toIndex pos : ℚ) + GetFadeSamples s = (s.loopEnd_ : ℚ))
    ∨ (s.forward_ = false ∧ (toIndex pos : ℚ) - GetFadeSamples s = (s.loopStart_ : ℚ))
    ∨ (s.forward_ = false ∧ (toIndex pos : ℚ) - GetFadeSamples s = (s.writePos_ : ℚ))

/-- A looper with a fade in just set up (`fadeIndex = 0`, `mustFadeIn` set)
and a fade length of 2 samples. -/
def fadingLooper : Looper :=
  { exampleLooper with mustFadeIn_ := true, fadeSamples_ := 2 }

/-- A looper with a fade in just set up (`fadeIndex = 0`, `mustFadeIn` set)
and a fade length of 41 samples. -/
def fade41Looper : Looper :=
  { exampleLooper with mustFadeIn_ := true, fadeSamples_ := 41 }

/-- A looper whose loop length is larger than its window: `SetLoopLength(50)`
on a looper with `loopStart = 10` going backward, which gives the window
`[10, 49]` and `loopLength = 50`. -/
def overhangLooper : Looper :=
  SetLoopLength { exampleLooper with loopStart_ := 10, forward_ := false } 50

/-- Stand-in looper operations over any number type, on a looper without
state: every operation leaves the looper as it is, every getter and `Read`
give 0, and `Start`, `Stop` and `Buffer` answer `true`. -/
def plainOps {K : Type} [LinearOrderedField K] [FloorRing K] : LooperOps K Unit :=
  { Init := fun l _ _ => l
    Reset := fun l => l
    SetLoopSync := fun l _ => l
    SetSamplesToFade := fun l _ => l
    GetReadPos := fun _ => 0
    GetLoopEnd := fun _ => 0
    SetReadPos := fun l _ => l
    SetMovement := fun l _ => l
    GetBufferSamples := fun _ => 0
    GetLoopLength := fun _ => 0
    GetLoopStart := fun _ => 0
    GetTriggerMode := fun _ => TriggerMode.LOOP
    SetTriggerMode := fun l _ => l
    GetDirection := fun _ => Direction.FORWARD
    SetDirection := fun l _ => l
    SetLoopLength := fun l _ => l
    SetLoopStart := fun l _ => l
    GetReadRate := fun _ => 0
    SetReadRate := fun l _ => l
    GetWriteRate := fun _ => 0
    SetWriteRate := fun l _ => l
    GetFreeze := fun _ => 0
    SetFreeze := fun l _ => l
    Start := fun l _ => (l, true)
    Stop := fun l _ => (l, true)
    Trigger := fun l => l
    ClearBuffer := fun l => l
    Buffer := fun l _ => (l, true)
    StopBuffering := fun l => l
    HandleFade := fun l => l
    Read := fun l _ => (l, 0)
    Write := fun l _ => l
    UpdateWritePos := fun l => l
    UpdateReadPos := fun l => l }

/-- Stand-ins for the DSP helpers over any number type, as `probeDsp`, with
`root` as the value of `fastroot`. -/
def plainDsp {K : Type} [LinearOrderedField K] [FloorRing K] (root : K) : DspEnv K Unit Unit :=
  { SoftClip := fun x => x
    fastroot := fun _ _ => root
    fonepole := fun out inp coeff => out + coeff * (inp - out)
    fmap := fun x lo hi => lo + x * (hi - lo)
    fclamp := fun x lo hi => min (max x lo) hi
    EqualCrossFade := fun a b mix => a * (1 - mix) + b * mix
    svfInit := fun f _ => f
    svfSetFreq := fun f _ => f
    svfSetDrive := fun f _ => f
    svfSetRes := fun f _ => f
    svfProcess := fun f _ => f
    svfBand := fun _ => 0
    svfHigh := fun _ => 0
    svfLow := fun _ => 0
    envGetEnv := fun e _ => (e, 0)
    kBufferSamples := 3840000
    kMinLoopLengthSamples := 48
    kMinSamplesForTone := 1440
    kMinSamplesForFlanger := 4800 }

/-- A stereo looper over any number type, on loopers without state, in the
top-level state `state` and with the stereo width `width`: unit gains, wet
signal only, no request latched. -/
def plainStereo {K : Type} [LinearOrderedField K] [FloorRing K]
    (state : StereoLooper.State) (width : K) : StereoLooper K Unit Unit Unit :=
  { mustResetLooper := false
    mustClearBuffer := false
    mustStopBuffering := false
    inputGain := 1
    outputGain := 1
    dryWetMix := 1
    feedback := 0
    feedbackLevel := 1
    filterLevel := 0
    rateSlew := 0
    stereoWidth := width
    dryLevel := 1
    filterType := StereoLooper.FilterType.BP
    noteModeLeft := StereoLooper.NoteMode.NO_MODE
    noteModeRight := StereoLooper.NoteMode.NO_MODE
    nextLeftLoopStart := 0
    nextRightLoopStart := 0
    leftDirection := Direction.FORWARD
    rightDirection := Direction.FORWARD
    nextLeftLoopLength := 0
    nextRightLoopLength := 0
    nextLeftReadRate := 1
    nextRightReadRate := 1
    nextLeftWriteRate := 1
    nextRightWriteRate := 1
    nextLeftFreeze := 0
    nextRightFreeze := 0
    leftTriggerMode := TriggerMode.LOOP
    rightTriggerMode := TriggerMode.LOOP
    mustStart := false
    mustStop := false
    mustRetrigger := false
    loopSync_ := false
    loopers_ := { LEFT := (), RIGHT := () }
    state_ := state
    filterEnvelope_ := ()
    feedbackFilter_ := ()
    sampleRate_ := 48000
    freeze_ := 0
    filterValue_ := 0
    conf_ :=
      { mode := StereoLooper.Mode.MONO
        triggerMode := TriggerMode.LOOP
        movement := Movement.FORWARD
        direction := Direction.FORWARD
        rate := 1 }
    fadeIndex := 0 }

/-! ## Projections of the operations -/

theorem SetLoopLength_loopLength (s : Looper) (x : Int) :
    (SetLoopLength s x).loopLength_ = x := rfl

theorem SetLoopLength_loopEnd (s : Looper) (x : Int) :
    (SetLoopLength s x).loopEnd_ = x - 1 := rfl

theorem SetLoopLength_bufferSamples (s : Looper) (x : Int) :
    (SetLoopLength s x).bufferSamples_ = s.bufferSamples_ := rfl

theorem SetLoopLength_loopStart (s : Looper) (x : Int) :
    (SetLoopLength s x).loopStart_ = s.loopStart_ := rfl

theorem SetLoopLength_writePos (s : Looper) (x : Int) :
    (SetLoopLength s x).writePos_ = s.writePos_ := rfl

theorem SetReadPos_loopLength (s : Looper) (pos : ℚ) :
    (SetReadPos s pos).loopLength_ = s.loopLength_ := by
  unfold SetReadPos
  dsimp only
  split_ifs <;> rfl

theorem SetReadPos_bufferSamples (s : Looper) (pos : ℚ) :
    (SetReadPos s pos).bufferSamples_ = s.bufferSamples_ := by
  unfold SetReadPos
  dsimp only
  split_ifs <;> rfl

theorem SetReadPos_loopStart (s : Looper) (pos : ℚ) :
    (SetReadPos s pos).loopStart_ = s.loopStart_ := by
  unfold SetReadPos
  dsimp only
  split_ifs <;> rfl

theorem SetReadPos_writePos (s : Looper) (pos : ℚ) :
    (SetReadPos s pos).writePos_ = s.writePos_ := by
  unfold SetReadPos
  dsimp only
  split_ifs <;> rfl

theorem StopBuffering_fields (s : Looper) :
    (StopBuffering s).bufferSamples_ = s.bufferSamples_ ∧
    (StopBuffering s).loopLength_ = s.bufferSamples_ ∧
    (StopBuffering s).loopStart_ = 0 ∧
    (StopBuffering s).writePos_ = 0 := by
  unfold StopBuffering
  simp only [SetReadPos_bufferSamples, SetReadPos_loopLength, SetReadPos_loopStart,
    SetReadPos_writePos, ResetLoopLength, SetLoopLength_loopLength,
    SetLoopLength_bufferSamples, SetLoopLength_loopStart, SetLoopLength_writePos]
  exact ⟨trivial, trivial, trivial, trivial⟩

theorem Buffer_initBufferSamples (s : Looper) (v : ℚ) :
    (Buffer s v).1.initBufferSamples_ = s.initBufferSamples_ := by
  unfold Buffer
  split_ifs <;> rfl

theorem Buffer_below (s : Looper) (v : ℚ) (h : s.writePos_ < s.initBufferSamples_) :
    (Buffer s v).2 = false ∧ (Buffer s v).1.writePos_ = s.writePos_ + 1 ∧
    (Buffer s v).1.bufferSamples_ = s.writePos_ + 1 := by
  have h1 : ¬ s.writePos_ > s.initBufferSamples_ - 1 := by omega
  simp [Buffer, h1, Write]

theorem Buffer_full (s : Looper) (v : ℚ) (h : s.initBufferSamples_ ≤ s.writePos_) :
    (Buffer s v).2 = true ∧ (Buffer s v).1 = s := by
  have h1 : s.writePos_ > s.initBufferSamples_ - 1 := by omega
  simp [Buffer, h1]

theorem bufferAll_cons (s : Looper) (v : ℚ) (values : List ℚ) :
    bufferAll s (v :: values) = bufferAll (Buffer s v).1 values := rfl

/-- While the values fit into the capacity, buffering them advances the write
position and the buffered length by their number. -/
theorem bufferAll_fits (values : List ℚ) :
    ∀ s : Looper, s.writePos_ = s.bufferSamples_ →
      s.writePos_ + (values.length : Int) ≤ s.initBufferSamples_ →
      (bufferAll s values).writePos_ = s.writePos_ + (values.length : Int) ∧
      (bufferAll s values).bufferSamples_ = s.writePos_ + (values.length : Int) := by
  induction values with
  | nil =>
    intro s h _
    simp [bufferAll, h]
  | cons v vs ih =>
    intro s h hfit
    simp only [List.length_cons, Nat.cast_add, Nat.cast_one] at hfit
    have hlt : s.writePos_ < s.initBufferSamples_ := by omega
    obtain ⟨_, hw, hb⟩ := Buffer_below s v hlt
    have hcap := Buffer_initBufferSamples s v
    have := ih (Buffer s v).1 (by rw [hw, hb]) (by rw [hw, hcap]; omega)
    rw [bufferAll_cons]
    simp only [List.length_cons, Nat.cast_add, Nat.cast_one]
    rw [this.1, this.2, hw]
    constructor <;> ring

/-- Buffering never lets the buffered length exceed the capacity. -/
theorem bufferAll_le_capacity (values : List ℚ) :
    ∀ s : Looper, s.bufferSamples_ ≤ s.initBufferSamples_ →
      (bufferAll s values).bufferSamples_ ≤ s.initBufferSamples_ := by
  induction values with
  | nil =>
    intro s h
    simpa [bufferAll] using h
  | cons v vs ih =>
    intro s h
    rw [bufferAll_cons]
    have hcap := Buffer_initBufferSamples s v
    rw [← hcap]
    apply ih
    rw [hcap]
    by_cases hlt : s.writePos_ < s.initBufferSamples_
    · rw [(Buffer_below s v hlt).2.2]
      omega
    · rw [(Buffer_full s v (by omega)).2]
      exact h

theorem Init_fields (s : Looper) (sampleRate : Int) (mem : Int → ℚ) (maxBufferSeconds : Int) :
    (Init s sampleRate mem maxBufferSeconds).initBufferSamples_ = sampleRate * maxBufferSeconds ∧
    (Init s sampleRate mem maxBufferSeconds).writePos_ = 0 ∧
    (Init s sampleRate mem maxBufferSeconds).bufferSamples_ = 0 :=
  ⟨rfl, rfl, rfl⟩

/-! ## Loop length -/

/-- C1 (as stated, refuted): with 100 samples buffered, `SetLoopLength(200)`
stores 200, which is above `bufferSamples`; and `SetLoopLength(1)` stores 1,
which is below a floor of 48 samples and is not raised to it. The length is
not clamped. -/
theorem C1_SetLoopLength_not_clamped :
    (SetLoopLength exampleLooper 200).bufferSamples_ = 100 ∧
    (SetLoopLength exampleLooper 200).loopLength_ = 200 ∧
    ¬ ((SetLoopLength exampleLooper 200).loopLength_
        ≤ (SetLoopLength exampleLooper 200).bufferSamples_) ∧
    (SetLoopLength exampleLooper 1).loopLength_ = 1 ∧
    ¬ ((48 : Int) ≤ (SetLoopLength exampleLooper 1).loopLength_) := by
  simp [SetLoopLength, exampleLooper]

/-- C1 (amended): for every requested length `x`, every floor `kMinSamples`
and every looper state, `SetLoopLength(x)` stores `x` itself and leaves
`bufferSamples` unchanged; so the stored length lies in
`[kMinSamples, bufferSamples]` exactly when `x` does. -/
theorem C1_SetLoopLength_stores_length (kMinSamples : Int) (s : Looper) (x : Int) :
    (SetLoopLength s x).loopLength_ = x ∧
    (SetLoopLength s x).bufferSamples_ = s.bufferSamples_ ∧
    ((kMinSamples ≤ (SetLoopLength s x).loopLength_ ∧
        (SetLoopLength s x).loopLength_ ≤ (SetLoopLength s x).bufferSamples_)
      ↔ (kMinSamples ≤ x ∧ x ≤ s.bufferSamples_)) := by
  simp [SetLoopLength]

/-- C2 (as stated, refuted): with `loopStart = 10`, `SetLoopLength(50)` gives
`loopEnd = 49`, not `10 + 50 - 1 = 59`, and then
`loopEnd - loopStart + 1 = 40` differs from `loopLength = 50`. -/
theorem C2_loopEnd_ignores_loopStart :
    (SetLoopLength { exampleLooper with loopStart_ := 10 } 50).loopStart_ = 10 ∧
    (SetLoopLength { exampleLooper with loopStart_ := 10 } 50).loopEnd_ = 49 ∧
    (SetLoopLength { exampleLooper with loopStart_ := 10 } 50).loopEnd_
      ≠ (SetLoopLength { exampleLooper with loopStart_ := 10 } 50).loopStart_ + 50 - 1 ∧
    (SetLoopLength { exampleLooper with loopStart_ := 10 } 50).loopLength_
      ≠ (SetLoopLength { exampleLooper with loopStart_ := 10 } 50).loopEnd_
        - (SetLoopLength { exampleLooper with loopStart_ := 10 } 50).loopStart_ + 1 := by
  simp [SetLoopLength, exampleLooper]

/-- C2 (amended): for every `loopStart` and every length `n ≥ 1`,
`SetLoopLength(n)` leaves `loopStart` unchanged and sets `loopEnd = n - 1`,
whatever `loopStart` is; so `loopEnd = loopStart + n - 1` and the identity
`loopLength = loopEnd - loopStart + 1` hold exactly when `loopStart = 0`. -/
theorem C2_SetLoopLength_loopEnd (s : Looper) (n : Int) (hn : 1 ≤ n) :
    (SetLoopLength s n).loopStart_ = s.loopStart_ ∧
    (SetLoopLength s n).loopEnd_ = n - 1 ∧
    0 ≤ (SetLoopLength s n).loopEnd_ ∧
    ((SetLoopLength s n).loopEnd_ = (SetLoopLength s n).loopStart_ + n - 1
      ↔ s.loopStart_ = 0) ∧
    ((SetLoopLength s n).loopLength_
        = (SetLoopLength s n).loopEnd_ - (SetLoopLength s n).loopStart_ + 1
      ↔ s.loopStart_ = 0) := by
  simp only [SetLoopLength_loopStart, SetLoopLength_loopEnd, SetLoopLength_loopLength]
  refine ⟨trivial, trivial, by omega, ?_, ?_⟩ <;> constructor <;> intro h <;> omega

theorem C2_SetLoopLength_loopEnd_witness :
    (1 : Int) ≤ 50 ∧
    (SetLoopLength { exampleLooper with loopStart_ := 10 } 50).loopEnd_ = 50 - 1 :=
  ⟨by decide, (C2_SetLoopLength_loopEnd { exampleLooper with loopStart_ := 10 } 50 (by decide)).2.1⟩

/-! ## Buffering -/

/-- C3 (as stated, refuted): with capacity 100, buffering 10 samples and
stopping gives `bufferSamples = 10` and `loopLength = 10`; the length is not
raised to a floor of 48 samples, although `10 < 48`. -/
theorem C3_no_floor_after_buffering :
    (StopBuffering (bufferAll (Init exampleLooper 100 (fun _ => 0) 1)
      (List.replicate 10 1))).bufferSamples_ = 10 ∧
    (StopBuffering (bufferAll (Init exampleLooper 100 (fun _ => 0) 1)
      (List.replicate 10 1))).loopLength_ = 10 ∧
    ¬ ((10 : Int) < 48 →
      (StopBuffering (bufferAll (Init exampleLooper 100 (fun _ => 0) 1)
        (List.replicate 10 1))).loopLength_ = 48) := by
  have h := StopBuffering_fields (bufferAll (Init exampleLooper 100 (fun _ => 0) 1)
      (List.replicate 10 1))
  have hb := (bufferAll_fits (List.replicate 10 1)
      (Init exampleLooper 100 (fun _ => 0) 1) rfl (by decide)).2
  rw [h.1, h.2.1, hb]
  decide

/-- C3 (amended): for every `n` in `[0, capacity]`
(`capacity = sampleRate * maxBufferSeconds`), starting from a freshly
initialised looper, calling `Buffer` `n` times and then `StopBuffering` yields
`bufferSamples = n` and `loopLength = n` (for every `n`, with no floor), and
`loopStart = 0` and `writePos = 0`. -/
theorem C3_buffer_then_stop (s0 : Looper) (sampleRate : Int) (mem : Int → ℚ)
    (maxBufferSeconds : Int) (values : List ℚ)
    (hn : (values.length : Int) ≤ sampleRate * maxBufferSeconds) :
    (StopBuffering (bufferAll (Init s0 sampleRate mem maxBufferSeconds) values)).bufferSamples_
      = (values.length : Int) ∧
    (StopBuffering (bufferAll (Init s0 sampleRate mem maxBufferSeconds) values)).loopLength_
      = (values.length : Int) ∧
    (StopBuffering (bufferAll (Init s0 sampleRate mem maxBufferSeconds) values)).loopStart_ = 0 ∧
    (StopBuffering (bufferAll (Init s0 sampleRate mem maxBufferSeconds) values)).writePos_ = 0 := by
  have h := StopBuffering_fields (bufferAll (Init s0 sampleRate mem maxBufferSeconds) values)
  obtain ⟨hc, hw, hb⟩ := Init_fields s0 sampleRate mem maxBufferSeconds
  have hfit := (bufferAll_fits values (Init s0 sampleRate mem maxBufferSeconds)
      (by rw [hw, hb]) (by rw [hw, hc]; omega)).2
  rw [hw, zero_add] at hfit
  rw [h.1, h.2.1, hfit]
  exact ⟨rfl, rfl, h.2.2.1, h.2.2.2⟩

theorem C3_buffer_then_stop_witness :
    ((List.replicate 10 (1 : ℚ)).length : Int) ≤ 100 * 1 ∧
    (StopBuffering (bufferAll (Init exampleLooper 100 (fun _ => 0) 1)
      (List.replicate 10 1))).loopLength_ = ((List.replicate 10 (1 : ℚ)).length : Int) :=
  ⟨by decide,
    (C3_buffer_then_stop exampleLooper 100 (fun _ => 0) 1 (List.replicate 10 1) (by decide)).2.1⟩

/-- C4: one call of `Buffer(v)` on a looper of capacity at least 1 (which
keeps `initBufferSamples_ - 1` from wrapping around if the member is
unsigned): if
`writePos < capacity` it returns false, increases `writePos` by exactly 1 and
sets `bufferSamples` to the new `writePos`; if `writePos >= capacity` it
returns true and leaves the looper (so `writePos` and `bufferSamples`)
unchanged. Consequently, from a state with `bufferSamples <= capacity`,
`bufferSamples <= capacity` holds after any number of calls. -/
theorem C4_Buffer_step (s : Looper) (v : ℚ) (_hcap : 1 ≤ s.initBufferSamples_) :
    (s.writePos_ < s.initBufferSamples_ →
      (Buffer s v).2 = false ∧ (Buffer s v).1.writePos_ = s.writePos_ + 1 ∧
      (Buffer s v).1.bufferSamples_ = (Buffer s v).1.writePos_) ∧
    (s.initBufferSamples_ ≤ s.writePos_ →
      (Buffer s v).2 = true ∧ (Buffer s v).1 = s) ∧
    (s.bufferSamples_ ≤ s.initBufferSamples_ →
      ∀ values : List ℚ, (bufferAll s values).bufferSamples_ ≤ s.initBufferSamples_) := by
  refine ⟨fun h => ?_, fun h => Buffer_full s v h, fun h values => bufferAll_le_capacity values s h⟩
  obtain ⟨h1, h2, h3⟩ := Buffer_below s v h
  exact ⟨h1, h2, by rw [h3, h2]⟩

theorem C4_Buffer_step_witness :
    (1 : Int) ≤ exampleLooper.initBufferSamples_ ∧
    (Buffer exampleLooper 1).2 = false ∧ (Buffer exampleLooper 1).1.writePos_ = 0 + 1 :=
  ⟨by decide, ((C4_Buffer_step exampleLooper 1 (by decide)).1 (by decide)).1,
    ((C4_Buffer_step exampleLooper 1 (by decide)).1 (by decide)).2.1⟩

/-! ## Nudging the loop length -/

/-- Composition and bounds of `IncrementLoopLength`: from a state with
`kMinSamples <= loopLength <= bufferSamples`, incrementing by `a` and then by
`b` gives the loop length of incrementing by `a + b`, and the results stay in
`[kMinSamples, bufferSamples]`. -/
theorem IncrementLoopLength_compose (kMinSamples : Int) (s : Looper) (a b : Int)
    (ha : 0 ≤ a) (hb : 0 ≤ b)
    (hlo : kMinSamples ≤ s.loopLength_) (hhi : s.loopLength_ ≤ s.bufferSamples_) :
    (IncrementLoopLength (IncrementLoopLength s a) b).loopLength_
      = (IncrementLoopLength s (a + b)).loopLength_ ∧
    kMinSamples ≤ (IncrementLoopLength s a).loopLength_ ∧
    (IncrementLoopLength s a).loopLength_ ≤ s.bufferSamples_ := by
  simp only [IncrementLoopLength, SetLoopLength_loopLength, SetLoopLength_bufferSamples]
  refine ⟨?_, ?_, ?_⟩ <;> split_ifs <;> omega

/-- C5 (the code at the failing input): with `kMinSamples = 48`,
`bufferSamples = 100` and `loopLength = 100`, `DecrementLoopLength(60)` leaves
`loopLength = 40`, below the floor; and `DecrementLoopLength(100)` followed by
`DecrementLoopLength(10)` gives 38 while `DecrementLoopLength(110)` gives 48. -/
theorem C5_DecrementLoopLength_below_floor :
    exampleLooper.loopLength_ = 100 ∧ exampleLooper.bufferSamples_ = 100 ∧
    (DecrementLoopLength 48 exampleLooper 60).loopLength_ = 40 ∧
    (DecrementLoopLength 48 (DecrementLoopLength 48 exampleLooper 100) 10).loopLength_ = 38 ∧
    (DecrementLoopLength 48 exampleLooper 110).loopLength_ = 48 := by
  simp [DecrementLoopLength, SetLoopLength, exampleLooper]

/-! ## Boundary handling, normal window -/

/-- C6: in a normal window (`loopEnd > loopStart`) with a movement other than
`PENDULUM`, `HandlePosBoundaries` maps a forward-moving position
`pos > loopEnd` to `loopStart` and a backward-moving position
`pos < loopStart` to `loopEnd`, leaves every other position unchanged, and
never changes the looper (so never the direction). -/
theorem C6_normal_window_wrap (s : Looper) (pos : ℚ) (isReadPos : Bool)
    (hwin : s.loopEnd_ > s.loopStart_) (hmov : s.movement_ ≠ Movement.PENDULUM) :
    (s.forward_ = true ∧ pos > (s.loopEnd_ : ℚ) →
      (HandlePosBoundaries s pos isReadPos).2 = (s.loopStart_ : ℚ)) ∧
    (s.forward_ = false ∧ pos < (s.loopStart_ : ℚ) →
      (HandlePosBoundaries s pos isReadPos).2 = (s.loopEnd_ : ℚ)) ∧
    (¬ (s.forward_ = true ∧ pos > (s.loopEnd_ : ℚ)) ∧
      ¬ (s.forward_ = false ∧ pos < (s.loopStart_ : ℚ)) →
      (HandlePosBoundaries s pos isReadPos).2 = pos) ∧
    (HandlePosBoundaries s pos isReadPos).1 = s ∧
    (HandlePosBoundaries s pos isReadPos).1.forward_ = s.forward_ := by
  have hm : ¬ Movement.PENDULUM = s.movement_ := fun h => hmov h.symm
  refine ⟨fun h => ?_, fun h => ?_, fun h => ?_, ?_, ?_⟩
  · simp [HandlePosBoundaries, hwin, hm, h.1, h.2]
  · simp [HandlePosBoundaries, hwin, hm, h.1, h.2]
  · obtain ⟨h1, h2⟩ := h
    simp only [HandlePosBoundaries, hwin, if_true, if_neg h1, if_neg h2]
  · unfold HandlePosBoundaries
    simp only [hwin, if_true, if_neg hm]
    split_ifs <;> rfl
  · unfold HandlePosBoundaries
    simp only [hwin, if_true, if_neg hm]
    split_ifs <;> rfl

theorem C6_normal_window_wrap_witness :
    halfLoopLooper.loopEnd_ > halfLoopLooper.loopStart_ ∧
    (HandlePosBoundaries halfLoopLooper 24000 true).2 = ((0 : Int) : ℚ) :=
  ⟨by decide,
    (C6_normal_window_wrap halfLoopLooper 24000 true (by decide) (by decide)).1
      ⟨rfl, by norm_num [halfLoopLooper]⟩⟩

/-- C7: pendulum reflection in a normal window (`loopEnd > loopStart`,
movement `PENDULUM`): a forward position `pos > loopEnd` becomes exactly
`loopEnd` and a backward position `pos < loopStart` becomes exactly
`loopStart`; in both cases the direction is inverted if `isReadPos` is true
and kept if it is false; every other position leaves position and looper
unchanged; so for the write head the direction is unchanged for every input. -/
theorem C7_pendulum_reflection (s : Looper) (pos : ℚ) (isReadPos : Bool)
    (hwin : s.loopEnd_ > s.loopStart_) (hmov : s.movement_ = Movement.PENDULUM) :
    (s.forward_ = true ∧ pos > (s.loopEnd_ : ℚ) →
      (HandlePosBoundaries s pos isReadPos).2 = (s.loopEnd_ : ℚ) ∧
      ((HandlePosBoundaries s pos isReadPos).1.forward_ = (!s.forward_) ↔ isReadPos = true)) ∧
    (s.forward_ = false ∧ pos < (s.loopStart_ : ℚ) →
      (HandlePosBoundaries s pos isReadPos).2 = (s.loopStart_ : ℚ) ∧
      ((HandlePosBoundaries s pos isReadPos).1.forward_ = (!s.forward_) ↔ isReadPos = true)) ∧
    (¬ (s.forward_ = true ∧ pos > (s.loopEnd_ : ℚ)) ∧
      ¬ (s.forward_ = false ∧ pos < (s.loopStart_ : ℚ)) →
      HandlePosBoundaries s pos isReadPos = (s, pos)) ∧
    (isReadPos = false → (HandlePosBoundaries s pos isReadPos).1 = s) := by
  have hm : Movement.PENDULUM = s.movement_ := hmov.symm
  refine ⟨fun h => ?_, fun h => ?_, fun h => ?_, fun h => ?_⟩
  · cases isReadPos <;> simp [HandlePosBoundaries, hwin, hm, h.1, h.2]
  · cases isReadPos <;> simp [HandlePosBoundaries, hwin, hm, h.1, h.2]
  · obtain ⟨h1, h2⟩ := h
    simp only [HandlePosBoundaries, hwin, if_true, if_neg h1, if_neg h2]
  · subst h
    unfold HandlePosBoundaries
    simp only [hwin, if_true, if_pos hm]
    split_ifs <;> first | rfl | contradiction

theorem C7_pendulum_reflection_witness :
    pendulumLooper.loopEnd_ > pendulumLooper.loopStart_ ∧
    (HandlePosBoundaries pendulumLooper 5 true).2 = ((4 : Int) : ℚ) ∧
    (HandlePosBoundaries pendulumLooper 5 true).1.forward_ = false :=
  ⟨by decide,
    ((C7_pendulum_reflection pendulumLooper 5 true (by decide) rfl).1
      ⟨rfl, by norm_num [pendulumLooper]⟩).1,
    (((C7_pendulum_reflection pendulumLooper 5 true (by decide) rfl).1
      ⟨rfl, by norm_num [pendulumLooper]⟩).2).2 rfl⟩

/-! ## The pendulum orbit -/

theorem unitStep_forward_inside (s : Looper) (pos : ℚ) (b : Bool)
    (hwin : s.loopEnd_ > s.loopStart_) (hf : s.forward_ = true)
    (h : pos + 1 ≤ (s.loopEnd_ : ℚ)) :
    unitStep b (s, pos) = (s, pos + 1) := by
  have h1 : ¬ (pos + 1 > (s.loopEnd_ : ℚ)) := not_lt.mpr h
  simp only [unitStep, HandlePosBoundaries, hwin, hf, if_true]
  rw [if_neg (fun hc => h1 hc.2), if_neg (fun hc => Bool.noConfusion hc.1)]

theorem unitStep_forward_bounce (s : Looper) (pos : ℚ)
    (hwin : s.loopEnd_ > s.loopStart_) (hmov : s.movement_ = Movement.PENDULUM)
    (hf : s.forward_ = true) (h : pos + 1 > (s.loopEnd_ : ℚ)) :
    unitStep true (s, pos) = ({ s with forward_ := false }, (s.loopEnd_ : ℚ)) := by
  simp only [unitStep, HandlePosBoundaries, hwin, hf, if_true]
  rw [if_pos ⟨trivial, h⟩, if_pos hmov.symm]
  rfl

theorem unitStep_backward_inside (s : Looper) (pos : ℚ) (b : Bool)
    (hwin : s.loopEnd_ > s.loopStart_) (hf : s.forward_ = false)
    (h : (s.loopStart_ : ℚ) ≤ pos - 1) :
    unitStep b (s, pos) = (s, pos - 1) := by
  have h1 : ¬ (pos - 1 < (s.loopStart_ : ℚ)) := not_lt.mpr h
  simp only [unitStep, HandlePosBoundaries, hwin, hf, if_true]
  rw [if_neg (by decide : ¬ (false = true)), if_neg (fun hc => Bool.noConfusion hc.1),
    if_neg (fun hc => h1 hc.2)]

theorem unitStep_backward_bounce (s : Looper) (pos : ℚ)
    (hwin : s.loopEnd_ > s.loopStart_) (hmov : s.movement_ = Movement.PENDULUM)
    (hf : s.forward_ = false) (h : pos - 1 < (s.loopStart_ : ℚ)) :
    unitStep true (s, pos) = ({ s with forward_ := true }, (s.loopStart_ : ℚ)) := by
  simp only [unitStep, HandlePosBoundaries, hwin, hf, if_true]
  rw [if_neg (by decide : ¬ (false = true)), if_neg (fun hc => Bool.noConfusion hc.1),
    if_pos ⟨trivial, h⟩, if_pos hmov.symm]
  rfl

/-- The orbit of the read head in `PENDULUM` movement, in closed form: it
climbs from `loopStart` for `L - 1` steps, is reflected at `loopEnd`, descends
for `L - 1` steps and is reflected at `loopStart`. -/
theorem pendulum_orbit (s : Looper) (L : ℕ)
    (hwin : s.loopEnd_ > s.loopStart_) (hmov : s.movement_ = Movement.PENDULUM)
    (hf : s.forward_ = true) (hL : s.loopEnd_ - s.loopStart_ + 1 = (L : Int)) :
    ∀ k : ℕ, k ≤ 2 * L →
      (unitStep true)^[k] (s, (s.loopStart_ : ℚ)) =
        if k < L then (s, (s.loopStart_ : ℚ) + (k : ℚ))
        else if k < 2 * L then
          ({ s with forward_ := false }, (s.loopEnd_ : ℚ) - ((k : ℚ) - (L : ℚ)))
        else (s, (s.loopStart_ : ℚ)) := by
  have hLq : (s.loopEnd_ : ℚ) - (s.loopStart_ : ℚ) + 1 = (L : ℚ) := by exact_mod_cast hL
  have hL2 : 2 ≤ L := by omega
  have hsB : ({ s with forward_ := false } : Looper).loopEnd_
      > ({ s with forward_ := false } : Looper).loopStart_ := hwin
  have hback : ({ ({ s with forward_ := false } : Looper) with forward_ := true } : Looper) = s := by
    cases s
    simp only at hf
    subst hf
    rfl
  intro k
  induction k with
  | zero =>
    intro _
    rw [if_pos (by omega)]
    simp
  | succ k ih =>
    intro hk
    rw [Function.iterate_succ_apply', ih (by omega)]
    by_cases h1 : k + 1 < L
    · rw [if_pos (by omega), if_pos h1]
      have hq : ((k : ℚ) + 2) ≤ (L : ℚ) := by
        have : k + 2 ≤ L := by omega
        exact_mod_cast this
      rw [unitStep_forward_inside s _ true hwin hf (by linarith)]
      push_cast
      rw [add_assoc]
    · by_cases h2 : k + 1 = L
      · rw [if_pos (by omega), if_neg h1, if_pos (by omega)]
        have hq : ((k : ℚ) + 1) = (L : ℚ) := by exact_mod_cast h2
        rw [unitStep_forward_bounce s _ hwin hmov hf (by linarith)]
        congr 1
        push_cast
        linarith
      · by_cases h3 : k + 1 < 2 * L
        · rw [if_neg (by omega), if_pos (by omega), if_neg h1, if_pos h3]
          have hq : ((k : ℚ) + 2) ≤ 2 * (L : ℚ) := by
            have : k + 2 ≤ 2 * L := by omega
            exact_mod_cast this
          rw [unitStep_backward_inside _ _ true hsB rfl (by
            show (s.loopStart_ : ℚ) ≤ _
            linarith)]
          congr 1
          push_cast
          ring
        · rw [if_neg (by omega), if_pos (by omega), if_neg h1, if_neg h3]
          have hq : ((k : ℚ) + 1) = 2 * (L : ℚ) := by
            have : k + 1 = 2 * L := by omega
            exact_mod_cast this
          rw [unitStep_backward_bounce _ _ hsB hmov rfl (by
            show _ < (s.loopStart_ : ℚ)
            linarith)]
          rw [hback]

/-- The direction along the pendulum orbit: forward exactly before the first
reflection and after the second one. -/
theorem pendulum_orbit_forward (s : Looper) (L : ℕ)
    (hwin : s.loopEnd_ > s.loopStart_) (hmov : s.movement_ = Movement.PENDULUM)
    (hf : s.forward_ = true) (hL : s.loopEnd_ - s.loopStart_ + 1 = (L : Int))
    (k : ℕ) (hk : k ≤ 2 * L) :
    (((unitStep true)^[k] (s, (s.loopStart_ : ℚ))).1.forward_ = true) ↔ (k < L ∨ k = 2 * L) := by
  rw [pendulum_orbit s L hwin hmov hf hL k hk]
  by_cases h1 : k < L
  · rw [if_pos h1]
    simp [hf, h1]
  · by_cases h2 : k < 2 * L
    · rw [if_neg h1, if_pos h2]
      simp only [Bool.false_eq_true, false_iff]
      omega
    · rw [if_neg h1, if_neg h2]
      simp only [hf, true_iff]
      omega

/-- C8: pendulum period. In a normal window with movement `PENDULUM`, let `L`
be `loopEnd - loopStart + 1` and let one step add 1 to the read position when
forward (subtract 1 when backward) and then apply `HandlePosBoundaries` as the
read head. Starting at (`loopStart`, forward), the head is back at
(`loopStart`, forward) after `2 * L` steps and at no step in between; after `L`
steps it is at `loopEnd` going backward; and the direction changes at exactly
two steps of the period, the `L`-th and the `2 * L`-th. -/
theorem C8_pendulum_period (s : Looper) (L : ℕ)
    (hwin : s.loopEnd_ > s.loopStart_) (hmov : s.movement_ = Movement.PENDULUM)
    (hf : s.forward_ = true) (hL : s.loopEnd_ - s.loopStart_ + 1 = (L : Int)) :
    (unitStep true)^[2 * L] (s, (s.loopStart_ : ℚ)) = (s, (s.loopStart_ : ℚ)) ∧
    (∀ k : ℕ, 0 < k → k < 2 * L →
      ¬ (((unitStep true)^[k] (s, (s.loopStart_ : ℚ))).2 = (s.loopStart_ : ℚ) ∧
          ((unitStep true)^[k] (s, (s.loopStart_ : ℚ))).1.forward_ = true)) ∧
    (unitStep true)^[L] (s, (s.loopStart_ : ℚ))
      = ({ s with forward_ := false }, (s.loopEnd_ : ℚ)) ∧
    (∀ k : ℕ, k < 2 * L →
      (((unitStep true)^[k + 1] (s, (s.loopStart_ : ℚ))).1.forward_
          ≠ ((unitStep true)^[k] (s, (s.loopStart_ : ℚ))).1.forward_
        ↔ (k + 1 = L ∨ k + 1 = 2 * L))) ∧
    ((Finset.range (2 * L)).filter (fun k =>
      ((unitStep true)^[k + 1] (s, (s.loopStart_ : ℚ))).1.forward_
        ≠ ((unitStep true)^[k] (s, (s.loopStart_ : ℚ))).1.forward_)).card = 2 := by
  have hL2 : 2 ≤ L := by omega
  have hchange : ∀ k : ℕ, k < 2 * L →
      (((unitStep true)^[k + 1] (s, (s.loopStart_ : ℚ))).1.forward_
          ≠ ((unitStep true)^[k] (s, (s.loopStart_ : ℚ))).1.forward_
        ↔ (k + 1 = L ∨ k + 1 = 2 * L)) := by
    intro k hk
    have h1 := pendulum_orbit_forward s L hwin hmov hf hL (k + 1) (by omega)
    have h2 := pendulum_orbit_forward s L hwin hmov hf hL k (by omega)
    cases hA : ((unitStep true)^[k + 1] (s, (s.loopStart_ : ℚ))).1.forward_ <;>
      cases hB : ((unitStep true)^[k] (s, (s.loopStart_ : ℚ))).1.forward_ <;>
      rw [hA] at h1 <;> rw [hB] at h2 <;>
      simp only [Bool.false_eq_true, false_iff, true_iff, ne_eq, not_true_eq_false,
        not_false_eq_true, reduceCtorEq] at h1 h2 ⊢ <;>
      omega
  refine ⟨?_, ?_, ?_, hchange, ?_⟩
  · rw [pendulum_orbit s L hwin hmov hf hL (2 * L) le_rfl, if_neg (by omega), if_neg (by omega)]
  · intro k hk0 hk
    rw [pendulum_orbit s L hwin hmov hf hL k (by omega)]
    by_cases h1 : k < L
    · rw [if_pos h1]
      intro hc
      have hk0q : (0 : ℚ) < (k : ℚ) := by exact_mod_cast hk0
      have := hc.1
      simp only [add_right_eq_self] at this
      linarith
    · rw [if_neg h1, if_pos hk]
      intro hc
      exact Bool.noConfusion hc.2
  · rw [pendulum_orbit s L hwin hmov hf hL L (by omega), if_neg (by omega), if_pos (by omega)]
    simp
  · have hset : (Finset.range (2 * L)).filter (fun k =>
        ((unitStep true)^[k + 1] (s, (s.loopStart_ : ℚ))).1.forward_
          ≠ ((unitStep true)^[k] (s, (s.loopStart_ : ℚ))).1.forward_)
        = {L - 1, 2 * L - 1} := by
      ext k
      simp only [Finset.mem_filter, Finset.mem_range, Finset.mem_insert, Finset.mem_singleton]
      constructor
      · rintro ⟨hk, hc⟩
        have := (hchange k hk).1 hc
        omega
      · intro hk
        have hk2 : k < 2 * L := by omega
        exact ⟨hk2, (hchange k hk2).2 (by omega)⟩
    rw [hset, Finset.card_pair (by omega)]

theorem C8_pendulum_period_witness :
    pendulumLooper.loopEnd_ > pendulumLooper.loopStart_ ∧
    pendulumLooper.loopEnd_ - pendulumLooper.loopStart_ + 1 = ((3 : ℕ) : Int) ∧
    (unitStep true)^[2 * 3] (pendulumLooper, (pendulumLooper.loopStart_ : ℚ))
      = (pendulumLooper, (pendulumLooper.loopStart_ : ℚ)) :=
  ⟨by decide, by decide, (C8_pendulum_period pendulumLooper 3 (by decide) rfl rfl (by decide)).1⟩

/-! ## Boundary handling, inverted window -/

theorem toIndex_bounds (q : ℚ) (B : Int) (h0 : 0 ≤ q) (hB : q < (B : ℚ)) :
    0 ≤ toIndex q ∧ toIndex q ≤ B - 1 := by
  have hfl : 0 ≤ ⌊q⌋ := Int.floor_nonneg.mpr h0
  have hlt : ⌊q⌋ < B := Int.floor_lt.mpr hB
  unfold toIndex
  rw [Int.toNat_of_nonneg hfl]
  omega

theorem toIndex_intCast (n : Int) (h0 : 0 ≤ n) : toIndex (n : ℚ) = n := by
  unfold toIndex
  rw [Int.floor_intCast, Int.toNat_of_nonneg h0]

/-- Inverted window, the positions that stay in bounds: with
`0 <= loopEnd < loopStart <= bufferSamples - 1` and a head position `p` in
`[0, bufferSamples)`, one unit step gives a valid buffer index in every case
except that of a forward head with `p + 1 = bufferSamples`. -/
theorem inverted_unitStep_in_bounds (s : Looper) (p : ℚ) (isReadPos : Bool)
    (hwin : s.loopEnd_ < s.loopStart_) (hlo : 0 ≤ s.loopEnd_)
    (hhi : s.loopStart_ ≤ s.bufferSamples_ - 1)
    (hp0 : 0 ≤ p) (hp : p < (s.bufferSamples_ : ℚ))
    (hne : ¬ (s.forward_ = true ∧ p + 1 = (s.bufferSamples_ : ℚ))) :
    0 ≤ toIndex (unitStep isReadPos (s, p)).2 ∧
    toIndex (unitStep isReadPos (s, p)).2 ≤ s.bufferSamples_ - 1 := by
  have hnw : ¬ s.loopEnd_ > s.loopStart_ := by omega
  have hle : toIndex (s.loopEnd_ : ℚ) = s.loopEnd_ := toIndex_intCast _ hlo
  have hls : toIndex (s.loopStart_ : ℚ) = s.loopStart_ := toIndex_intCast _ (by omega)
  have hz : toIndex (0 : ℚ) = 0 := by simpa using toIndex_intCast 0 le_rfl
  have hB1 : toIndex ((s.bufferSamples_ - 1 : Int) : ℚ) = s.bufferSamples_ - 1 :=
    toIndex_intCast _ (by omega)
  unfold unitStep HandlePosBoundaries
  simp only [if_neg hnw]
  by_cases hf : s.forward_ = true
  · simp only [hf, if_true]
    have hne1 : p + 1 ≠ (s.bufferSamples_ : ℚ) := fun h => hne ⟨hf, h⟩
    split_ifs
    · rw [hz]; omega
    · rw [hle]; omega
    · rw [hle]; omega
    · rw [hls]; omega
    · rename_i h1 _
      exact toIndex_bounds (p + 1) s.bufferSamples_ (by linarith)
        (lt_of_le_of_ne (not_lt.mp h1) hne1)
  · have hfb : s.forward_ = false := by simpa using hf
    simp only [hfb, Bool.false_eq_true, if_false]
    split_ifs
    · rw [hB1]; omega
    · rw [hls]; omega
    · rw [hls]; omega
    · rw [hle]; omega
    · rename_i h1 _
      exact toIndex_bounds (p - 1) s.bufferSamples_ (not_lt.mp h1) (by linarith)

theorem inverted_unitStep_in_bounds_witness :
    0 ≤ toIndex (unitStep true (invertedLooper Movement.FORWARD false, 0)).2 ∧
    toIndex (unitStep true (invertedLooper Movement.FORWARD false, 0)).2
      ≤ (invertedLooper Movement.FORWARD false).bufferSamples_ - 1 :=
  inverted_unitStep_in_bounds (invertedLooper Movement.FORWARD false) 0 true
    (by decide) (by decide) (by decide) le_rfl (by norm_num [invertedLooper])
    (fun h => Bool.noConfusion h.1)

/-- C9 (the code at the failing input): inverted window `loopStart = 70`,
`loopEnd = 49` in a buffer of 100 samples, direction forward, head at the last
sample `p = 99`. Moving one sample forward gives 100; `HandlePosBoundaries`
tests `pos > bufferSamples`, leaves 100 unchanged, and 100 is not an index in
`[0, 99]`. -/
theorem C9_inverted_forward_overrun :
    (invertedLooper Movement.FORWARD true).loopEnd_
      < (invertedLooper Movement.FORWARD true).loopStart_ ∧
    (invertedLooper Movement.FORWARD true).loopStart_
      ≤ (invertedLooper Movement.FORWARD true).bufferSamples_ - 1 ∧
    (99 : ℚ) < ((invertedLooper Movement.FORWARD true).bufferSamples_ : ℚ) ∧
    (unitStep true (invertedLooper Movement.FORWARD true, 99)).2 = 100 ∧
    toIndex (unitStep true (invertedLooper Movement.FORWARD true, 99)).2 = 100 ∧
    ¬ (toIndex (unitStep true (invertedLooper Movement.FORWARD true, 99)).2
        ≤ (invertedLooper Movement.FORWARD true).bufferSamples_ - 1) := by
  have h : (unitStep true (invertedLooper Movement.FORWARD true, 99)).2 = 100 := by
    norm_num [unitStep, HandlePosBoundaries, invertedLooper]
  have hi : toIndex (100 : ℚ) = 100 := by simpa using toIndex_intCast 100 (by decide)
  rw [h, hi]
  refine ⟨by decide, by decide, by norm_num [invertedLooper], rfl, rfl, by decide⟩

/-- C10 (as stated, refuted): inverted window `loopStart = 70`,
`loopEnd = 49`, direction forward, movement `FORWARD`. The gap position 50 is
snapped to `loopStart = 70`, although `loopEnd = 49` is nearer
(`50 - 49 < 70 - 50`). -/
theorem C10_gap_snap_not_nearest :
    (invertedLooper Movement.FORWARD true).loopEnd_ = 49 ∧
    (invertedLooper Movement.FORWARD true).loopStart_ = 70 ∧
    (HandlePosBoundaries (invertedLooper Movement.FORWARD true) 50 true).2 = 70 ∧
    (50 : ℚ) - 49 < 70 - 50 := by
  refine ⟨rfl, rfl, ?_, by norm_num⟩
  have hm : ¬ Movement.PENDULUM = Movement.FORWARD := by decide
  norm_num [HandlePosBoundaries, invertedLooper, hm]

/-- C10 (amended): inverted window (`loopEnd < loopStart`) inside the buffer
(`0 <= loopEnd`, `loopStart <= bufferSamples`). A position `pos` with
`loopEnd < pos < loopStart` is snapped by direction, not by distance: going
forward to `loopStart` and going backward to `loopEnd`, with the looper
unchanged; in `PENDULUM` going forward to `loopEnd` and going backward to
`loopStart`, with the direction inverted exactly when `isReadPos` is true. A
forward position greater than `bufferSamples` is wrapped to 0 and a backward
position below 0 is wrapped to `bufferSamples - 1`. -/
theorem C10_inverted_gap_policy (s : Looper) (pos : ℚ) (isReadPos : Bool)
    (hwin : s.loopEnd_ < s.loopStart_) (hlo : 0 ≤ s.loopEnd_)
    (hhi : s.loopStart_ ≤ s.bufferSamples_) :
    ((s.loopEnd_ : ℚ) < pos ∧ pos < (s.loopStart_ : ℚ) →
      (s.forward_ = true ∧ s.movement_ ≠ Movement.PENDULUM →
        HandlePosBoundaries s pos isReadPos = (s, (s.loopStart_ : ℚ))) ∧
      (s.forward_ = false ∧ s.movement_ ≠ Movement.PENDULUM →
        HandlePosBoundaries s pos isReadPos = (s, (s.loopEnd_ : ℚ))) ∧
      (s.forward_ = true ∧ s.movement_ = Movement.PENDULUM →
        HandlePosBoundaries s pos isReadPos
          = (if isReadPos = true then { s with forward_ := !s.forward_ } else s,
              (s.loopEnd_ : ℚ))) ∧
      (s.forward_ = false ∧ s.movement_ = Movement.PENDULUM →
        HandlePosBoundaries s pos isReadPos
          = (if isReadPos = true then { s with forward_ := !s.forward_ } else s,
              (s.loopStart_ : ℚ)))) ∧
    (s.forward_ = true ∧ pos > (s.bufferSamples_ : ℚ) →
      HandlePosBoundaries s pos isReadPos = (s, 0)) ∧
    (s.forward_ = false ∧ pos < 0 →
      HandlePosBoundaries s pos isReadPos = (s, ((s.bufferSamples_ - 1 : Int) : ℚ))) := by
  have hnw : ¬ s.loopEnd_ > s.loopStart_ := by omega
  have hloq : (0 : ℚ) ≤ (s.loopEnd_ : ℚ) := by exact_mod_cast hlo
  have hhiq : (s.loopStart_ : ℚ) ≤ (s.bufferSamples_ : ℚ) := by exact_mod_cast hhi
  refine ⟨fun hgap => ⟨?_, ?_, ?_, ?_⟩, ?_, ?_⟩
  · rintro ⟨hf, hm⟩
    have hm1 : ¬ Movement.PENDULUM = s.movement_ := fun h => hm h.symm
    have hB : ¬ pos > (s.bufferSamples_ : ℚ) := by linarith [hgap.2]
    have hg : pos > (s.loopEnd_ : ℚ) ∧ pos < (s.loopStart_ : ℚ) := hgap
    simp only [HandlePosBoundaries, if_neg hnw, hf, if_true, if_neg hB, if_pos hg, if_neg hm1]
  · rintro ⟨hf, hm⟩
    have hm1 : ¬ Movement.PENDULUM = s.movement_ := fun h => hm h.symm
    have h0 : ¬ pos < 0 := by linarith [hgap.1]
    have hg : pos > (s.loopEnd_ : ℚ) ∧ pos < (s.loopStart_ : ℚ) := hgap
    simp only [HandlePosBoundaries, if_neg hnw, hf, Bool.false_eq_true, if_false, if_neg h0,
      if_pos hg, if_neg hm1]
  · rintro ⟨hf, hm⟩
    have hB : ¬ pos > (s.bufferSamples_ : ℚ) := by linarith [hgap.2]
    have hg : pos > (s.loopEnd_ : ℚ) ∧ pos < (s.loopStart_ : ℚ) := hgap
    simp only [HandlePosBoundaries, if_neg hnw, hf, if_true, if_neg hB, if_pos hg,
      if_pos hm.symm]
  · rintro ⟨hf, hm⟩
    have h0 : ¬ pos < 0 := by linarith [hgap.1]
    have hg : pos > (s.loopEnd_ : ℚ) ∧ pos < (s.loopStart_ : ℚ) := hgap
    simp only [HandlePosBoundaries, if_neg hnw, hf, Bool.false_eq_true, if_false, if_neg h0,
      if_pos hg, if_pos hm.symm]
  · rintro ⟨hf, hB⟩
    simp only [HandlePosBoundaries, if_neg hnw, hf, if_true, if_pos hB]
  · rintro ⟨hf, h0⟩
    simp only [HandlePosBoundaries, if_neg hnw, hf, Bool.false_eq_true, if_false, if_pos h0]

theorem C10_inverted_gap_policy_witness :
    (invertedLooper Movement.FORWARD true).loopEnd_
      < (invertedLooper Movement.FORWARD true).loopStart_ ∧
    HandlePosBoundaries (invertedLooper Movement.FORWARD true) 50 true
      = (invertedLooper Movement.FORWARD true,
          ((invertedLooper Movement.FORWARD true).loopStart_ : ℚ)) :=
  ⟨by decide,
    ((C10_inverted_gap_policy (invertedLooper Movement.FORWARD true) 50 true
      (by decide) (by decide) (by decide)).1
        ⟨by norm_num [invertedLooper], by norm_num [invertedLooper]⟩).1
      ⟨rfl, by decide⟩⟩

/-! ## The stereo looper: what the blocks of `Process` leave unchanged -/

namespace StereoLooper

theorem latches_withLeft {K : Type} [LinearOrderedField K] [FloorRing K]
    {L F E : Type} (st : StereoLooper K L F E) (l : L) :
    latches (withLeft st l) = latches st := rfl

theorem latches_withRight {K : Type} [LinearOrderedField K] [FloorRing K]
    {L F E : Type} (st : StereoLooper K L F E) (r : L) :
    latches (withRight st r) = latches st := rfl

theorem latches_ite_withLeft {K : Type} [LinearOrderedField K] [FloorRing K]
    {L F E : Type} (c : Prop) [Decidable c]
    (st : StereoLooper K L F E) (l : L) :
    latches (if c then withLeft st l else st) = latches st := by
  split_ifs <;> rfl

theorem latches_ite_withRight {K : Type} [LinearOrderedField K] [FloorRing K]
    {L F E : Type} (c : Prop) [Decidable c]
    (st : StereoLooper K L F E) (r : L) :
    latches (if c then withRight st r else st) = latches st := by
  split_ifs <;> rfl

theorem UpdateParameters_latches {K : Type} [LinearOrderedField K] [FloorRing K]
    {L F E : Type} (ops : LooperOps K L) (dsp : DspEnv K F E)
    (st : StereoLooper K L F E) :
    latches (UpdateParameters ops dsp st) = latches st := by
  unfold UpdateParameters
  simp only [latches_ite_withLeft, latches_ite_withRight]

end StereoLooper

/-! ## The stereo looper: freeze, trigger mode, start -/

/-- C13: freeze toggling. For every channel argument, `SetFreeze(channel,
amount)` called in `RECORDING` or `FROZEN` sets the state to `FROZEN` if
`amount == 1` and to `RECORDING` for every other amount (so 1 and then 0 gives
`RECORDING`); called in `READY` it leaves the state `READY` and changes only
the stored freeze amounts; `ToggleFreeze` maps `RECORDING` to `FROZEN` and
`FROZEN` to `RECORDING`, and two consecutive toggles restore the state. -/
theorem C13_freeze_toggling {K : Type} [LinearOrderedField K] [FloorRing K]
    {L F E : Type} (st : StereoLooper K L F E) (channel : Channel)
    (amount : K) :
    ((st.state_ = StereoLooper.State.RECORDING ∨ st.state_ = StereoLooper.State.FROZEN) →
      (StereoLooper.SetFreeze st channel amount).state_
        = (if amount = 1 then StereoLooper.State.FROZEN else StereoLooper.State.RECORDING) ∧
      (StereoLooper.SetFreeze (StereoLooper.SetFreeze st channel 1) channel 0).state_
        = StereoLooper.State.RECORDING) ∧
    (st.state_ = StereoLooper.State.READY →
      StereoLooper.SetFreeze st channel amount =
        { st with
          nextLeftFreeze :=
            if Channel.LEFT = channel ∨ Channel.BOTH = channel then amount
            else st.nextLeftFreeze
          nextRightFreeze :=
            if Channel.RIGHT = channel ∨ Channel.BOTH = channel then amount
            else st.nextRightFreeze
          freeze_ := amount } ∧
      (StereoLooper.SetFreeze st channel amount).state_ = StereoLooper.State.READY) ∧
    (st.state_ = StereoLooper.State.RECORDING →
      (StereoLooper.ToggleFreeze st).state_ = StereoLooper.State.FROZEN) ∧
    (st.state_ = StereoLooper.State.FROZEN →
      (StereoLooper.ToggleFreeze st).state_ = StereoLooper.State.RECORDING) ∧
    ((st.state_ = StereoLooper.State.RECORDING ∨ st.state_ = StereoLooper.State.FROZEN) →
      (StereoLooper.ToggleFreeze (StereoLooper.ToggleFreeze st)).state_ = st.state_) := by
  refine ⟨fun h => ⟨?_, ?_⟩, fun h => ⟨?_, ?_⟩, fun h => ?_, fun h => ?_, fun h => ?_⟩
  · rcases h with h | h <;> cases channel <;> simp [StereoLooper.SetFreeze, h]
  · rcases h with h | h <;> cases channel <;> simp [StereoLooper.SetFreeze, h]
  · cases channel <;> simp [StereoLooper.SetFreeze, h]
  · cases channel <;> simp [StereoLooper.SetFreeze, h]
  · simp [StereoLooper.ToggleFreeze, StereoLooper.IsFrozen, StereoLooper.SetFreeze, h]
  · simp [StereoLooper.ToggleFreeze, StereoLooper.IsFrozen, StereoLooper.SetFreeze, h]
  · rcases h with h | h <;>
      simp [StereoLooper.ToggleFreeze, StereoLooper.IsFrozen, StereoLooper.SetFreeze, h]

/-- C14: `SetTriggerMode(mode)` sets both `leftTriggerMode` and
`rightTriggerMode` to `mode`, sets `dryLevel` to 0 when `mode` is `GATE` and to
1 when it is `TRIGGER` or `LOOP`, and latches exactly one request: `mustStart`
for `GATE` and `LOOP` (leaving `mustStop` as it was), `mustStop` for `TRIGGER`
(leaving `mustStart` as it was); it does not change the top-level state. -/
theorem C14_SetTriggerMode {K : Type} [LinearOrderedField K] [FloorRing K]
    {L F E : Type} (st : StereoLooper K L F E) (mode : TriggerMode) :
    (StereoLooper.SetTriggerMode st mode).leftTriggerMode = mode ∧
    (StereoLooper.SetTriggerMode st mode).rightTriggerMode = mode ∧
    (StereoLooper.SetTriggerMode st mode).dryLevel
      = (if mode = TriggerMode.GATE then 0 else 1) ∧
    (mode = TriggerMode.GATE ∨ mode = TriggerMode.LOOP →
      (StereoLooper.SetTriggerMode st mode).mustStart = true ∧
      (StereoLooper.SetTriggerMode st mode).mustStop = st.mustStop) ∧
    (mode = TriggerMode.TRIGGER →
      (StereoLooper.SetTriggerMode st mode).mustStop = true ∧
      (StereoLooper.SetTriggerMode st mode).mustStart = st.mustStart) ∧
    (StereoLooper.SetTriggerMode st mode).state_ = st.state_ := by
  cases mode <;> simp [StereoLooper.SetTriggerMode]

/-- C18: `Start()` changes the state only when it is `READY`: from `READY` the
new state is `FROZEN` if the stored freeze amount equals 1 and `RECORDING`
otherwise; in every other state it leaves the stereo looper (its state and
both loopers) unchanged. -/
theorem C18_Start {K : Type} [LinearOrderedField K] [FloorRing K]
    {L F E : Type} (ops : LooperOps K L) (st : StereoLooper K L F E) :
    (st.state_ = StereoLooper.State.READY →
      (StereoLooper.Start ops st).state_
        = (if st.freeze_ = 1 then StereoLooper.State.FROZEN
            else StereoLooper.State.RECORDING)) ∧
    (st.state_ ≠ StereoLooper.State.READY → StereoLooper.Start ops st = st) := by
  refine ⟨fun h => ?_, fun h => ?_⟩
  · simp [StereoLooper.Start, h]
  · have h1 : ¬ StereoLooper.State.READY = st.state_ := fun hc => h hc.symm
    simp [StereoLooper.Start, h1]

/-- C17: in state `BUFFERING`, one `Process` step gives the gain-staged inputs
to `Buffer` of both loopers and moves to `READY` if and only if both calls
report done or `mustStopBuffering` is set; on that transition `StopBuffering`
is called on both loopers and `mustStopBuffering` is cleared; otherwise the
state stays `BUFFERING` and the loopers are those that `Buffer` left. -/
theorem C17_buffering_step {K : Type} [LinearOrderedField K] [FloorRing K]
    {L F E : Type} (ops : LooperOps K L) (dsp : DspEnv K F E)
    (st : StereoLooper K L F E) (leftIn rightIn leftOut rightOut : K)
    (hs : st.state_ = StereoLooper.State.BUFFERING) :
    ((StereoLooper.Process ops dsp st leftIn rightIn leftOut rightOut).1.state_
        = StereoLooper.State.READY ↔
      (((ops.Buffer st.loopers_.LEFT (dsp.SoftClip (leftIn * st.inputGain))).2 = true ∧
        (ops.Buffer st.loopers_.RIGHT (dsp.SoftClip (rightIn * st.inputGain))).2 = true)
        ∨ st.mustStopBuffering = true)) ∧
    ((((ops.Buffer st.loopers_.LEFT (dsp.SoftClip (leftIn * st.inputGain))).2 = true ∧
        (ops.Buffer st.loopers_.RIGHT (dsp.SoftClip (rightIn * st.inputGain))).2 = true)
        ∨ st.mustStopBuffering = true) →
      (StereoLooper.Process ops dsp st leftIn rightIn leftOut rightOut).1.loopers_.LEFT
        = ops.StopBuffering
            (ops.Buffer st.loopers_.LEFT (dsp.SoftClip (leftIn * st.inputGain))).1 ∧
      (StereoLooper.Process ops dsp st leftIn rightIn leftOut rightOut).1.loopers_.RIGHT
        = ops.StopBuffering
            (ops.Buffer st.loopers_.RIGHT (dsp.SoftClip (rightIn * st.inputGain))).1 ∧
      (StereoLooper.Process ops dsp st leftIn rightIn leftOut rightOut).1.mustStopBuffering
        = false) ∧
    (¬ (((ops.Buffer st.loopers_.LEFT (dsp.SoftClip (leftIn * st.inputGain))).2 = true ∧
        (ops.Buffer st.loopers_.RIGHT (dsp.SoftClip (rightIn * st.inputGain))).2 = true)
        ∨ st.mustStopBuffering = true) →
      (StereoLooper.Process ops dsp st leftIn rightIn leftOut rightOut).1.state_
        = StereoLooper.State.BUFFERING ∧
      (StereoLooper.Process ops dsp st leftIn rightIn leftOut rightOut).1.loopers_.LEFT
        = (ops.Buffer st.loopers_.LEFT (dsp.SoftClip (leftIn * st.inputGain))).1 ∧
      (StereoLooper.Process ops dsp st leftIn rightIn leftOut rightOut).1.loopers_.RIGHT
        = (ops.Buffer st.loopers_.RIGHT (dsp.SoftClip (rightIn * st.inputGain))).1) := by
  by_cases hc : (((ops.Buffer st.loopers_.LEFT (dsp.SoftClip (leftIn * st.inputGain))).2 = true ∧
        (ops.Buffer st.loopers_.RIGHT (dsp.SoftClip (rightIn * st.inputGain))).2 = true)
        ∨ st.mustStopBuffering = true)
  · have hp : (StereoLooper.Process ops dsp st leftIn rightIn leftOut rightOut).1
        = { st with
            mustStopBuffering := false
            loopers_ :=
              { LEFT := ops.StopBuffering
                  (ops.Buffer st.loopers_.LEFT (dsp.SoftClip (leftIn * st.inputGain))).1
                RIGHT := ops.StopBuffering
                  (ops.Buffer st.loopers_.RIGHT (dsp.SoftClip (rightIn * st.inputGain))).1 }
            state_ := StereoLooper.State.READY } := by
      unfold StereoLooper.Process
      simp only [hs, StereoLooper.withLeft, StereoLooper.withRight]
      rw [if_pos hc]
    rw [hp]
    exact ⟨⟨fun _ => hc, fun _ => rfl⟩, fun _ => ⟨rfl, rfl, rfl⟩, fun h => absurd hc h⟩
  · have hp : (StereoLooper.Process ops dsp st leftIn rightIn leftOut rightOut).1
        = { st with
            loopers_ :=
              { LEFT := (ops.Buffer st.loopers_.LEFT (dsp.SoftClip (leftIn * st.inputGain))).1
                RIGHT :=
                  (ops.Buffer st.loopers_.RIGHT (dsp.SoftClip (rightIn * st.inputGain))).1 } } := by
      unfold StereoLooper.Process
      simp only [hs, StereoLooper.withLeft, StereoLooper.withRight]
      rw [if_neg hc]
    rw [hp]
    refine ⟨⟨fun h => ?_, fun h => absurd h hc⟩, fun h => absurd h hc, fun _ => ⟨hs, rfl, rfl⟩⟩
    have : st.state_ = StereoLooper.State.READY := h
    rw [hs] at this
    exact absurd this (by decide)

/-- C11 (the code at the failing input): both loopers have loop length 500, the
pending lengths are `nextLeftLoopLength = 1000` and
`nextRightLoopLength = 2000`. After `UpdateParameters` the left looper has
length 1000 and the right looper has length 1000 too: it was given the left
channel's pending value, not its own 2000. -/
theorem C11_right_loop_length_from_left :
    (StereoLooper.UpdateParameters probeOps probeDsp
      (probeStereo StereoLooper.State.RECORDING (probeLooper 500 true) (probeLooper 500 true)
        1000 2000)).loopers_.LEFT.loopLength = 1000 ∧
    (StereoLooper.UpdateParameters probeOps probeDsp
      (probeStereo StereoLooper.State.RECORDING (probeLooper 500 true) (probeLooper 500 true)
        1000 2000)).loopers_.RIGHT.loopLength = 1000 ∧
    (StereoLooper.UpdateParameters probeOps probeDsp
      (probeStereo StereoLooper.State.RECORDING (probeLooper 500 true) (probeLooper 500 true)
        1000 2000)).nextRightLoopLength = 2000 := by
  norm_num [StereoLooper.UpdateParameters, probeOps, probeStereo, probeLooper,
    StereoLooper.withLeft, StereoLooper.withRight]


/-! ## The stereo looper: the top-level state -/

namespace StereoLooper

theorem clearBufferBlock_latches {K : Type} [LinearOrderedField K] [FloorRing K]
    {L F E : Type} (ops : LooperOps K L) (st : StereoLooper K L F E) :
    latches (clearBufferBlock ops st) = latches st := by
  unfold clearBufferBlock
  split_ifs <;> rfl

theorem retriggerBlock_latches {K : Type} [LinearOrderedField K] [FloorRing K]
    {L F E : Type} (ops : LooperOps K L) (st : StereoLooper K L F E) :
    latches (retriggerBlock ops st) = latches st := by
  unfold retriggerBlock
  split_ifs <;> rfl

theorem startBlock_fields {K : Type} [LinearOrderedField K] [FloorRing K]
    {L F E : Type} (ops : LooperOps K L) (st : StereoLooper K L F E) :
    (startBlock ops st).mustResetLooper = st.mustResetLooper ∧
    (startBlock ops st).mustStop = st.mustStop ∧
    (startBlock ops st).state_ = st.state_ := by
  unfold startBlock
  dsimp only
  split_ifs <;> exact ⟨rfl, rfl, rfl⟩

theorem stopBlock_fields {K : Type} [LinearOrderedField K] [FloorRing K]
    {L F E : Type} (ops : LooperOps K L) (st : StereoLooper K L F E) :
    (stopBlock ops st).mustResetLooper = st.mustResetLooper ∧
    (stopBlock ops st).mustStart = st.mustStart ∧
    (stopBlock ops st).state_ = st.state_ := by
  unfold stopBlock
  dsimp only
  split_ifs <;> exact ⟨rfl, rfl, rfl⟩

theorem Filter_latches {K : Type} [LinearOrderedField K] [FloorRing K]
    {L F E : Type} (dsp : DspEnv K F E) (st : StereoLooper K L F E) (v : K) :
    latches (Filter dsp st v).1 = latches st := by
  unfold Filter
  dsimp only
  split <;> rfl

theorem latches_filterEnvelope {K : Type} [LinearOrderedField K] [FloorRing K]
    {L F E : Type} (st : StereoLooper K L F E) (e : E) :
    latches { st with filterEnvelope_ := e } = latches st := rfl

theorem signalChain_latches {K : Type} [LinearOrderedField K] [FloorRing K]
    {L F E : Type} (ops : LooperOps K L) (dsp : DspEnv K F E)
    (st : StereoLooper K L F E) (leftDry rightDry : K) :
    latches (signalChain ops dsp st leftDry rightDry).1 = latches st := by
  unfold signalChain
  simp only [latches_withLeft, latches_withRight, Filter_latches, latches_filterEnvelope]

theorem resetBlock_state {K : Type} [LinearOrderedField K] [FloorRing K]
    {L F E : Type} (ops : LooperOps K L) (st : StereoLooper K L F E) :
    (resetBlock ops st).state_ = State.BUFFERING := rfl

theorem latches_state {K : Type} [LinearOrderedField K] [FloorRing K]
    {L F E : Type} (a b : StereoLooper K L F E) (h : latches a = latches b) :
    a.mustResetLooper = b.mustResetLooper ∧ a.mustStart = b.mustStart ∧
    a.mustStop = b.mustStop ∧ a.state_ = b.state_ := by
  unfold latches at h
  simp only [Prod.mk.injEq] at h
  exact h

/-- The state before the `if (mustStart)` block of a `RECORDING`/`FROZEN`
step has the latches of the state before the step. -/
theorem beforeStart_latches {K : Type} [LinearOrderedField K] [FloorRing K]
    {L F E : Type} (ops : LooperOps K L) (dsp : DspEnv K F E)
    (st : StereoLooper K L F E) :
    latches (retriggerBlock ops (clearBufferBlock ops (UpdateParameters ops dsp st)))
      = latches st := by
  rw [retriggerBlock_latches, clearBufferBlock_latches, UpdateParameters_latches]

/-- A `RECORDING`/`FROZEN` step with no reset request, as the composition of
its blocks. -/
theorem processRunning_no_reset {K : Type} [LinearOrderedField K] [FloorRing K]
    {L F E : Type} (ops : LooperOps K L) (dsp : DspEnv K F E)
    (st : StereoLooper K L F E) (leftDry rightDry : K) (hr : st.mustResetLooper = false) :
    (processRunning ops dsp st leftDry rightDry).1
      = (signalChain ops dsp
          (stopBlock ops (startBlock ops
            (retriggerBlock ops (clearBufferBlock ops (UpdateParameters ops dsp st)))))
          (leftDry * (UpdateParameters ops dsp st).dryLevel)
          (rightDry * (UpdateParameters ops dsp st).dryLevel)).1 := by
  have h1 : (clearBufferBlock ops (UpdateParameters ops dsp st)).mustResetLooper = false := by
    have := (latches_state _ _ (clearBufferBlock_latches ops (UpdateParameters ops dsp st))).1
    rw [this, (latches_state _ _ (UpdateParameters_latches ops dsp st)).1, hr]
  unfold processRunning
  simp only [h1, Bool.false_eq_true, if_false]

/-- A `RECORDING`/`FROZEN` step with a reset request. -/
theorem processRunning_reset {K : Type} [LinearOrderedField K] [FloorRing K]
    {L F E : Type} (ops : LooperOps K L) (dsp : DspEnv K F E)
    (st : StereoLooper K L F E) (leftDry rightDry : K) (hr : st.mustResetLooper = true) :
    (processRunning ops dsp st leftDry rightDry).1
      = resetBlock ops (clearBufferBlock ops (UpdateParameters ops dsp st)) := by
  have h1 : (clearBufferBlock ops (UpdateParameters ops dsp st)).mustResetLooper = true := by
    have := (latches_state _ _ (clearBufferBlock_latches ops (UpdateParameters ops dsp st))).1
    rw [this, (latches_state _ _ (UpdateParameters_latches ops dsp st)).1, hr]
  unfold processRunning
  simp only [h1, if_true]

theorem processRunning_state {K : Type} [LinearOrderedField K] [FloorRing K]
    {L F E : Type} (ops : LooperOps K L) (dsp : DspEnv K F E)
    (st : StereoLooper K L F E) (leftDry rightDry : K) :
    (processRunning ops dsp st leftDry rightDry).1.state_
      = (if st.mustResetLooper = true then State.BUFFERING else st.state_) := by
  by_cases hr : st.mustResetLooper = true
  · rw [processRunning_reset ops dsp st leftDry rightDry hr, if_pos hr, resetBlock_state]
  · have hr1 : st.mustResetLooper = false := by simpa using hr
    rw [processRunning_no_reset ops dsp st leftDry rightDry hr1, if_neg hr,
      (latches_state _ _ (signalChain_latches ops dsp _ _ _)).2.2.2,
      (stopBlock_fields ops _).2.2, (startBlock_fields ops _).2.2,
      (latches_state _ _ (beforeStart_latches ops dsp st)).2.2.2]

/-- The top-level state after one `Process` step, case by case. -/
theorem Process_state {K : Type} [LinearOrderedField K] [FloorRing K]
    {L F E : Type} (ops : LooperOps K L) (dsp : DspEnv K F E)
    (st : StereoLooper K L F E) (leftIn rightIn leftOut rightOut : K) :
    (st.state_ = State.STARTUP →
      (Process ops dsp st leftIn rightIn leftOut rightOut).1.state_
        = (if st.fadeIndex > st.sampleRate_ then State.BUFFERING else State.STARTUP)) ∧
    (st.state_ = State.BUFFERING →
      (Process ops dsp st leftIn rightIn leftOut rightOut).1.state_ = State.BUFFERING ∨
      (Process ops dsp st leftIn rightIn leftOut rightOut).1.state_ = State.READY) ∧
    (st.state_ = State.READY →
      (Process ops dsp st leftIn rightIn leftOut rightOut).1.state_ = State.READY) ∧
    (st.state_ = State.RECORDING ∨ st.state_ = State.FROZEN →
      (Process ops dsp st leftIn rightIn leftOut rightOut).1.state_
        = (if st.mustResetLooper = true then State.BUFFERING else st.state_)) := by
  refine ⟨fun h => ?_, fun h => ?_, fun h => ?_, fun h => ?_⟩
  · unfold Process
    simp only [h]
    split_ifs <;> first | rfl | exact h
  · unfold Process
    simp only [h]
    split_ifs
    · exact Or.inr rfl
    · exact Or.inl h
  · unfold Process
    simp only [h]
  · rcases h with h | h
    · unfold Process
      simp only [h]
      rw [processRunning_state, h]
    · unfold Process
      simp only [h]
      rw [processRunning_state, h]

theorem SetFreeze_state {K : Type} [LinearOrderedField K] [FloorRing K]
    {L F E : Type} (st : StereoLooper K L F E) (channel : Channel)
    (amount : K) :
    (SetFreeze st channel amount).state_
      = (if State.READY ≠ st.state_ then (if amount = 1 then State.FROZEN else State.RECORDING)
          else st.state_) := by
  unfold SetFreeze
  dsimp only
  split_ifs <;> rfl

theorem Start_state {K : Type} [LinearOrderedField K] [FloorRing K]
    {L F E : Type} (ops : LooperOps K L) (st : StereoLooper K L F E) :
    (Start ops st).state_
      = (if State.READY = st.state_ then
          (if st.freeze_ = 1 then State.FROZEN else State.RECORDING)
        else st.state_) := by
  unfold Start
  split_ifs <;> simp_all

theorem setters_state {K : Type} [LinearOrderedField K] [FloorRing K]
    {L F E : Type} (ops : LooperOps K L) (dsp : DspEnv K F E)
    (st : StereoLooper K L F E) (channel : Channel) (x : K) (mode : TriggerMode)
    (movement : Movement) (direction : Direction) (b : Bool) :
    (SetTriggerMode st mode).state_ = st.state_ ∧
    (SetMovement ops st channel movement).state_ = st.state_ ∧
    (SetDirection ops st channel direction).state_ = st.state_ ∧
    (SetLoopStart ops st channel x).state_ = st.state_ ∧
    (SetReadRate st channel x).state_ = st.state_ ∧
    (SetWriteRate st channel x).state_ = st.state_ ∧
    (SetLoopLength ops dsp st channel x).state_ = st.state_ ∧
    (SetLoopSync ops st b).state_ = st.state_ ∧
    (SetSamplesToFade ops st x).state_ = st.state_ ∧
    (SetFilterValue dsp st x).state_ = st.state_ ∧
    (OffsetLoopers ops dsp st x).state_ = st.state_ := by
  refine ⟨?_, ?_, ?_, ?_, ?_, ?_, ?_, rfl, rfl, rfl, rfl⟩
  · cases mode <;> rfl
  · unfold SetMovement
    split_ifs
    · rfl
    · cases channel <;> rfl
  · unfold SetDirection
    dsimp only
    split_ifs <;> rfl
  · unfold SetLoopStart
    dsimp only
    split_ifs <;> rfl
  · unfold SetReadRate
    dsimp only
    split_ifs <;> rfl
  · unfold SetWriteRate
    dsimp only
    split_ifs <;> rfl
  · unfold SetLoopLength
    dsimp only
    split_ifs <;> rfl

end StereoLooper


/-- C12 (as stated, refuted): in `STARTUP`, `SetFreeze(BOTH, 0)` sets the state
to `RECORDING`, and in `BUFFERING`, `ToggleFreeze()` sets it to `FROZEN`;
neither is a documented transition. -/
theorem C12_SetFreeze_skips_buffering :
    (StereoLooper.perform probeOps probeDsp
      (probeStereo StereoLooper.State.STARTUP (probeLooper 0 false) (probeLooper 0 false) 0 0)
      (StereoLooper.Op.SetFreeze Channel.BOTH 0)).state_ = StereoLooper.State.RECORDING ∧
    (StereoLooper.perform probeOps probeDsp
      (probeStereo StereoLooper.State.BUFFERING (probeLooper 0 false) (probeLooper 0 false) 0 0)
      StereoLooper.Op.ToggleFreeze).state_ = StereoLooper.State.FROZEN ∧
    ¬ StereoLooper.documentedTransition StereoLooper.State.STARTUP
        StereoLooper.State.RECORDING ∧
    ¬ StereoLooper.documentedTransition StereoLooper.State.BUFFERING
        StereoLooper.State.FROZEN := by
  refine ⟨?_, ?_, ?_, ?_⟩
  · simp [StereoLooper.perform, StereoLooper.SetFreeze, probeStereo]
  · simp [StereoLooper.perform, StereoLooper.ToggleFreeze, StereoLooper.IsFrozen,
      StereoLooper.SetFreeze, probeStereo]
  · unfold StereoLooper.documentedTransition
    decide
  · unfold StereoLooper.documentedTransition
    decide

/-- C12 (amended): for every state and every public operation (`Process`,
`Start`, `SetFreeze`, `ToggleFreeze`, `SetTriggerMode` and the other setters),
the state afterwards is either unchanged, or reached by one of
`STARTUP -> BUFFERING`, `BUFFERING -> READY`, `READY -> RECORDING`,
`READY -> FROZEN`, `RECORDING <-> FROZEN`, `RECORDING`/`FROZEN -> BUFFERING`,
or it is `RECORDING` or `FROZEN` reached from `STARTUP` or `BUFFERING` by
`SetFreeze` or `ToggleFreeze` (which set the state in every state but
`READY`). `RECORDING`/`FROZEN -> BUFFERING` happens only in `Process` with a
reset request, and no operation other than `SetFreeze` and `ToggleFreeze`
takes `STARTUP` or `BUFFERING` directly to `RECORDING` or `FROZEN`. -/
theorem C12_state_transitions {K : Type} [LinearOrderedField K] [FloorRing K]
    {L F E : Type} (ops : LooperOps K L) (dsp : DspEnv K F E)
    (st : StereoLooper K L F E) (op : StereoLooper.Op K) :
    (StereoLooper.documentedTransition st.state_ (StereoLooper.perform ops dsp st op).state_ ∨
      (((∃ channel amount, op = StereoLooper.Op.SetFreeze channel amount)
          ∨ op = StereoLooper.Op.ToggleFreeze) ∧
        (st.state_ = StereoLooper.State.STARTUP ∨ st.state_ = StereoLooper.State.BUFFERING) ∧
        ((StereoLooper.perform ops dsp st op).state_ = StereoLooper.State.RECORDING ∨
          (StereoLooper.perform ops dsp st op).state_ = StereoLooper.State.FROZEN))) ∧
    ((st.state_ = StereoLooper.State.RECORDING ∨ st.state_ = StereoLooper.State.FROZEN) →
      (StereoLooper.perform ops dsp st op).state_ = StereoLooper.State.BUFFERING →
      (∃ leftIn rightIn leftOut rightOut,
        op = StereoLooper.Op.Process leftIn rightIn leftOut rightOut) ∧
      st.mustResetLooper = true) := by
  have hset := fun channel x mode movement direction b =>
    StereoLooper.setters_state ops dsp st channel x mode movement direction b
  cases op with
  | Process leftIn rightIn leftOut rightOut =>
    obtain ⟨h1, h2, h3, h4⟩ := StereoLooper.Process_state ops dsp st leftIn rightIn leftOut rightOut
    simp only [StereoLooper.perform]
    unfold StereoLooper.documentedTransition
    rcases hst : st.state_ with _ | _ | _ | _ | _
    · rw [h1 hst]
      split_ifs <;> simp
    · rcases h2 hst with h | h <;> rw [h] <;> simp
    · rw [h3 hst]
      simp
    · rw [h4 (Or.inl hst)]
      split_ifs with hr <;> simp [hr, hst]
    · rw [h4 (Or.inr hst)]
      split_ifs with hr <;> simp [hr, hst]
  | Start =>
    simp only [StereoLooper.perform, StereoLooper.Start_state]
    unfold StereoLooper.documentedTransition
    rcases hst : st.state_ with _ | _ | _ | _ | _ <;> simp
    split_ifs <;> simp_all
  | ToggleFreeze =>
    simp only [StereoLooper.perform, StereoLooper.ToggleFreeze, StereoLooper.SetFreeze_state]
    unfold StereoLooper.documentedTransition
    rcases hst : st.state_ with _ | _ | _ | _ | _ <;> simp [StereoLooper.IsFrozen, hst]
  | SetFreeze channel amount =>
    simp only [StereoLooper.perform, StereoLooper.SetFreeze_state]
    unfold StereoLooper.documentedTransition
    rcases hst : st.state_ with _ | _ | _ | _ | _ <;> simp <;> split_ifs <;> simp_all
  | SetTriggerMode mode =>
    simp only [StereoLooper.perform, (hset Channel.BOTH 0 mode Movement.FORWARD
      Direction.FORWARD false).1]
    unfold StereoLooper.documentedTransition
    rcases hst : st.state_ with _ | _ | _ | _ | _ <;> simp
  | SetMovement channel movement =>
    simp only [StereoLooper.perform, (hset channel 0 TriggerMode.GATE movement
      Direction.FORWARD false).2.1]
    unfold StereoLooper.documentedTransition
    rcases hst : st.state_ with _ | _ | _ | _ | _ <;> simp
  | SetDirection channel direction =>
    simp only [StereoLooper.perform, (hset channel 0 TriggerMode.GATE Movement.FORWARD
      direction false).2.2.1]
    unfold StereoLooper.documentedTransition
    rcases hst : st.state_ with _ | _ | _ | _ | _ <;> simp
  | SetLoopStart channel value =>
    simp only [StereoLooper.perform, (hset channel value TriggerMode.GATE Movement.FORWARD
      Direction.FORWARD false).2.2.2.1]
    unfold StereoLooper.documentedTransition
    rcases hst : st.state_ with _ | _ | _ | _ | _ <;> simp
  | SetReadRate channel rate =>
    simp only [StereoLooper.perform, (hset channel rate TriggerMode.GATE Movement.FORWARD
      Direction.FORWARD false).2.2.2.2.1]
    unfold StereoLooper.documentedTransition
    rcases hst : st.state_ with _ | _ | _ | _ | _ <;> simp
  | SetWriteRate channel rate =>
    simp only [StereoLooper.perform, (hset channel rate TriggerMode.GATE Movement.FORWARD
      Direction.FORWARD false).2.2.2.2.2.1]
    unfold StereoLooper.documentedTransition
    rcases hst : st.state_ with _ | _ | _ | _ | _ <;> simp
  | SetLoopLength channel length =>
    simp only [StereoLooper.perform, (hset channel length TriggerMode.GATE Movement.FORWARD
      Direction.FORWARD false).2.2.2.2.2.2.1]
    unfold StereoLooper.documentedTransition
    rcases hst : st.state_ with _ | _ | _ | _ | _ <;> simp
  | SetLoopSync loopSync =>
    simp only [StereoLooper.perform, (hset Channel.BOTH 0 TriggerMode.GATE Movement.FORWARD
      Direction.FORWARD loopSync).2.2.2.2.2.2.2.1]
    unfold StereoLooper.documentedTransition
    rcases hst : st.state_ with _ | _ | _ | _ | _ <;> simp
  | SetSamplesToFade samples =>
    simp only [StereoLooper.perform, (hset Channel.BOTH samples TriggerMode.GATE
      Movement.FORWARD Direction.FORWARD false).2.2.2.2.2.2.2.2.1]
    unfold StereoLooper.documentedTransition
    rcases hst : st.state_ with _ | _ | _ | _ | _ <;> simp
  | SetFilterValue value =>
    simp only [StereoLooper.perform, (hset Channel.BOTH value TriggerMode.GATE
      Movement.FORWARD Direction.FORWARD false).2.2.2.2.2.2.2.2.2.1]
    unfold StereoLooper.documentedTransition
    rcases hst : st.state_ with _ | _ | _ | _ | _ <;> simp
  | OffsetLoopers value =>
    simp only [StereoLooper.perform, (hset Channel.BOTH value TriggerMode.GATE
      Movement.FORWARD Direction.FORWARD false).2.2.2.2.2.2.2.2.2.2]
    unfold StereoLooper.documentedTransition
    rcases hst : st.state_ with _ | _ | _ | _ | _ <;> simp


/-! ## The stereo looper: latched requests and warm-up -/

namespace StereoLooper

theorem startBlock_mustStart {K : Type} [LinearOrderedField K] [FloorRing K]
    {L F E : Type} (ops : LooperOps K L) (a : StereoLooper K L F E) :
    ((startBlock ops a).mustStart = false ↔
      (a.mustStart = false ∨
        ((ops.Start a.loopers_.LEFT false).2 = true ∧
          (ops.Start a.loopers_.RIGHT false).2 = true))) ∧
    (a.mustStart = true →
      (startBlock ops a).loopers_.LEFT = (ops.Start a.loopers_.LEFT false).1 ∧
      (startBlock ops a).loopers_.RIGHT = (ops.Start a.loopers_.RIGHT false).1) ∧
    (a.mustStart = false → startBlock ops a = a) := by
  unfold startBlock
  by_cases hm : a.mustStart = true
  · simp only [hm, if_true, withLeft, withRight]
    by_cases hd : (ops.Start a.loopers_.LEFT false).2 = true ∧
        (ops.Start a.loopers_.RIGHT false).2 = true
    · rw [if_pos hd]
      simp [hd]
    · rw [if_neg hd]
      simp [hd, hm]
  · have hm1 : a.mustStart = false := by simpa using hm
    simp [hm1]

theorem stopBlock_mustStop {K : Type} [LinearOrderedField K] [FloorRing K]
    {L F E : Type} (ops : LooperOps K L) (b : StereoLooper K L F E) :
    ((stopBlock ops b).mustStop = false ↔
      (b.mustStop = false ∨
        ((ops.Stop b.loopers_.LEFT false).2 = true ∧
          (ops.Stop b.loopers_.RIGHT false).2 = true))) ∧
    (b.mustStop = true →
      (stopBlock ops b).loopers_.LEFT = (ops.Stop b.loopers_.LEFT false).1 ∧
      (stopBlock ops b).loopers_.RIGHT = (ops.Stop b.loopers_.RIGHT false).1) ∧
    (b.mustStop = false → stopBlock ops b = b) := by
  unfold stopBlock
  by_cases hm : b.mustStop = true
  · simp only [hm, if_true, withLeft, withRight]
    by_cases hd : (ops.Stop b.loopers_.LEFT false).2 = true ∧
        (ops.Stop b.loopers_.RIGHT false).2 = true
    · rw [if_pos hd]
      simp [hd]
    · rw [if_neg hd]
      simp [hd, hm]
  · have hm1 : b.mustStop = false := by simpa using hm
    simp [hm1]

theorem Process_running {K : Type} [LinearOrderedField K] [FloorRing K]
    {L F E : Type} (ops : LooperOps K L) (dsp : DspEnv K F E)
    (st : StereoLooper K L F E) (leftIn rightIn leftOut rightOut : K)
    (hs : st.state_ = State.RECORDING ∨ st.state_ = State.FROZEN)
    (hr : st.mustResetLooper = false) :
    (Process ops dsp st leftIn rightIn leftOut rightOut).1
      = (signalChain ops dsp (stopBlock ops (beforeStop ops dsp st))
          (dsp.SoftClip (leftIn * st.inputGain) * (UpdateParameters ops dsp st).dryLevel)
          (dsp.SoftClip (rightIn * st.inputGain) * (UpdateParameters ops dsp st).dryLevel)).1 := by
  unfold beforeStop beforeStart
  rcases hs with hs | hs
  · unfold Process
    simp only [hs]
    exact processRunning_no_reset ops dsp st _ _ hr
  · unfold Process
    simp only [hs]
    exact processRunning_no_reset ops dsp st _ _ hr

/-- In `STARTUP`, while the counter stays within the sample rate, every
`Process` call only increments the counter. -/
theorem processAll_startup {K : Type} [LinearOrderedField K] [FloorRing K]
    {L F E : Type} (ops : LooperOps K L) (dsp : DspEnv K F E)
    (inputs : List (K × K)) :
    ∀ (st : StereoLooper K L F E) (leftOut rightOut : K), st.state_ = State.STARTUP →
      st.fadeIndex + (inputs.length : Int) ≤ st.sampleRate_ + 1 →
      processAll ops dsp (st, leftOut, rightOut) inputs
        = ({ st with fadeIndex := st.fadeIndex + (inputs.length : Int) }, leftOut, rightOut) := by
  induction inputs with
  | nil =>
    intro st leftOut rightOut _ _
    simp [processAll]
  | cons x xs ih =>
    intro st leftOut rightOut hs hlen
    simp only [List.length_cons, Nat.cast_add, Nat.cast_one] at hlen
    have hno : ¬ st.fadeIndex > st.sampleRate_ := by omega
    have hstep : Process ops dsp st x.1 x.2 leftOut rightOut
        = ({ st with fadeIndex := st.fadeIndex + 1 }, leftOut, rightOut) := by
      unfold Process
      simp only [hs, if_neg hno]
    unfold processAll
    rw [hstep, ih { st with fadeIndex := st.fadeIndex + 1 } leftOut rightOut hs
      (by dsimp only; omega)]
    simp only [List.length_cons, Nat.cast_add, Nat.cast_one]
    congr 2
    ring

/-- In `STARTUP`, the `Process` call that finds the counter above the sample
rate moves to `BUFFERING`. -/
theorem processAll_startup_end {K : Type} [LinearOrderedField K] [FloorRing K]
    {L F E : Type} (ops : LooperOps K L) (dsp : DspEnv K F E)
    (inputs : List (K × K)) :
    ∀ (st : StereoLooper K L F E) (leftOut rightOut : K), st.state_ = State.STARTUP →
      st.fadeIndex + (inputs.length : Int) = st.sampleRate_ + 2 →
      st.fadeIndex ≤ st.sampleRate_ + 1 →
      processAll ops dsp (st, leftOut, rightOut) inputs
        = ({ st with fadeIndex := 1, state_ := State.BUFFERING }, leftOut, rightOut) := by
  induction inputs with
  | nil =>
    intro st leftOut rightOut _ hlen hle
    simp only [List.length_nil, Nat.cast_zero, add_zero] at hlen
    omega
  | cons x xs ih =>
    intro st leftOut rightOut hs hlen hle
    simp only [List.length_cons, Nat.cast_add, Nat.cast_one] at hlen
    by_cases hlast : st.fadeIndex > st.sampleRate_
    · have hxs : xs = [] := by
        have : (xs.length : Int) = 0 := by omega
        exact List.length_eq_zero.mp (by exact_mod_cast this)
      subst hxs
      unfold processAll processAll Process
      simp only [hs, if_pos hlast]
      rfl
    · have hstep : Process ops dsp st x.1 x.2 leftOut rightOut
          = ({ st with fadeIndex := st.fadeIndex + 1 }, leftOut, rightOut) := by
        unfold Process
        simp only [hs, if_neg hlast]
      unfold processAll
      rw [hstep, ih { st with fadeIndex := st.fadeIndex + 1 } leftOut rightOut hs
        (by dsimp only; omega) (by dsimp only; omega)]

end StereoLooper

/-- C15: latched start and stop requests are cleared only on confirmation by
both channels. In one `Process` step in `RECORDING` or `FROZEN` with no reset
request: `mustStart` is false afterwards if and only if it was not set or both
`Start(false)` calls returned true; when it is set, `Start(false)` is called on
both loopers, whatever the left one returns; the same holds for `mustStop`
with `Stop(false)`; the step ends with the signal chain applied to the state
that the stop block leaves. -/
theorem C15_latched_requests {K : Type} [LinearOrderedField K] [FloorRing K]
    {L F E : Type} (ops : LooperOps K L) (dsp : DspEnv K F E)
    (st : StereoLooper K L F E) (leftIn rightIn leftOut rightOut : K)
    (hs : st.state_ = StereoLooper.State.RECORDING ∨ st.state_ = StereoLooper.State.FROZEN)
    (hr : st.mustResetLooper = false) :
    ((StereoLooper.Process ops dsp st leftIn rightIn leftOut rightOut).1.mustStart = false ↔
      (st.mustStart = false ∨
        ((ops.Start (StereoLooper.beforeStart ops dsp st).loopers_.LEFT false).2 = true ∧
          (ops.Start (StereoLooper.beforeStart ops dsp st).loopers_.RIGHT false).2 = true))) ∧
    (st.mustStart = true →
      (StereoLooper.beforeStop ops dsp st).loopers_.LEFT
        = (ops.Start (StereoLooper.beforeStart ops dsp st).loopers_.LEFT false).1 ∧
      (StereoLooper.beforeStop ops dsp st).loopers_.RIGHT
        = (ops.Start (StereoLooper.beforeStart ops dsp st).loopers_.RIGHT false).1) ∧
    (st.mustStart = false →
      StereoLooper.beforeStop ops dsp st = StereoLooper.beforeStart ops dsp st) ∧
    ((StereoLooper.Process ops dsp st leftIn rightIn leftOut rightOut).1.mustStop = false ↔
      (st.mustStop = false ∨
        ((ops.Stop (StereoLooper.beforeStop ops dsp st).loopers_.LEFT false).2 = true ∧
          (ops.Stop (StereoLooper.beforeStop ops dsp st).loopers_.RIGHT false).2 = true))) ∧
    (st.mustStop = true →
      (StereoLooper.stopBlock ops (StereoLooper.beforeStop ops dsp st)).loopers_.LEFT
        = (ops.Stop (StereoLooper.beforeStop ops dsp st).loopers_.LEFT false).1 ∧
      (StereoLooper.stopBlock ops (StereoLooper.beforeStop ops dsp st)).loopers_.RIGHT
        = (ops.Stop (StereoLooper.beforeStop ops dsp st).loopers_.RIGHT false).1) ∧
    (st.mustStop = false →
      StereoLooper.stopBlock ops (StereoLooper.beforeStop ops dsp st)
        = StereoLooper.beforeStop ops dsp st) ∧
    (StereoLooper.Process ops dsp st leftIn rightIn leftOut rightOut).1
      = (StereoLooper.signalChain ops dsp
          (StereoLooper.stopBlock ops (StereoLooper.beforeStop ops dsp st))
          (dsp.SoftClip (leftIn * st.inputGain)
            * (StereoLooper.UpdateParameters ops dsp st).dryLevel)
          (dsp.SoftClip (rightIn * st.inputGain)
            * (StereoLooper.UpdateParameters ops dsp st).dryLevel)).1 := by
  have hp := StereoLooper.Process_running ops dsp st leftIn rightIn leftOut rightOut hs hr
  have ha := StereoLooper.latches_state _ _ (StereoLooper.beforeStart_latches ops dsp st)
  have hastart : (StereoLooper.beforeStart ops dsp st).mustStart = st.mustStart := ha.2.1
  have hastop : (StereoLooper.beforeStart ops dsp st).mustStop = st.mustStop := ha.2.2.1
  have hbstop : (StereoLooper.beforeStop ops dsp st).mustStop = st.mustStop := by
    unfold StereoLooper.beforeStop
    rw [(StereoLooper.startBlock_fields ops _).2.1, hastop]
  have hsc := StereoLooper.latches_state _ _
    (StereoLooper.signalChain_latches ops dsp
      (StereoLooper.stopBlock ops (StereoLooper.beforeStop ops dsp st))
      (dsp.SoftClip (leftIn * st.inputGain)
        * (StereoLooper.UpdateParameters ops dsp st).dryLevel)
      (dsp.SoftClip (rightIn * st.inputGain)
        * (StereoLooper.UpdateParameters ops dsp st).dryLevel))
  obtain ⟨hA1, hA2, hA3⟩ :=
    StereoLooper.startBlock_mustStart ops (StereoLooper.beforeStart ops dsp st)
  obtain ⟨hB1, hB2, hB3⟩ :=
    StereoLooper.stopBlock_mustStop ops (StereoLooper.beforeStop ops dsp st)
  refine ⟨?_, ?_, ?_, ?_, ?_, ?_, hp⟩
  · rw [hp, hsc.2.1, (StereoLooper.stopBlock_fields ops _).2.1]
    rw [← hastart]
    exact hA1
  · intro h
    exact hA2 (hastart.trans h)
  · intro h
    exact hA3 (hastart.trans h)
  · rw [hp, hsc.2.2.1, ← hbstop]
    exact hB1
  · intro h
    exact hB2 (hbstop.trans h)
  · intro h
    exact hB3 (hbstop.trans h)

/-- C16: warm-up. Starting in `STARTUP` with the warm-up counter at 0 and a
sample rate that is not negative, after
`n` calls of `Process` with `n <= sampleRate + 1` the stereo looper is
unchanged except for the counter (so the state is still `STARTUP` and no
looper was touched) and the output variables hold what they held before; the
call number `sampleRate + 2` moves the state to `BUFFERING`, again without
touching the loopers or the outputs. The number depends on `sampleRate` only. -/
theorem C16_warm_up {K : Type} [LinearOrderedField K] [FloorRing K]
    {L F E : Type} (ops : LooperOps K L) (dsp : DspEnv K F E)
    (st : StereoLooper K L F E) (inputs : List (K × K)) (leftOut rightOut : K)
    (hs : st.state_ = StereoLooper.State.STARTUP) (h0 : st.fadeIndex = 0)
    (hsr : 0 ≤ st.sampleRate_) :
    ((inputs.length : Int) ≤ st.sampleRate_ + 1 →
      StereoLooper.processAll ops dsp (st, leftOut, rightOut) inputs
        = ({ st with fadeIndex := (inputs.length : Int) }, leftOut, rightOut)) ∧
    ((inputs.length : Int) = st.sampleRate_ + 2 →
      StereoLooper.processAll ops dsp (st, leftOut, rightOut) inputs
        = ({ st with fadeIndex := 1, state_ := StereoLooper.State.BUFFERING },
            leftOut, rightOut)) := by
  refine ⟨fun h => ?_, fun h => ?_⟩
  · rw [StereoLooper.processAll_startup ops dsp inputs st leftOut rightOut hs (by omega), h0,
      zero_add]
  · have h1 : st.fadeIndex + (inputs.length : Int) = st.sampleRate_ + 2 := by omega
    have h2 : st.fadeIndex ≤ st.sampleRate_ + 1 := by omega
    exact StereoLooper.processAll_startup_end ops dsp inputs st leftOut rightOut hs h1 h2


theorem C15_latched_requests_witness :
    ((startRequested true).state_ = StereoLooper.State.RECORDING ∨
      (startRequested true).state_ = StereoLooper.State.FROZEN) ∧
    (startRequested true).mustResetLooper = false ∧
    (StereoLooper.Process probeOps probeDsp (startRequested true) 0 0 0 0).1.mustStart
      = false :=
  ⟨Or.inl rfl, rfl,
    (C15_latched_requests probeOps probeDsp (startRequested true) 0 0 0 0 (Or.inl rfl) rfl).1.2
      (Or.inr (by
        norm_num [StereoLooper.beforeStart, StereoLooper.retriggerBlock,
          StereoLooper.clearBufferBlock, StereoLooper.UpdateParameters, probeOps,
          startRequested, probeStereo, probeLooper, StereoLooper.withLeft,
          StereoLooper.withRight]))⟩

theorem C16_warm_up_witness :
    warmUpStereo.state_ = StereoLooper.State.STARTUP ∧ warmUpStereo.fadeIndex = 0 ∧
    0 ≤ warmUpStereo.sampleRate_ ∧
    (StereoLooper.processAll probeOps probeDsp (warmUpStereo, 0, 0)
      [(1, 1), (1, 1), (1, 1)]).1.state_ = StereoLooper.State.STARTUP ∧
    (StereoLooper.processAll probeOps probeDsp (warmUpStereo, 0, 0)
      [(1, 1), (1, 1), (1, 1), (1, 1)]).1.state_ = StereoLooper.State.BUFFERING :=
  ⟨rfl, rfl, by decide,
    by rw [(C16_warm_up probeOps probeDsp warmUpStereo [(1, 1), (1, 1), (1, 1)] 0 0 rfl rfl
      (by decide)).1 (by decide)]; rfl,
    by rw [(C16_warm_up probeOps probeDsp warmUpStereo [(1, 1), (1, 1), (1, 1), (1, 1)] 0 0 rfl
      rfl (by decide)).2 (by decide)]⟩

theorem C17_buffering_step_witness :
    (probeStereo StereoLooper.State.BUFFERING (probeLooper 0 true) (probeLooper 0 true)
      0 0).state_ = StereoLooper.State.BUFFERING ∧
    (StereoLooper.Process probeOps probeDsp
      (probeStereo StereoLooper.State.BUFFERING (probeLooper 0 true) (probeLooper 0 true) 0 0)
      1 1 0 0).1.state_ = StereoLooper.State.READY :=
  ⟨rfl,
    (C17_buffering_step probeOps probeDsp
      (probeStereo StereoLooper.State.BUFFERING (probeLooper 0 true) (probeLooper 0 true) 0 0)
      1 1 0 0 rfl).1.2 (Or.inl ⟨rfl, rfl⟩)⟩

/-! ## Restart and random position -/

theorem SetReadPos_forward (s : Looper) (pos : ℚ) :
    (SetReadPos s pos).forward_ = s.forward_ := by
  unfold SetReadPos
  dsimp only
  split_ifs <;> rfl

theorem SetReadPos_movement (s : Looper) (pos : ℚ) :
    (SetReadPos s pos).movement_ = s.movement_ := by
  unfold SetReadPos
  dsimp only
  split_ifs <;> rfl

theorem SetReadPos_loopEnd (s : Looper) (pos : ℚ) :
    (SetReadPos s pos).loopEnd_ = s.loopEnd_ := by
  unfold SetReadPos
  dsimp only
  split_ifs <;> rfl

theorem SetReadPos_readPos (s : Looper) (pos : ℚ) :
    (SetReadPos s pos).readPos_ = pos := by
  unfold SetReadPos
  dsimp only

theorem SetReadPosAtStart_fields (s : Looper) :
    (SetReadPosAtStart s).loopStart_ = s.loopStart_ ∧
    (SetReadPosAtStart s).loopEnd_ = s.loopEnd_ ∧
    (s.movement_ ≠ Movement.PENDULUM →
      (SetReadPosAtStart s).forward_ = s.forward_ ∧
      (SetReadPosAtStart s).readPos_ = (s.loopStart_ : ℚ)) ∧
    (s.movement_ = Movement.PENDULUM →
      (SetReadPosAtStart s).forward_ = (!s.forward_) ∧
      (SetReadPosAtStart s).readPos_ = (s.loopEnd_ : ℚ)) := by
  unfold SetReadPosAtStart
  simp only [SetReadPos_movement]
  by_cases hm : Movement.PENDULUM = s.movement_
  · simp only [if_pos hm, SetReadPos_loopStart, SetReadPos_loopEnd, SetReadPos_forward,
      SetReadPos_readPos]
    exact ⟨trivial, trivial, fun h => absurd hm.symm h, fun _ => ⟨trivial, trivial⟩⟩
  · simp only [if_neg hm, SetReadPos_loopStart, SetReadPos_loopEnd, SetReadPos_forward,
      SetReadPos_readPos]
    exact ⟨trivial, trivial, fun _ => ⟨trivial, trivial⟩, fun h => absurd h.symm hm⟩

theorem SetReadPosAtEnd_fields (s : Looper) :
    (SetReadPosAtEnd s).loopStart_ = s.loopStart_ ∧
    (SetReadPosAtEnd s).loopEnd_ = s.loopEnd_ ∧
    (s.movement_ ≠ Movement.PENDULUM →
      (SetReadPosAtEnd s).forward_ = s.forward_ ∧
      (SetReadPosAtEnd s).readPos_ = (s.loopEnd_ : ℚ)) ∧
    (s.movement_ = Movement.PENDULUM →
      (SetReadPosAtEnd s).forward_ = (!s.forward_) ∧
      (SetReadPosAtEnd s).readPos_ = (s.loopStart_ : ℚ)) := by
  unfold SetReadPosAtEnd
  simp only [SetReadPos_movement]
  by_cases hm : Movement.PENDULUM = s.movement_
  · simp only [if_pos hm, SetReadPos_loopStart, SetReadPos_loopEnd, SetReadPos_forward,
      SetReadPos_readPos]
    exact ⟨trivial, trivial, fun h => absurd hm.symm h, fun _ => ⟨trivial, trivial⟩⟩
  · simp only [if_neg hm, SetReadPos_loopStart, SetReadPos_loopEnd, SetReadPos_forward,
      SetReadPos_readPos]
    exact ⟨trivial, trivial, fun _ => ⟨trivial, trivial⟩, fun h => absurd h.symm hm⟩

/-- C19: `Restart` with a movement other than `RANDOM` returns, leaves the
window unchanged, and: when the movement is not `PENDULUM`, the read head ends
at `loopStart` if the direction is forward and at `loopEnd` if it is backward,
with the direction unchanged; when the movement is `PENDULUM`, the direction
is inverted and the read head ends at the opposite boundary (`loopEnd` if the
direction was forward, `loopStart` if it was backward). -/
theorem C19_Restart (s : Looper) (r : Int) (hm : s.movement_ ≠ Movement.RANDOM) :
    ∃ s1 : Looper, Restart s r = some s1 ∧
      s1.loopStart_ = s.loopStart_ ∧ s1.loopEnd_ = s.loopEnd_ ∧
      (s.movement_ ≠ Movement.PENDULUM →
        s1.forward_ = s.forward_ ∧
        (s.forward_ = true → s1.readPos_ = (s.loopStart_ : ℚ)) ∧
        (s.forward_ = false → s1.readPos_ = (s.loopEnd_ : ℚ))) ∧
      (s.movement_ = Movement.PENDULUM →
        s1.forward_ = (!s.forward_) ∧
        (s.forward_ = true → s1.readPos_ = (s.loopEnd_ : ℚ)) ∧
        (s.forward_ = false → s1.readPos_ = (s.loopStart_ : ℚ))) := by
  have hm1 : ¬ Movement.RANDOM = s.movement_ := fun h => hm h.symm
  by_cases hf : s.forward_ = true
  · refine ⟨SetReadPosAtStart s, ?_, ?_⟩
    · simp only [Restart, if_neg hm1, if_pos hf]
    · obtain ⟨h1, h2, h3, h4⟩ := SetReadPosAtStart_fields s
      refine ⟨h1, h2, fun h => ⟨(h3 h).1, fun _ => (h3 h).2, fun hb => ?_⟩,
        fun h => ⟨(h4 h).1, fun _ => (h4 h).2, fun hb => ?_⟩⟩
      · rw [hf] at hb
        exact Bool.noConfusion hb
      · rw [hf] at hb
        exact Bool.noConfusion hb
  · have hfb : s.forward_ = false := by simpa using hf
    refine ⟨SetReadPosAtEnd s, ?_, ?_⟩
    · simp only [Restart, if_neg hm1, if_neg hf]
    · obtain ⟨h1, h2, h3, h4⟩ := SetReadPosAtEnd_fields s
      exact ⟨h1, h2, fun h => ⟨(h3 h).1, fun ht => absurd ht hf, fun _ => (h3 h).2⟩,
        fun h => ⟨(h4 h).1, fun ht => absurd ht hf, fun _ => (h4 h).2⟩⟩

theorem C19_Restart_witness :
    pendulumLooper.movement_ ≠ Movement.RANDOM ∧
    ∃ s1 : Looper, Restart pendulumLooper 0 = some s1 ∧
      s1.loopStart_ = pendulumLooper.loopStart_ ∧ s1.loopEnd_ = pendulumLooper.loopEnd_ ∧
      (pendulumLooper.movement_ ≠ Movement.PENDULUM →
        s1.forward_ = pendulumLooper.forward_ ∧
        (pendulumLooper.forward_ = true → s1.readPos_ = (pendulumLooper.loopStart_ : ℚ)) ∧
        (pendulumLooper.forward_ = false → s1.readPos_ = (pendulumLooper.loopEnd_ : ℚ))) ∧
      (pendulumLooper.movement_ = Movement.PENDULUM →
        s1.forward_ = (!pendulumLooper.forward_) ∧
        (pendulumLooper.forward_ = true → s1.readPos_ = (pendulumLooper.loopEnd_ : ℚ)) ∧
        (pendulumLooper.forward_ = false → s1.readPos_ = (pendulumLooper.loopStart_ : ℚ))) :=
  ⟨by decide, C19_Restart pendulumLooper 0 (by decide)⟩

/-- What `GetRandomPosition` returns, for every value `r >= 0` of the random
source (`rand()` returns no negative value, and on such values the remainder
of the source is the one of the model) and every looper with
`loopLength >= 2`: the modulus `loopLength - 1` is not zero, the function
returns, and the position before clamping is
`loopStart + r % (loopLength - 1)`, which lies in
`[loopStart, loopStart + loopLength - 2]`. Going forward the result is at most
`loopEnd`, and at least `loopStart` when `loopStart <= loopEnd`. Going backward
the result is the position before clamping: the test `pos < loopStart` never
holds. In both directions the result lies in `[loopStart, loopEnd]` whenever
the position before clamping is at most `loopEnd`, as it is when
`loopLength = loopEnd - loopStart + 1`. -/
theorem GetRandomPosition_bounds (s : Looper) (r : Int) (_hr : 0 ≤ r)
    (hlen : 2 ≤ s.loopLength_) :
    s.loopLength_ - 1 ≠ 0 ∧
    s.loopStart_ ≤ s.loopStart_ + r % (s.loopLength_ - 1) ∧
    s.loopStart_ + r % (s.loopLength_ - 1) ≤ s.loopStart_ + s.loopLength_ - 2 ∧
    ∃ p : Int, GetRandomPosition s r = some p ∧
      (s.forward_ = true →
        p ≤ s.loopEnd_ ∧ (s.loopStart_ ≤ s.loopEnd_ → s.loopStart_ ≤ p)) ∧
      (s.forward_ = false → p = s.loopStart_ + r % (s.loopLength_ - 1)) ∧
      (s.loopStart_ + r % (s.loopLength_ - 1) ≤ s.loopEnd_ →
        s.loopStart_ ≤ p ∧ p ≤ s.loopEnd_) ∧
      (s.loopLength_ = s.loopEnd_ - s.loopStart_ + 1 → s.loopStart_ ≤ p ∧ p ≤ s.loopEnd_) := by
  have hne : s.loopLength_ - 1 ≠ 0 := by omega
  have hpos : 0 < s.loopLength_ - 1 := by omega
  have h0 : 0 ≤ r % (s.loopLength_ - 1) := Int.emod_nonneg r hne
  have h1 : r % (s.loopLength_ - 1) < s.loopLength_ - 1 := Int.emod_lt_of_pos r hpos
  refine ⟨hne, by omega, by omega, ?_⟩
  unfold GetRandomPosition
  rw [if_neg hne]
  dsimp only
  split_ifs with ha hb
  · refine ⟨s.loopEnd_, rfl, fun _ => ⟨le_rfl, fun h => h⟩, fun hf => ?_, fun h => ?_, fun h => ?_⟩
    · rw [ha.1] at hf
      exact absurd hf (by decide)
    · omega
    · omega
  · exact absurd hb.2 (by omega)
  · refine ⟨_, rfl, fun hf => ⟨?_, fun _ => by omega⟩, fun _ => rfl, fun h => ⟨by omega, h⟩,
      fun h => ⟨by omega, by omega⟩⟩
    by_contra hgt
    exact ha ⟨hf, by omega⟩

/-- C20 (the code at the failing input): window `[10, 49]` and
`loopLength = 50`, as `SetLoopLength(50)` leaves them with `loopStart = 10`.
Going backward, with `rand()` returning 48, `GetRandomPosition` returns
`10 + 48 % 49 = 58`, above `loopEnd = 49`: the upper bound is only tested going
forward, where the same draw is clamped to 49. -/
theorem C20_GetRandomPosition_leaves_window :
    overhangLooper.loopStart_ = 10 ∧ overhangLooper.loopEnd_ = 49 ∧
    overhangLooper.loopLength_ = 50 ∧ overhangLooper.forward_ = false ∧
    GetRandomPosition overhangLooper 48 = some 58 ∧
    overhangLooper.loopEnd_ < 58 ∧
    GetRandomPosition { overhangLooper with forward_ := true } 48 = some 49 := by
  refine ⟨rfl, rfl, rfl, rfl, ?_, by decide, ?_⟩
  · simp [GetRandomPosition, overhangLooper, SetLoopLength, exampleLooper]
  · simp [GetRandomPosition, overhangLooper, SetLoopLength, exampleLooper]


/-! ## Closure of the loop window -/

theorem HandlePosBoundaries_window (s : Looper) (pos : ℚ) (isReadPos : Bool) :
    (HandlePosBoundaries s pos isReadPos).1.loopStart_ = s.loopStart_ ∧
    (HandlePosBoundaries s pos isReadPos).1.loopEnd_ = s.loopEnd_ := by
  unfold HandlePosBoundaries
  dsimp only
  split_ifs <;> exact ⟨rfl, rfl⟩

theorem HandlePosBoundaries_closure (s : Looper) (pos : ℚ) (isReadPos : Bool)
    (hwin : s.loopEnd_ > s.loopStart_)
    (hdir : (s.forward_ = true ∧ (s.loopStart_ : ℚ) ≤ pos) ∨
      (s.forward_ = false ∧ pos ≤ (s.loopEnd_ : ℚ))) :
    (s.loopStart_ : ℚ) ≤ (HandlePosBoundaries s pos isReadPos).2 ∧
    (HandlePosBoundaries s pos isReadPos).2 ≤ (s.loopEnd_ : ℚ) := by
  have hq : (s.loopStart_ : ℚ) < (s.loopEnd_ : ℚ) := by exact_mod_cast hwin
  unfold HandlePosBoundaries
  simp only [hwin, if_true]
  rcases hdir with ⟨hf, hp⟩ | ⟨hf, hp⟩
  · simp only [hf, true_and, Bool.true_eq_false, false_and, if_false]
    split_ifs <;> dsimp only <;> constructor <;> linarith
  · simp only [hf, Bool.false_eq_true, false_and, if_false, true_and]
    split_ifs <;> dsimp only <;> constructor <;> linarith

theorem moveStep_closure (isReadPos : Bool) (st : Looper × ℚ) (delta : ℚ)
    (hwin : st.1.loopEnd_ > st.1.loopStart_) (hd : 0 ≤ delta)
    (hlo : (st.1.loopStart_ : ℚ) ≤ st.2) (hhi : st.2 ≤ (st.1.loopEnd_ : ℚ)) :
    (moveStep isReadPos st delta).1.loopStart_ = st.1.loopStart_ ∧
    (moveStep isReadPos st delta).1.loopEnd_ = st.1.loopEnd_ ∧
    (st.1.loopStart_ : ℚ) ≤ (moveStep isReadPos st delta).2 ∧
    (moveStep isReadPos st delta).2 ≤ (st.1.loopEnd_ : ℚ) := by
  unfold moveStep
  refine ⟨(HandlePosBoundaries_window _ _ _).1, (HandlePosBoundaries_window _ _ _).2, ?_⟩
  apply HandlePosBoundaries_closure _ _ _ hwin
  by_cases hf : st.1.forward_ = true
  · left
    rw [if_pos hf]
    exact ⟨hf, by linarith⟩
  · right
    rw [if_neg hf]
    exact ⟨by simpa using hf, by linarith⟩

theorem moveAll_closure (isReadPos : Bool) (deltas : List ℚ) :
    ∀ st : Looper × ℚ, st.1.loopEnd_ > st.1.loopStart_ → (∀ d ∈ deltas, (0 : ℚ) ≤ d) →
      (st.1.loopStart_ : ℚ) ≤ st.2 → st.2 ≤ (st.1.loopEnd_ : ℚ) →
      (st.1.loopStart_ : ℚ) ≤ (moveAll isReadPos st deltas).2 ∧
      (moveAll isReadPos st deltas).2 ≤ (st.1.loopEnd_ : ℚ) := by
  induction deltas with
  | nil =>
    intro st _ _ hlo hhi
    exact ⟨hlo, hhi⟩
  | cons d ds ih =>
    intro st hwin hd hlo hhi
    obtain ⟨h1, h2, h3, h4⟩ :=
      moveStep_closure isReadPos st d hwin (hd d (List.mem_cons_self d ds)) hlo hhi
    have := ih (moveStep isReadPos st d) (by rw [h1, h2]; exact hwin)
      (fun x hx => hd x (List.mem_cons_of_mem d hx)) (by rw [h1]; exact h3) (by rw [h2]; exact h4)
    rw [h1, h2] at this
    exact this

/-- C29: loop-window closure of `HandlePosBoundaries` in a normal window
(`loopEnd > loopStart`), for every movement and either head kind. If the
direction before the call is forward and `pos >= loopStart`, or it is backward
and `pos <= loopEnd`, the position after the call lies in
`[loopStart, loopEnd]`. So a head that starts inside the window and between
calls only moves in its current direction (by any amounts that are not
negative) never leaves the window. -/
theorem C29_window_closure (s : Looper) (pos : ℚ) (isReadPos : Bool)
    (hwin : s.loopEnd_ > s.loopStart_) :
    (((s.forward_ = true ∧ (s.loopStart_ : ℚ) ≤ pos) ∨
        (s.forward_ = false ∧ pos ≤ (s.loopEnd_ : ℚ))) →
      (s.loopStart_ : ℚ) ≤ (HandlePosBoundaries s pos isReadPos).2 ∧
      (HandlePosBoundaries s pos isReadPos).2 ≤ (s.loopEnd_ : ℚ)) ∧
    (∀ deltas : List ℚ, (∀ d ∈ deltas, (0 : ℚ) ≤ d) →
      (s.loopStart_ : ℚ) ≤ pos → pos ≤ (s.loopEnd_ : ℚ) →
      (s.loopStart_ : ℚ) ≤ (moveAll isReadPos (s, pos) deltas).2 ∧
      (moveAll isReadPos (s, pos) deltas).2 ≤ (s.loopEnd_ : ℚ)) :=
  ⟨fun hdir => HandlePosBoundaries_closure s pos isReadPos hwin hdir,
    fun deltas hd hlo hhi => moveAll_closure isReadPos deltas (s, pos) hwin hd hlo hhi⟩

theorem C29_window_closure_witness :
    pendulumLooper.loopEnd_ > pendulumLooper.loopStart_ ∧
    (pendulumLooper.loopStart_ : ℚ) ≤ (HandlePosBoundaries pendulumLooper 7 true).2 ∧
    (HandlePosBoundaries pendulumLooper 7 true).2 ≤ (pendulumLooper.loopEnd_ : ℚ) :=
  ⟨by decide,
    (C29_window_closure pendulumLooper 7 true (by decide)).1
      (Or.inl ⟨rfl, by norm_num [pendulumLooper]⟩)⟩

/-! ## Resetting the buffer -/

/-- What `ResetBuffer` does: the listed members are reset, the samples at the
indices `0 .. initBufferSamples - 2` are set to 0, and the sample at the last
index `initBufferSamples - 1` is left as it was. -/
theorem ResetBuffer_effect (s : Looper) :
    (ResetBuffer s).bufferSamples_ = 0 ∧ (ResetBuffer s).writePos_ = 0 ∧
    (ResetBuffer s).readPos_ = 0 ∧ (ResetBuffer s).nextReadPos_ = 0 ∧
    (ResetBuffer s).loopStart_ = 0 ∧ (ResetBuffer s).loopEnd_ = 0 ∧
    (ResetBuffer s).loopLength_ = 0 ∧ (ResetBuffer s).fadeIndex_ = 0 ∧
    (ResetBuffer s).speed_ = 1 ∧
    (∀ i : Int, 0 ≤ i → i < s.initBufferSamples_ - 1 → (ResetBuffer s).buffer_ i = 0) ∧
    (ResetBuffer s).buffer_ (s.initBufferSamples_ - 1) = s.buffer_ (s.initBufferSamples_ - 1) := by
  refine ⟨rfl, rfl, rfl, rfl, rfl, rfl, rfl, rfl, rfl, fun i h0 h1 => ?_, ?_⟩
  · simp [ResetBuffer, h0, h1]
  · simp [ResetBuffer]

/-- C28 (the code at the failing input): a looper of capacity 100 whose buffer
holds 1 everywhere. After `ResetBuffer` the sample at index 98 is 0 and the
sample at the last index 99 is still 1: `std::fill` stops before
`&buffer_[initBufferSamples_ - 1]`. -/
theorem C28_ResetBuffer_last_sample :
    onesLooper.initBufferSamples_ = 100 ∧
    onesLooper.buffer_ 99 = 1 ∧
    (ResetBuffer onesLooper).buffer_ 98 = 0 ∧
    (ResetBuffer onesLooper).buffer_ 99 = 1 ∧
    (ResetBuffer onesLooper).bufferSamples_ = 0 := by
  refine ⟨rfl, rfl, ?_, ?_, rfl⟩
  · simp [ResetBuffer, onesLooper, exampleLooper]
  · simp [ResetBuffer, onesLooper, exampleLooper]


/-! ## Reading: interpolation -/

theorem fclamp_bounds (x lo hi : ℚ) (h : lo ≤ hi) : lo ≤ fclamp x lo hi ∧ fclamp x lo hi ≤ hi := by
  unfold fclamp
  exact ⟨le_min (le_max_right x lo) h, min_le_right _ _⟩

theorem Read_no_fade (cf : ℚ → ℚ → ℚ → ℚ) (s : Looper) (pos : ℚ)
    (hin : s.mustFadeIn_ = false) (hout : s.mustFadeOut_ = false) :
    Read cf s pos = (s, interpolated s pos) := by
  unfold Read
  simp [hin, hout]

/-- C24: interpolation in `Read`. For every `bufferSamples >= 1`, every
direction and every position `pos` with `0 <= pos < bufferSamples`, the index
of the sample at `pos` and the index of the neighbour sample lie in
`[0, bufferSamples - 1]`; going backward at index 0 and going forward at the
last index the neighbour is the last sample (for a buffer of less than `2^32`
samples); and when no fade is active and `pos` is an integer, `Read` returns
`buffer[pos]` and leaves the looper unchanged. -/
theorem C24_Read_interpolation (cf : ℚ → ℚ → ℚ → ℚ) (s : Looper) (pos : ℚ)
    (hB : 1 ≤ s.bufferSamples_) (h0 : 0 ≤ pos) (hlt : pos < (s.bufferSamples_ : ℚ)) :
    (0 ≤ toIndex pos ∧ toIndex pos ≤ s.bufferSamples_ - 1) ∧
    (0 ≤ neighbourIndex s pos ∧ neighbourIndex s pos ≤ s.bufferSamples_ - 1) ∧
    (s.bufferSamples_ < 4294967296 → s.forward_ = false → toIndex pos = 0 →
      neighbourIndex s pos = s.bufferSamples_ - 1) ∧
    (s.bufferSamples_ < 4294967296 → s.forward_ = true → toIndex pos = s.bufferSamples_ - 1 →
      neighbourIndex s pos = s.bufferSamples_ - 1) ∧
    (∀ n : Int, pos = (n : ℚ) → s.mustFadeIn_ = false → s.mustFadeOut_ = false →
      Read cf s pos = (s, s.buffer_ n)) := by
  have hhi : (0 : ℚ) ≤ ((s.bufferSamples_ - 1 : Int) : ℚ) := by
    have : (0 : Int) ≤ s.bufferSamples_ - 1 := by omega
    exact_mod_cast this
  have hcast : ((s.bufferSamples_ - 1 : Int) : ℚ) < (s.bufferSamples_ : ℚ) := by
    push_cast
    linarith
  refine ⟨toIndex_bounds pos _ h0 hlt, ?_, ?_, ?_, ?_⟩
  · unfold neighbourIndex
    dsimp only
    obtain ⟨hc1, hc2⟩ := fclamp_bounds
      (((toIndex pos + (if s.forward_ = true then 1 else -1)) % 4294967296 : Int) : ℚ) 0
      ((s.bufferSamples_ - 1 : Int) : ℚ) hhi
    exact toIndex_bounds _ _ hc1 (lt_of_le_of_lt hc2 hcast)
  · intro hsmall hf hi
    unfold neighbourIndex
    simp only [hf, hi, Bool.false_eq_true, if_false]
    have hwrap : ((0 : Int) + -1) % 4294967296 = 4294967295 := by decide
    rw [hwrap]
    have hge : ((s.bufferSamples_ - 1 : Int) : ℚ) ≤ ((4294967295 : Int) : ℚ) := by
      have : s.bufferSamples_ - 1 ≤ 4294967295 := by omega
      exact_mod_cast this
    have hcl : fclamp ((4294967295 : Int) : ℚ) 0 ((s.bufferSamples_ - 1 : Int) : ℚ)
        = ((s.bufferSamples_ - 1 : Int) : ℚ) := by
      unfold fclamp
      rw [max_eq_left (by norm_num), min_eq_right hge]
    rw [hcl, toIndex_intCast _ (by omega)]
  · intro hsmall hf hi
    unfold neighbourIndex
    simp only [hf, hi, if_true]
    have hwrap : (s.bufferSamples_ - 1 + 1) % 4294967296 = s.bufferSamples_ := by
      rw [sub_add_cancel]
      exact Int.emod_eq_of_lt (by omega) hsmall
    rw [hwrap]
    have hcl : fclamp (s.bufferSamples_ : ℚ) 0 ((s.bufferSamples_ - 1 : Int) : ℚ)
        = ((s.bufferSamples_ - 1 : Int) : ℚ) := by
      unfold fclamp
      have hpos : (0 : ℚ) ≤ (s.bufferSamples_ : ℚ) := by linarith
      rw [max_eq_left hpos, min_eq_right (le_of_lt hcast)]
    rw [hcl, toIndex_intCast _ (by omega)]
  · intro n hn hin hout
    have hn0 : 0 ≤ n := by
      have : (0 : ℚ) ≤ (n : ℚ) := by rw [← hn]; exact h0
      exact_mod_cast this
    rw [Read_no_fade cf s pos hin hout]
    unfold interpolated
    simp only [hn, toIndex_intCast n hn0, sub_self, ne_eq, not_true_eq_false, if_false]

theorem C24_Read_interpolation_witness :
    1 ≤ exampleLooper.bufferSamples_ ∧ (0 : ℚ) ≤ 99 ∧
    (99 : ℚ) < (exampleLooper.bufferSamples_ : ℚ) ∧
    0 ≤ neighbourIndex exampleLooper 99 ∧
    neighbourIndex exampleLooper 99 ≤ exampleLooper.bufferSamples_ - 1 :=
  ⟨by decide, by norm_num, by norm_num [exampleLooper],
    (C24_Read_interpolation (fun _ _ b => b) exampleLooper 99 (by decide) (by norm_num)
      (by norm_num [exampleLooper])).2.1⟩

/-! ## Stereo widening -/

/-- The widening stage of `Process` is `midSide` at the value of
`fastroot(2, 10)`. -/
theorem outputStage_midSide {K : Type} [LinearOrderedField K] [FloorRing K]
    {L F E : Type} (dsp : DspEnv K F E) (st : StereoLooper K L F E)
    (leftDry rightDry leftWet rightWet : K) :
    StereoLooper.outputStage dsp st leftDry rightDry leftWet rightWet
      = (dsp.SoftClip (dsp.EqualCrossFade leftDry
            (midSide (dsp.fastroot 2 10) leftWet rightWet st.stereoWidth).1 st.dryWetMix
            * st.outputGain),
         dsp.SoftClip (dsp.EqualCrossFade rightDry
            (midSide (dsp.fastroot 2 10) leftWet rightWet st.stereoWidth).2 st.dryWetMix
            * st.outputGain)) := rfl

/-- The mid-side widening in closed form, when `root` is a square root of 2. -/
theorem midSide_closed {K : Type} [Field K] (root l r w : K) (hroot : root * root = 2) :
    midSide root l r w
      = (((1 + w) * l + (1 - w) * r) / 2, ((1 - w) * l + (1 + w) * r) / 2) := by
  have hdiv : ∀ x : K, x / root / root = x / 2 := by
    intro x
    rw [div_div, hroot]
  unfold midSide
  dsimp only
  have e1 : ((l + r) / root + (l - r) / root * w) / root
      = ((1 + w) * l + (1 - w) * r) / root / root := by ring
  have e2 : ((l + r) / root - (l - r) / root * w) / root
      = ((1 - w) * l + (1 + w) * r) / root / root := by ring
  rw [e1, e2, hdiv, hdiv]

/-- The end of `Process` when `fastroot(2, 10)` is a square root of 2: the wet
values that go into the output crossfades are the widened ones, in closed
form. -/
theorem outputStage_widened {K : Type} [LinearOrderedField K] [FloorRing K]
    {L F E : Type} (dsp : DspEnv K F E) (st : StereoLooper K L F E)
    (leftDry rightDry leftWet rightWet : K)
    (hroot : dsp.fastroot 2 10 * dsp.fastroot 2 10 = 2) :
    StereoLooper.outputStage dsp st leftDry rightDry leftWet rightWet
      = (dsp.SoftClip (dsp.EqualCrossFade leftDry
            (((1 + st.stereoWidth) * leftWet + (1 - st.stereoWidth) * rightWet) / 2)
            st.dryWetMix * st.outputGain),
         dsp.SoftClip (dsp.EqualCrossFade rightDry
            (((1 - st.stereoWidth) * leftWet + (1 + st.stereoWidth) * rightWet) / 2)
            st.dryWetMix * st.outputGain)) := by
  rw [outputStage_midSide, midSide_closed _ _ _ _ hroot]

/-- Outside `STARTUP`, the outputs of `Process` are those of its end, the
mid-side processing and output gain stage, at the state that `Process`
returns and at some dry and wet values. -/
theorem Process_outputStage {K : Type} [LinearOrderedField K] [FloorRing K]
    {L F E : Type} (ops : LooperOps K L) (dsp : DspEnv K F E)
    (st : StereoLooper K L F E) (leftIn rightIn leftOut rightOut : K)
    (hst : st.state_ ≠ StereoLooper.State.STARTUP) :
    ∃ leftDry rightDry leftWet rightWet : K,
      (StereoLooper.Process ops dsp st leftIn rightIn leftOut rightOut).2
        = StereoLooper.outputStage dsp
            (StereoLooper.Process ops dsp st leftIn rightIn leftOut rightOut).1
            leftDry rightDry leftWet rightWet := by
  have hrun : ∀ leftDry rightDry : K, ∃ lD rD lW rW : K,
      (StereoLooper.processRunning ops dsp st leftDry rightDry).2
        = StereoLooper.outputStage dsp (StereoLooper.processRunning ops dsp st leftDry rightDry).1
            lD rD lW rW := by
    intro leftDry rightDry
    unfold StereoLooper.processRunning
    dsimp only
    split_ifs
    · exact ⟨_, _, _, _, rfl⟩
    · exact ⟨_, _, _, _, rfl⟩
  unfold StereoLooper.Process
  dsimp only
  cases hs : st.state_ with
  | STARTUP => exact absurd hs hst
  | BUFFERING => exact ⟨_, _, _, _, rfl⟩
  | READY => exact ⟨_, _, _, _, rfl⟩
  | RECORDING => exact hrun _ _
  | FROZEN => exact hrun _ _

/-- C27: stereo widening algebra, in exact arithmetic over any number type
(the reals among them) in which the value of `fastroot(2, 10)` is a square
root of 2. For all wet samples `l`, `r` and every width `w` the widening stage
of `Process` yields `((1 + w) * l + (1 - w) * r) / 2` and
`((1 - w) * l + (1 + w) * r) / 2`; their sum is `l + r`; width 1 is the
identity and width 0 gives `(l + r) / 2` on both sides. These are the wet
values that the end of `Process` passes to its output crossfades, with the
stereo width of the looper, and outside `STARTUP` the outputs of `Process` are
computed in this way from some dry and wet values. -/
theorem C27_stereo_widening {K : Type} [LinearOrderedField K] [FloorRing K]
    {L F E : Type} (ops : LooperOps K L) (dsp : DspEnv K F E)
    (st : StereoLooper K L F E) (leftIn rightIn leftOut rightOut l r w : K)
    (hroot : dsp.fastroot 2 10 * dsp.fastroot 2 10 = 2) :
    midSide (dsp.fastroot 2 10) l r w
      = (((1 + w) * l + (1 - w) * r) / 2, ((1 - w) * l + (1 + w) * r) / 2) ∧
    (midSide (dsp.fastroot 2 10) l r w).1 + (midSide (dsp.fastroot 2 10) l r w).2 = l + r ∧
    midSide (dsp.fastroot 2 10) l r 1 = (l, r) ∧
    midSide (dsp.fastroot 2 10) l r 0 = ((l + r) / 2, (l + r) / 2) ∧
    (∀ leftDry rightDry : K,
      StereoLooper.outputStage dsp st leftDry rightDry l r
        = (dsp.SoftClip (dsp.EqualCrossFade leftDry
              (((1 + st.stereoWidth) * l + (1 - st.stereoWidth) * r) / 2)
              st.dryWetMix * st.outputGain),
           dsp.SoftClip (dsp.EqualCrossFade rightDry
              (((1 - st.stereoWidth) * l + (1 + st.stereoWidth) * r) / 2)
              st.dryWetMix * st.outputGain))) ∧
    (st.state_ ≠ StereoLooper.State.STARTUP →
      ∃ leftDry rightDry leftWet rightWet : K,
        (StereoLooper.Process ops dsp st leftIn rightIn leftOut rightOut).2
          = (dsp.SoftClip (dsp.EqualCrossFade leftDry
                (((1 + (StereoLooper.Process ops dsp st leftIn rightIn leftOut
                      rightOut).1.stereoWidth) * leftWet
                  + (1 - (StereoLooper.Process ops dsp st leftIn rightIn leftOut
                      rightOut).1.stereoWidth) * rightWet) / 2)
                (StereoLooper.Process ops dsp st leftIn rightIn leftOut rightOut).1.dryWetMix
                * (StereoLooper.Process ops dsp st leftIn rightIn leftOut
                    rightOut).1.outputGain),
             dsp.SoftClip (dsp.EqualCrossFade rightDry
                (((1 - (StereoLooper.Process ops dsp st leftIn rightIn leftOut
                      rightOut).1.stereoWidth) * leftWet
                  + (1 + (StereoLooper.Process ops dsp st leftIn rightIn leftOut
                      rightOut).1.stereoWidth) * rightWet) / 2)
                (StereoLooper.Process ops dsp st leftIn rightIn leftOut rightOut).1.dryWetMix
                * (StereoLooper.Process ops dsp st leftIn rightIn leftOut
                    rightOut).1.outputGain))) := by
  have h2 : (2 : K) ≠ 0 := two_ne_zero
  have hmain := fun v : K => midSide_closed (dsp.fastroot 2 10) l r v hroot
  refine ⟨hmain w, ?_, ?_, ?_, fun leftDry rightDry => ?_, fun hst => ?_⟩
  · rw [hmain w]
    dsimp only
    field_simp
    ring
  · rw [hmain 1]
    congr 1 <;> field_simp <;> ring
  · rw [hmain 0]
    congr 1 <;> ring
  · exact outputStage_widened dsp st leftDry rightDry l r hroot
  · obtain ⟨lD, rD, lW, rW, h⟩ :=
      Process_outputStage ops dsp st leftIn rightIn leftOut rightOut hst
    refine ⟨lD, rD, lW, rW, ?_⟩
    rw [h]
    exact outputStage_widened dsp _ lD rD lW rW hroot

theorem C27_stereo_widening_witness :
    (plainDsp (Real.sqrt 2)).fastroot 2 10 * (plainDsp (Real.sqrt 2)).fastroot 2 10 = 2 ∧
    midSide ((plainDsp (Real.sqrt 2)).fastroot 2 10) (1 : ℝ) 0 1 = (1, 0) ∧
    (∀ leftDry rightDry : ℝ,
      StereoLooper.outputStage (plainDsp (Real.sqrt 2))
          (plainStereo StereoLooper.State.RECORDING (0 : ℝ)) leftDry rightDry 1 0
        = ((plainDsp (Real.sqrt 2)).SoftClip ((plainDsp (Real.sqrt 2)).EqualCrossFade leftDry
              (((1 + (plainStereo StereoLooper.State.RECORDING (0 : ℝ)).stereoWidth) * 1
                + (1 - (plainStereo StereoLooper.State.RECORDING (0 : ℝ)).stereoWidth) * 0) / 2)
              (plainStereo StereoLooper.State.RECORDING (0 : ℝ)).dryWetMix
              * (plainStereo StereoLooper.State.RECORDING (0 : ℝ)).outputGain),
           (plainDsp (Real.sqrt 2)).SoftClip ((plainDsp (Real.sqrt 2)).EqualCrossFade rightDry
              (((1 - (plainStereo StereoLooper.State.RECORDING (0 : ℝ)).stereoWidth) * 1
                + (1 + (plainStereo StereoLooper.State.RECORDING (0 : ℝ)).stereoWidth) * 0) / 2)
              (plainStereo StereoLooper.State.RECORDING (0 : ℝ)).dryWetMix
              * (plainStereo StereoLooper.State.RECORDING (0 : ℝ)).outputGain))) :=
  ⟨Real.mul_self_sqrt (by norm_num),
    (C27_stereo_widening plainOps (plainDsp (Real.sqrt 2))
      (plainStereo StereoLooper.State.RECORDING (0 : ℝ)) 0 0 0 0 1 0 1
      (Real.mul_self_sqrt (by norm_num))).2.2.1,
    (C27_stereo_widening plainOps (plainDsp (Real.sqrt 2))
      (plainStereo StereoLooper.State.RECORDING (0 : ℝ)) 0 0 0 0 1 0 1
      (Real.mul_self_sqrt (by norm_num))).2.2.2.2.1⟩


/-! ## Fades -/

theorem toIndex_half : toIndex (1 / 2 : ℚ) = 0 := by
  have h : ⌊(1 / 2 : ℚ)⌋ = 0 := by
    rw [Int.floor_eq_iff]
    norm_num
  unfold toIndex
  rw [h]
  rfl

/-- What `SetReadPos` does to the fade state, in terms of the conditions of
its two `if` statements. -/
theorem SetReadPos_fade (s : Looper) (pos : ℚ) :
    ((SetReadPos s pos).mustFadeIn_ = true ↔ (s.mustFadeIn_ = true ∨ fadeInCondition s pos)) ∧
    ((SetReadPos s pos).mustFadeOut_ = true ↔
      (s.mustFadeOut_ = true ∨ fadeOutCondition s pos)) ∧
    (fadeInCondition s pos ∨ fadeOutCondition s pos → (SetReadPos s pos).fadeIndex_ = 0) ∧
    (¬ fadeInCondition s pos → ¬ fadeOutCondition s pos →
      (SetReadPos s pos).fadeIndex_ = s.fadeIndex_) ∧
    (fadeInCondition s pos → (SetReadPos s pos).mustRestart_ = false) ∧
    (¬ fadeInCondition s pos →
      (SetReadPos s pos).mustRestart_ = false ∧ s.mustRestart_ = false ∧
      (SetReadPos s pos).mustFadeIn_ = s.mustFadeIn_) := by
  by_cases hin : fadeInCondition s pos <;> by_cases hout : fadeOutCondition s pos
  · have hin1 := hin
    have hout1 := hout
    unfold fadeInCondition at hin1
    unfold fadeOutCondition at hout1
    unfold SetReadPos
    simp only [if_pos hin1, if_pos hout1, hin, hout]
    simp
  · have hin1 := hin
    have hout1 := hout
    unfold fadeInCondition at hin1
    unfold fadeOutCondition at hout1
    unfold SetReadPos
    simp only [if_pos hin1, if_neg hout1, hin, hout]
    simp
  · have hin1 := hin
    have hout1 := hout
    unfold fadeInCondition at hin1
    unfold fadeOutCondition at hout1
    have hr : s.mustRestart_ = false := by
      by_contra hc
      exact hin1 (Or.inr (Or.inr (by simpa using hc)))
    unfold SetReadPos
    simp only [if_neg hin1, if_pos hout1, hin, hout]
    simp [hr]
  · have hin1 := hin
    have hout1 := hout
    unfold fadeInCondition at hin1
    unfold fadeOutCondition at hout1
    have hr : s.mustRestart_ = false := by
      by_contra hc
      exact hin1 (Or.inr (Or.inr (by simpa using hc)))
    unfold SetReadPos
    simp only [if_neg hin1, if_neg hout1, hin, hout]
    simp [hr]

/-- What `Read` does to the fade flags: it sets neither, and it either keeps
both or clears both. -/
theorem Read_flags (cf : ℚ → ℚ → ℚ → ℚ) (s : Looper) (pos : ℚ) :
    ((Read cf s pos).1.mustFadeIn_ = s.mustFadeIn_ ∧
      (Read cf s pos).1.mustFadeOut_ = s.mustFadeOut_) ∨
    ((Read cf s pos).1.mustFadeIn_ = false ∧ (Read cf s pos).1.mustFadeOut_ = false) := by
  unfold Read
  dsimp only
  split_ifs <;> first | exact Or.inr ⟨rfl, rfl⟩ | exact Or.inl ⟨rfl, rfl⟩

/-- C21 (as stated, refuted): window `[0, 23999]`, forward, fade length 240, no
fade flag set. `SetReadPos(23759)` sets up a fade out (`23759 + 240 = 23999`);
`SetReadPos(0)` then sets up a fade in and leaves the fade out pending: both
flags are true. -/
theorem C21_fade_flags_both_set :
    halfLoopLooper.mustFadeIn_ = false ∧ halfLoopLooper.mustFadeOut_ = false ∧
    (SetReadPos halfLoopLooper 23759).mustFadeIn_ = false ∧
    (SetReadPos halfLoopLooper 23759).mustFadeOut_ = true ∧
    (SetReadPos (SetReadPos halfLoopLooper 23759) 0).mustFadeIn_ = true ∧
    (SetReadPos (SetReadPos halfLoopLooper 23759) 0).mustFadeOut_ = true := by
  have h1 : toIndex (23759 : ℚ) = 23759 := by simpa using toIndex_intCast 23759 (by decide)
  have h2 : toIndex (0 : ℚ) = 0 := by simpa using toIndex_intCast 0 (by decide)
  refine ⟨rfl, rfl, ?_, ?_, ?_, ?_⟩ <;>
    norm_num [SetReadPos, GetFadeSamples, halfLoopLooper, h1, h2]

/-- C21 (amended): the two fade flags are not kept exclusive. `SetReadPos`
sets `mustFadeIn` when its fade-in condition holds and `mustFadeOut` when its
fade-out condition holds, each independently of the other flag, and clears
neither; `Read` sets neither flag and either keeps both or clears both. Every
`SetReadPos` call that sets up a fade (in or out) leaves `fadeIndex == 0`. -/
theorem C21_fade_flags (cf : ℚ → ℚ → ℚ → ℚ) (s : Looper) (pos : ℚ) :
    ((SetReadPos s pos).mustFadeIn_ = true ↔ (s.mustFadeIn_ = true ∨ fadeInCondition s pos)) ∧
    ((SetReadPos s pos).mustFadeOut_ = true ↔
      (s.mustFadeOut_ = true ∨ fadeOutCondition s pos)) ∧
    (fadeInCondition s pos ∨ fadeOutCondition s pos → (SetReadPos s pos).fadeIndex_ = 0) ∧
    (((Read cf s pos).1.mustFadeIn_ = s.mustFadeIn_ ∧
        (Read cf s pos).1.mustFadeOut_ = s.mustFadeOut_) ∨
      ((Read cf s pos).1.mustFadeIn_ = false ∧ (Read cf s pos).1.mustFadeOut_ = false)) :=
  ⟨(SetReadPos_fade s pos).1, (SetReadPos_fade s pos).2.1, (SetReadPos_fade s pos).2.2.1,
    Read_flags cf s pos⟩

/-- C22 (as stated, refuted): forward, `loopStart = 0`, no restart requested,
`mustFadeIn` not set. `SetReadPos(0.5)` sets up a fade in although the position
0.5 is not `loopStart`: the test is made on the position converted to an
index. -/
theorem C22_fade_in_off_boundary :
    exampleLooper.forward_ = true ∧ exampleLooper.mustRestart_ = false ∧
    exampleLooper.mustFadeIn_ = false ∧
    (1 / 2 : ℚ) ≠ (exampleLooper.loopStart_ : ℚ) ∧
    (SetReadPos exampleLooper (1 / 2)).mustFadeIn_ = true ∧
    (SetReadPos exampleLooper (1 / 2)).fadeIndex_ = 0 := by
  refine ⟨rfl, rfl, rfl, by norm_num [exampleLooper], ?_, ?_⟩ <;>
    norm_num [SetReadPos, GetFadeSamples, exampleLooper, toIndex_half]

/-- C22 (amended): `SetReadPos(pos)` sets up a fade in (sets `mustFadeIn`,
resets `fadeIndex` to 0 and clears the restart request) if and only if the
position converted to an index, `static_cast<uint32_t>(pos)`, equals
`loopStart` when forward or `loopEnd` when backward, or a restart was
requested; for a position that is an integer this is `pos == loopStart`
(`pos == loopEnd`). In every case it stores `readPos = pos`, and the restart
request is cleared afterwards. -/
theorem C22_fade_in_scheduling (s : Looper) (pos : ℚ) :
    (fadeInCondition s pos ↔
      ((s.forward_ = true ∧ toIndex pos = s.loopStart_) ∨
        (s.forward_ = false ∧ toIndex pos = s.loopEnd_) ∨ s.mustRestart_ = true)) ∧
    (fadeInCondition s pos →
      (SetReadPos s pos).mustFadeIn_ = true ∧ (SetReadPos s pos).fadeIndex_ = 0 ∧
      (SetReadPos s pos).mustRestart_ = false) ∧
    (¬ fadeInCondition s pos →
      (SetReadPos s pos).mustFadeIn_ = s.mustFadeIn_ ∧
      (SetReadPos s pos).mustRestart_ = false) ∧
    (s.mustFadeIn_ = false → ((SetReadPos s pos).mustFadeIn_ = true ↔ fadeInCondition s pos)) ∧
    (∀ n : Int, 0 ≤ n → pos = (n : ℚ) →
      ((toIndex pos = s.loopStart_ ↔ pos = (s.loopStart_ : ℚ)) ∧
        (toIndex pos = s.loopEnd_ ↔ pos = (s.loopEnd_ : ℚ)))) ∧
    (SetReadPos s pos).readPos_ = pos := by
  obtain ⟨h1, _, h3, _, h5, h6⟩ := SetReadPos_fade s pos
  refine ⟨Iff.rfl, fun h => ⟨h1.2 (Or.inr h), h3 (Or.inl h), h5 h⟩,
    fun h => ⟨(h6 h).2.2, (h6 h).1⟩, fun hf => ?_, fun n hn hp => ?_, SetReadPos_readPos s pos⟩
  · rw [h1, hf]
    simp
  · rw [hp, toIndex_intCast n hn]
    exact ⟨by norm_cast, by norm_cast⟩


theorem interpolated_congr (s t : Looper) (pos : ℚ) (hb : t.buffer_ = s.buffer_)
    (hf : t.forward_ = s.forward_) (hB : t.bufferSamples_ = s.bufferSamples_) :
    interpolated t pos = interpolated s pos := by
  unfold interpolated neighbourIndex
  rw [hb, hf, hB]

/-! ## Rounding to `float` -/

theorem roundHalfEven_error (x : ℚ) : |((roundHalfEven x : Int) : ℚ) - x| ≤ 1 / 2 := by
  have h1 : ((⌊x⌋ : Int) : ℚ) ≤ x := Int.floor_le x
  have h2 : x < ((⌊x⌋ : Int) : ℚ) + 1 := Int.lt_floor_add_one x
  unfold roundHalfEven
  dsimp only
  split_ifs with ha hb hc
  · rw [abs_le]; constructor <;> linarith
  · rw [abs_le]; push_cast; constructor <;> linarith
  · rw [abs_le]; constructor <;> linarith
  · rw [abs_le]; push_cast; constructor <;> linarith

theorem roundHalfEven_of_lt (x : ℚ) (f : Int) (h1 : (f : ℚ) ≤ x) (h2 : x < (f : ℚ) + 1 / 2) :
    roundHalfEven x = f := by
  have hf : ⌊x⌋ = f := by
    rw [Int.floor_eq_iff]
    constructor <;> linarith
  unfold roundHalfEven
  dsimp only
  rw [hf, if_pos (by linarith)]

theorem roundHalfEven_of_gt (x : ℚ) (f : Int) (h1 : (f : ℚ) + 1 / 2 < x) (h2 : x < (f : ℚ) + 1) :
    roundHalfEven x = f + 1 := by
  have hf : ⌊x⌋ = f := by
    rw [Int.floor_eq_iff]
    constructor <;> linarith
  unfold roundHalfEven
  dsimp only
  rw [hf, if_neg (by linarith), if_pos (by linarith)]

theorem roundHalfEven_of_tie_even (x : ℚ) (f : Int) (h1 : x = (f : ℚ) + 1 / 2)
    (h2 : f % 2 = 0) : roundHalfEven x = f := by
  have hf : ⌊x⌋ = f := by
    rw [Int.floor_eq_iff]
    constructor <;> linarith
  unfold roundHalfEven
  dsimp only
  rw [hf, if_neg (by linarith), if_neg (by linarith), if_pos h2]

theorem roundHalfEven_of_tie_odd (x : ℚ) (f : Int) (h1 : x = (f : ℚ) + 1 / 2)
    (h2 : f % 2 ≠ 0) : roundHalfEven x = f + 1 := by
  have hf : ⌊x⌋ = f := by
    rw [Int.floor_eq_iff]
    constructor <;> linarith
  unfold roundHalfEven
  dsimp only
  rw [hf, if_neg (by linarith), if_neg (by linarith), if_neg h2]

theorem roundHalfEven_intCast (n : Int) : roundHalfEven (n : ℚ) = n :=
  roundHalfEven_of_lt (n : ℚ) n le_rfl (by linarith)

theorem log_two_eq (q : ℚ) (e : Int) (h1 : (2 : ℚ) ^ e ≤ q) (h2 : q < (2 : ℚ) ^ (e + 1)) :
    Int.log 2 q = e := by
  have hq : 0 < q := lt_of_lt_of_le (zpow_pos (by norm_num) e) h1
  apply le_antisymm
  · have : Int.log 2 q < e + 1 := by
      rw [← Int.lt_zpow_iff_log_lt (by norm_num) hq]
      exact_mod_cast h2
    omega
  · rw [← Int.zpow_le_iff_le_log (by norm_num) hq]
    exact_mod_cast h1

/-- The value of `float32` at a positive number whose leading bit has the
exponent `e`. -/
theorem float32_of_exponent (q : ℚ) (e : Int) (he : -126 ≤ e) (h1 : (2 : ℚ) ^ e ≤ q)
    (h2 : q < (2 : ℚ) ^ (e + 1)) :
    float32 q = (roundHalfEven (q / (2 : ℚ) ^ (e - 23)) : ℚ) * (2 : ℚ) ^ (e - 23) := by
  have hq : 0 < q := lt_of_lt_of_le (zpow_pos (by norm_num) e) h1
  unfold float32
  rw [if_neg (ne_of_gt hq)]
  dsimp only
  rw [abs_of_pos hq, log_two_eq q e h1 h2, max_eq_left he]

theorem float32_zero : float32 0 = 0 := by
  unfold float32
  rw [if_pos rfl]

/-- Relative error of one rounding: at most `2 ^ (-24)`, for a positive number
in the normal range. -/
theorem float32_error (q : ℚ) (hq : (2 : ℚ) ^ (-126 : Int) ≤ q) :
    |float32 q - q| ≤ q / 16777216 := by
  have hpos : 0 < q := lt_of_lt_of_le (zpow_pos (by norm_num) _) hq
  have h1 : (2 : ℚ) ^ (Int.log 2 q) ≤ q := by
    have := Int.zpow_log_le_self (b := 2) (r := q) (by norm_num) hpos
    exact_mod_cast this
  have h2 : q < (2 : ℚ) ^ (Int.log 2 q + 1) := by
    have := Int.lt_zpow_succ_log_self (b := 2) (by norm_num) q
    exact_mod_cast this
  have he : -126 ≤ Int.log 2 q := by
    rw [← Int.zpow_le_iff_le_log (by norm_num) hpos]
    exact_mod_cast hq
  rw [float32_of_exponent q _ he h1 h2]
  set e := Int.log 2 q with hedef
  have hulp : (0 : ℚ) < (2 : ℚ) ^ (e - 23) := zpow_pos (by norm_num) _
  have herr := roundHalfEven_error (q / (2 : ℚ) ^ (e - 23))
  have hsplit : (2 : ℚ) ^ (e - 23) = (2 : ℚ) ^ e / 8388608 := by
    rw [zpow_sub₀ (by norm_num)]
    norm_num
  have heq : (roundHalfEven (q / (2 : ℚ) ^ (e - 23)) : ℚ) * (2 : ℚ) ^ (e - 23) - q
      = ((roundHalfEven (q / (2 : ℚ) ^ (e - 23)) : ℚ) - q / (2 : ℚ) ^ (e - 23))
          * (2 : ℚ) ^ (e - 23) := by
    field_simp
  rw [heq, abs_mul, abs_of_pos hulp]
  calc |(roundHalfEven (q / (2 : ℚ) ^ (e - 23)) : ℚ) - q / (2 : ℚ) ^ (e - 23)|
        * (2 : ℚ) ^ (e - 23)
      ≤ 1 / 2 * (2 : ℚ) ^ (e - 23) := mul_le_mul_of_nonneg_right herr (le_of_lt hulp)
    _ = (2 : ℚ) ^ e / 16777216 := by rw [hsplit]; ring
    _ ≤ q / 16777216 := by
        apply div_le_div_of_nonneg_right h1
        norm_num


/-- Integers up to `2 ^ 24` are `float` values: converting them is exact. -/
theorem float32_natCast (k : ℕ) (hk : k ≤ 16777216) : float32 (k : ℚ) = (k : ℚ) := by
  rcases Nat.eq_zero_or_pos k with h0 | hpos
  · subst h0
    simpa using float32_zero
  have hne : k ≠ 0 := Nat.pos_iff_ne_zero.mp hpos
  have hlo : 2 ^ Nat.log 2 k ≤ k := Nat.pow_log_le_self 2 hne
  have hhi : k < 2 ^ (Nat.log 2 k + 1) := Nat.lt_pow_succ_log_self (by norm_num) k
  have hn : Nat.log 2 k ≤ 24 := by
    by_contra hcon
    have h25 : 25 ≤ Nat.log 2 k := by omega
    have : 2 ^ 25 ≤ 2 ^ Nat.log 2 k := Nat.pow_le_pow_right (by norm_num) h25
    have h33 : (2 : ℕ) ^ 25 = 33554432 := by norm_num
    omega
  set n := Nat.log 2 k with hndef
  have h1 : (2 : ℚ) ^ ((n : ℕ) : Int) ≤ (k : ℚ) := by
    rw [zpow_natCast]
    exact_mod_cast hlo
  have h2 : (k : ℚ) < (2 : ℚ) ^ (((n : ℕ) : Int) + 1) := by
    have : (((n : ℕ) : Int) + 1) = ((n + 1 : ℕ) : Int) := by push_cast; ring
    rw [this, zpow_natCast]
    exact_mod_cast hhi
  rw [float32_of_exponent (k : ℚ) (n : Int) (by omega) h1 h2]
  rcases Nat.lt_or_ge n 24 with hlt | hge
  · have hexp : ((n : ℕ) : Int) - 23 = -(((23 - n : ℕ) : ℕ) : Int) := by omega
    have hz : (2 : ℚ) ^ (((n : ℕ) : Int) - 23) = ((2 : ℚ) ^ (23 - n))⁻¹ := by
      rw [hexp, zpow_neg, zpow_natCast]
    rw [hz]
    have hval : (k : ℚ) / ((2 : ℚ) ^ (23 - n))⁻¹ = (((k * 2 ^ (23 - n) : ℕ) : Int) : ℚ) := by
      rw [div_inv_eq_mul]
      push_cast
      ring
    rw [hval, roundHalfEven_intCast]
    have hp : (2 : ℚ) ^ (23 - n) ≠ 0 := pow_ne_zero _ (by norm_num)
    push_cast
    field_simp
  · have hn24 : n = 24 := by omega
    have hk24 : k = 16777216 := by
      rw [hn24] at hlo
      have : (2 : ℕ) ^ 24 = 16777216 := by norm_num
      omega
    rw [hn24, hk24]
    have hval : ((16777216 : ℕ) : ℚ) / (2 : ℚ) ^ (((24 : ℕ) : Int) - 23)
        = ((8388608 : Int) : ℚ) := by norm_num
    rw [hval, roundHalfEven_intCast]
    norm_num

/-- Rounding next to 1: a number within `2 ^ (-24)` of 1 is rounded to 1 or to
the `float` just below 1. -/
theorem float32_near_one (y : ℚ) (h1 : 1 - 1 / 16777216 ≤ y) (h2 : y ≤ 1 + 1 / 16777216) :
    float32 y = 1 ∨ float32 y = 16777215 / 16777216 := by
  rcases lt_or_le y 1 with hlt | hge
  · have e1 : (2 : ℚ) ^ (-1 : Int) ≤ y := by
      have : (2 : ℚ) ^ (-1 : Int) = 1 / 2 := by norm_num
      rw [this]
      linarith
    have e2 : y < (2 : ℚ) ^ ((-1 : Int) + 1) := by
      have : (2 : ℚ) ^ ((-1 : Int) + 1) = 1 := by norm_num
      rw [this]
      exact hlt
    rw [float32_of_exponent y (-1) (by decide) e1 e2]
    have hulp : (2 : ℚ) ^ ((-1 : Int) - 23) = 1 / 16777216 := by norm_num
    rw [hulp]
    have hm : y / (1 / 16777216) = y * 16777216 := by field_simp
    rw [hm]
    rcases lt_trichotomy (y * 16777216) (((16777215 : Int) : ℚ) + 1 / 2) with h | h | h
    · right
      rw [roundHalfEven_of_lt _ 16777215 (by push_cast; linarith) h]
      norm_num
    · left
      rw [roundHalfEven_of_tie_odd _ 16777215 h (by decide)]
      norm_num
    · left
      rw [roundHalfEven_of_gt _ 16777215 h (by push_cast; linarith)]
      norm_num
  · left
    have e1 : (2 : ℚ) ^ (0 : Int) ≤ y := by
      rw [zpow_zero]
      exact hge
    have e2 : y < (2 : ℚ) ^ ((0 : Int) + 1) := by
      have : (2 : ℚ) ^ ((0 : Int) + 1) = 2 := by norm_num
      rw [this]
      linarith
    rw [float32_of_exponent y 0 (by decide) e1 e2]
    have hulp : (2 : ℚ) ^ ((0 : Int) - 23) = 1 / 8388608 := by norm_num
    rw [hulp]
    have hm : y / (1 / 8388608) = y * 8388608 := by field_simp
    rw [hm]
    rcases lt_or_eq_of_le (show y * 8388608 ≤ ((8388608 : Int) : ℚ) + 1 / 2 by
      push_cast; linarith) with h | h
    · rw [roundHalfEven_of_lt _ 8388608 (by push_cast; linarith) h]
      norm_num
    · rw [roundHalfEven_of_tie_even _ 8388608 h (by decide)]
      norm_num

/-- The crossfade position that `Read` computes at fade index `k` for a fade
of `N` samples, `k * (1.f / N)` in `float` arithmetic. It is 0 at `k = 0`; for
`1 <= k <= N <= 2 ^ 24` it is `k / N` up to a relative error of `2 ^ (-22)`;
and at `k = N` it is 1 or the `float` just below 1. -/
theorem fade_position (k N : ℕ) (hN : 1 ≤ N) (hN24 : N ≤ 16777216) (hk : k ≤ N) :
    (k = 0 → float32 (float32 (k : ℚ) * float32 (1 / (N : ℚ))) = 0) ∧
    |float32 (float32 (k : ℚ) * float32 (1 / (N : ℚ))) - (k : ℚ) / (N : ℚ)|
      ≤ (k : ℚ) / (N : ℚ) / 4194304 ∧
    (k = N → (float32 (float32 (k : ℚ) * float32 (1 / (N : ℚ))) = 1 ∨
      float32 (float32 (k : ℚ) * float32 (1 / (N : ℚ))) = 16777215 / 16777216)) := by
  have hNq : (0 : ℚ) < (N : ℚ) := by exact_mod_cast hN
  have hN1 : (1 : ℚ) ≤ (N : ℚ) := by exact_mod_cast hN
  have hNle : (N : ℚ) ≤ 16777216 := by exact_mod_cast hN24
  have hkq : (k : ℚ) ≤ (N : ℚ) := by exact_mod_cast hk
  have hk0 : (0 : ℚ) ≤ (k : ℚ) := Nat.cast_nonneg k
  have hxlo : (1 : ℚ) / 16777216 ≤ 1 / (N : ℚ) := by
    apply one_div_le_one_div_of_le hNq hNle
  have hsmall : (2 : ℚ) ^ (-126 : Int) ≤ 1 / 33554432 := by norm_num
  have hx126 : (2 : ℚ) ^ (-126 : Int) ≤ 1 / (N : ℚ) :=
    le_trans hsmall (le_trans (by norm_num) hxlo)
  have herr := float32_error (1 / (N : ℚ)) hx126
  rw [abs_le] at herr
  obtain ⟨herr1, herr2⟩ := herr
  rw [float32_natCast k (le_trans hk hN24)]
  set x := float32 (1 / (N : ℚ)) with hx
  have hxN : (N : ℚ) * (1 / (N : ℚ)) = 1 := by field_simp
  refine ⟨?_, ?_, ?_⟩
  · intro h
    rw [h]
    simpa using float32_zero
  · rcases Nat.eq_zero_or_pos k with h0 | hpos
    · subst h0
      simp [float32_zero]
    have hk1 : (1 : ℚ) ≤ (k : ℚ) := by exact_mod_cast hpos
    have hxpos : (1 : ℚ) / 33554432 ≤ x := by
      have : 1 / (N : ℚ) / 16777216 ≤ 1 / (N : ℚ) / 2 := by
        apply div_le_div_of_nonneg_left _ (by norm_num) (by norm_num)
        positivity
      linarith
    have hz126 : (2 : ℚ) ^ (-126 : Int) ≤ (k : ℚ) * x := by
      have hx0 : (0 : ℚ) ≤ x := by linarith
      exact le_trans hsmall (le_trans hxpos (le_mul_of_one_le_left hx0 hk1))
    have herrz := float32_error ((k : ℚ) * x) hz126
    rw [abs_le] at herrz
    obtain ⟨hz1, hz2⟩ := herrz
    have hkN : (k : ℚ) / (N : ℚ) = (k : ℚ) * (1 / (N : ℚ)) := by ring
    have hu1 : (k : ℚ) * (x - 1 / (N : ℚ)) ≤ (k : ℚ) * (1 / (N : ℚ) / 16777216) :=
      mul_le_mul_of_nonneg_left herr2 hk0
    have hu2 : (k : ℚ) * (-(1 / (N : ℚ) / 16777216)) ≤ (k : ℚ) * (x - 1 / (N : ℚ)) :=
      mul_le_mul_of_nonneg_left herr1 hk0
    have hpos2 : (0 : ℚ) ≤ (k : ℚ) * (1 / (N : ℚ)) := by positivity
    rw [hkN, abs_le]
    constructor <;> nlinarith
  · intro h
    rw [h]
    apply float32_near_one
    · have : (N : ℚ) * (x - 1 / (N : ℚ)) ≥ (N : ℚ) * (-(1 / (N : ℚ) / 16777216)) :=
        mul_le_mul_of_nonneg_left herr1 (le_of_lt hNq)
      have h3 : (N : ℚ) * (1 / (N : ℚ) / 16777216) = 1 / 16777216 := by field_simp
      nlinarith
    · have : (N : ℚ) * (x - 1 / (N : ℚ)) ≤ (N : ℚ) * (1 / (N : ℚ) / 16777216) :=
        mul_le_mul_of_nonneg_left herr2 (le_of_lt hNq)
      have h3 : (N : ℚ) * (1 / (N : ℚ) / 16777216) = 1 / 16777216 := by field_simp
      nlinarith

theorem float32_one_over_41 : float32 (1 / 41) = 3273603 / 134217728 := by
  have e1 : (2 : ℚ) ^ (-6 : Int) ≤ 1 / 41 := by norm_num
  have e2 : (1 / 41 : ℚ) < (2 : ℚ) ^ ((-6 : Int) + 1) := by norm_num
  rw [float32_of_exponent (1 / 41) (-6) (by decide) e1 e2]
  have hulp : (2 : ℚ) ^ ((-6 : Int) - 23) = 1 / 536870912 := by norm_num
  rw [hulp, roundHalfEven_of_lt _ 13094412 (by norm_num) (by norm_num)]
  norm_num

theorem fade_position_41 :
    float32 (float32 ((41 : Int) : ℚ) * float32 (1 / 41)) = 16777215 / 16777216 := by
  have h41 : float32 ((41 : Int) : ℚ) = 41 := by
    simpa using float32_natCast 41 (by decide)
  rw [h41, float32_one_over_41]
  have e1 : (2 : ℚ) ^ (-1 : Int) ≤ 41 * (3273603 / 134217728) := by norm_num
  have e2 : (41 * (3273603 / 134217728) : ℚ) < (2 : ℚ) ^ ((-1 : Int) + 1) := by norm_num
  rw [float32_of_exponent _ (-1) (by decide) e1 e2]
  have hulp : (2 : ℚ) ^ ((-1 : Int) - 23) = 1 / 16777216 := by norm_num
  rw [hulp, roundHalfEven_of_lt _ 16777215 (by norm_num) (by norm_num)]
  norm_num

/-! ## The fade window -/

/-- One `Read` while a fade is active. -/
theorem Read_fading (cf : ℚ → ℚ → ℚ → ℚ) (s : Looper) (pos : ℚ)
    (hone : s.mustFadeIn_ = true ∨ s.mustFadeOut_ = true) :
    (Read cf s pos).1.cfPos_
      = float32 (float32 (s.fadeIndex_ : ℚ) * float32 (1 / GetFadeSamples s)) ∧
    (Read cf s pos).2
      = interpolated s pos
          * cf (float32 (float32 (s.fadeIndex_ : ℚ) * float32 (1 / GetFadeSamples s)))
            (if s.mustFadeIn_ = true then 0 else 1) (if s.mustFadeIn_ = true then 1 else 0) ∧
    (Read cf s pos).1.fadeIndex_ = s.fadeIndex_ + 1 ∧
    (Read cf s pos).1.fadeSamples_ = s.fadeSamples_ ∧
    (Read cf s pos).1.buffer_ = s.buffer_ ∧
    (Read cf s pos).1.forward_ = s.forward_ ∧
    (Read cf s pos).1.bufferSamples_ = s.bufferSamples_ ∧
    (((s.fadeIndex_ : ℚ) + 1 > GetFadeSamples s) →
      (Read cf s pos).1.mustFadeIn_ = false ∧ (Read cf s pos).1.mustFadeOut_ = false) ∧
    (¬ ((s.fadeIndex_ : ℚ) + 1 > GetFadeSamples s) →
      (Read cf s pos).1.mustFadeIn_ = s.mustFadeIn_ ∧
      (Read cf s pos).1.mustFadeOut_ = s.mustFadeOut_) := by
  unfold Read
  rw [if_pos hone]
  dsimp only
  by_cases hc : (s.fadeIndex_ : ℚ) + 1 > GetFadeSamples s
  · have hc1 : ((s.fadeIndex_ + 1 : Int) : ℚ) > GetFadeSamples s := by
      push_cast
      exact hc
    rw [if_pos hc1]
    exact ⟨rfl, rfl, rfl, rfl, rfl, rfl, rfl, fun _ => ⟨rfl, rfl⟩, fun h => absurd hc h⟩
  · have hc1 : ¬ ((s.fadeIndex_ + 1 : Int) : ℚ) > GetFadeSamples s := by
      push_cast
      exact hc
    rw [if_neg hc1]
    exact ⟨rfl, rfl, rfl, rfl, rfl, rfl, rfl, fun h => absurd h hc, fun _ => ⟨rfl, rfl⟩⟩

theorem readAll_cons (cf : ℚ → ℚ → ℚ → ℚ) (s : Looper) (p : ℚ) (ps : List ℚ) :
    readAll cf s (p :: ps) = readAll cf (Read cf s p).1 ps := rfl

/-- While the fade index stays within the fade length, the reads advance the
fade index and keep the fade flags. -/
theorem readAll_fading (cf : ℚ → ℚ → ℚ → ℚ) (N : ℕ) (positions : List ℚ) :
    ∀ s : Looper, (s.mustFadeIn_ = true ∨ s.mustFadeOut_ = true) →
      GetFadeSamples s = (N : ℚ) → s.fadeIndex_ + (positions.length : Int) ≤ (N : Int) →
      (readAll cf s positions).fadeIndex_ = s.fadeIndex_ + (positions.length : Int) ∧
      (readAll cf s positions).mustFadeIn_ = s.mustFadeIn_ ∧
      (readAll cf s positions).mustFadeOut_ = s.mustFadeOut_ ∧
      (readAll cf s positions).fadeSamples_ = s.fadeSamples_ ∧
      (readAll cf s positions).buffer_ = s.buffer_ ∧
      (readAll cf s positions).forward_ = s.forward_ ∧
      (readAll cf s positions).bufferSamples_ = s.bufferSamples_ := by
  induction positions with
  | nil =>
    intro s _ _ _
    simp [readAll]
  | cons p ps ih =>
    intro s hone hfs hlen
    simp only [List.length_cons, Nat.cast_add, Nat.cast_one] at hlen
    obtain ⟨_, _, hi, hs, hb, hf, hB, _, hkeep⟩ := Read_fading cf s p hone
    have hno : ¬ ((s.fadeIndex_ : ℚ) + 1 > GetFadeSamples s) := by
      rw [hfs]
      have : s.fadeIndex_ + 1 ≤ (N : Int) := by omega
      have hq : ((s.fadeIndex_ + 1 : Int) : ℚ) ≤ ((N : Int) : ℚ) := by exact_mod_cast this
      push_cast at hq
      exact not_lt.mpr hq
    obtain ⟨hin, hout⟩ := hkeep hno
    have hone1 : (Read cf s p).1.mustFadeIn_ = true ∨ (Read cf s p).1.mustFadeOut_ = true := by
      rw [hin, hout]
      exact hone
    have hfs1 : GetFadeSamples (Read cf s p).1 = (N : ℚ) := by
      unfold GetFadeSamples
      rw [hs]
      exact hfs
    obtain ⟨g1, g2, g3, g4, g5, g6, g7⟩ := ih (Read cf s p).1 hone1 hfs1 (by rw [hi]; omega)
    rw [readAll_cons, g1, g2, g3, g4, g5, g6, g7, hi, hin, hout, hs, hb, hf, hB]
    refine ⟨?_, rfl, rfl, rfl, rfl, rfl, rfl⟩
    simp only [List.length_cons, Nat.cast_add, Nat.cast_one]
    ring

theorem readAll_no_fade (cf : ℚ → ℚ → ℚ → ℚ) (positions : List ℚ) :
    ∀ s : Looper, s.mustFadeIn_ = false → s.mustFadeOut_ = false →
      readAll cf s positions = s := by
  induction positions with
  | nil =>
    intro s _ _
    rfl
  | cons p ps ih =>
    intro s hin hout
    rw [readAll_cons, Read_no_fade cf s p hin hout]
    exact ih s hin hout

/-- C23 (as stated, refuted): a fade in of 41 samples. On the read where
`fadeIndex == fadeSamples == 41` the crossfade position is `41 * (1.f / 41)` in
`float` arithmetic, which is `16777215 / 16777216`, the `float` just below 1,
and not 1. -/
theorem C23_fade_end_below_one :
    GetFadeSamples fade41Looper = 41 ∧ fade41Looper.fadeIndex_ = 0 ∧
    fade41Looper.mustFadeIn_ = true ∧ fade41Looper.mustFadeOut_ = false ∧
    (readAll (fun _ _ b => b) fade41Looper (List.replicate 41 0)).fadeIndex_ = 41 ∧
    (Read (fun _ _ b => b)
      (readAll (fun _ _ b => b) fade41Looper (List.replicate 41 0)) 0).1.cfPos_
        = 16777215 / 16777216 ∧
    (Read (fun _ _ b => b)
      (readAll (fun _ _ b => b) fade41Looper (List.replicate 41 0)) 0).1.cfPos_ ≠ 1 := by
  have hfs : GetFadeSamples fade41Looper = ((41 : ℕ) : ℚ) := by
    norm_num [GetFadeSamples, fade41Looper]
  obtain ⟨g1, g2, _, g4, _, _, _⟩ := readAll_fading (fun _ _ b => b) 41 (List.replicate 41 0)
    fade41Looper (Or.inl rfl) hfs (by simp [fade41Looper, exampleLooper])
  have hidx : (readAll (fun _ _ b => b) fade41Looper (List.replicate 41 0)).fadeIndex_ = 41 := by
    rw [g1]
    simp [fade41Looper, exampleLooper]
  have hone1 : (readAll (fun _ _ b => b) fade41Looper (List.replicate 41 0)).mustFadeIn_ = true ∨
      (readAll (fun _ _ b => b) fade41Looper (List.replicate 41 0)).mustFadeOut_ = true := by
    rw [g2]
    exact Or.inl rfl
  have hfs1 : GetFadeSamples (readAll (fun _ _ b => b) fade41Looper (List.replicate 41 0))
      = 41 := by
    unfold GetFadeSamples
    rw [g4]
    rfl
  have hpos := (Read_fading (fun _ _ b => b)
    (readAll (fun _ _ b => b) fade41Looper (List.replicate 41 0)) 0 hone1).1
  rw [hfs1, hidx, fade_position_41] at hpos
  refine ⟨rfl, rfl, rfl, rfl, hidx, hpos, ?_⟩
  rw [hpos]
  norm_num

/-- C23 (amended): fade window in `Read`. After a fade is set up
(`fadeIndex == 0`, exactly one of `mustFadeIn`/`mustFadeOut` set) and with a
fade length `fadeSamples = N`, a positive integer, the `k`-th subsequent `Read`
(`k = 0, 1, ..., N`) finds the fade still pending with `fadeIndex == k`, gives
the crossfade the position `k * (1.f / N)` computed in `float` arithmetic and
the endpoints (0, 1) for a fade in and (1, 0) for a fade out, and returns the
interpolated value times the crossfade output. The position is 0 on the first
read; for `N <= 2 ^ 24` it is `k / N` up to a relative error of `2 ^ (-22)`.
For `k < N` the read keeps the flags; for `k = N` the position is 1 or the
`float` just below 1 (`N <= 2 ^ 24`), the flags are cleared by this read, and
every later `Read` returns the interpolated value unscaled and leaves the
looper unchanged. -/
theorem C23_fade_window (cf : ℚ → ℚ → ℚ → ℚ) (s : Looper) (N : ℕ) (positions : List ℚ)
    (pos : ℚ) (hN : 1 ≤ N) (hfs : GetFadeSamples s = (N : ℚ)) (h0 : s.fadeIndex_ = 0)
    (hone : (s.mustFadeIn_ = true ∧ s.mustFadeOut_ = false) ∨
      (s.mustFadeIn_ = false ∧ s.mustFadeOut_ = true))
    (hk : positions.length ≤ N) :
    (readAll cf s positions).fadeIndex_ = (positions.length : Int) ∧
    (readAll cf s positions).mustFadeIn_ = s.mustFadeIn_ ∧
    (readAll cf s positions).mustFadeOut_ = s.mustFadeOut_ ∧
    (Read cf (readAll cf s positions) pos).1.cfPos_
      = float32 (float32 (positions.length : ℚ) * float32 (1 / (N : ℚ))) ∧
    (Read cf (readAll cf s positions) pos).2
      = interpolated s pos * cf (Read cf (readAll cf s positions) pos).1.cfPos_
          (if s.mustFadeIn_ = true then 0 else 1) (if s.mustFadeIn_ = true then 1 else 0) ∧
    (positions.length = 0 → (Read cf (readAll cf s positions) pos).1.cfPos_ = 0) ∧
    (N ≤ 16777216 →
      |(Read cf (readAll cf s positions) pos).1.cfPos_ - (positions.length : ℚ) / (N : ℚ)|
        ≤ (positions.length : ℚ) / (N : ℚ) / 4194304) ∧
    (positions.length < N →
      (Read cf (readAll cf s positions) pos).1.mustFadeIn_ = s.mustFadeIn_ ∧
      (Read cf (readAll cf s positions) pos).1.mustFadeOut_ = s.mustFadeOut_) ∧
    (positions.length = N →
      (N ≤ 16777216 →
        (Read cf (readAll cf s positions) pos).1.cfPos_ = 1 ∨
        (Read cf (readAll cf s positions) pos).1.cfPos_ = 16777215 / 16777216) ∧
      (Read cf (readAll cf s positions) pos).1.mustFadeIn_ = false ∧
      (Read cf (readAll cf s positions) pos).1.mustFadeOut_ = false ∧
      ∀ (later : List ℚ) (pos1 : ℚ),
        Read cf (readAll cf (Read cf (readAll cf s positions) pos).1 later) pos1
          = ((Read cf (readAll cf s positions) pos).1, interpolated s pos1)) := by
  have hone0 : s.mustFadeIn_ = true ∨ s.mustFadeOut_ = true := by
    rcases hone with h | h
    · exact Or.inl h.1
    · exact Or.inr h.2
  obtain ⟨g1, g2, g3, g4, g5, g6, g7⟩ := readAll_fading cf N positions s hone0 hfs
    (by rw [h0]; simpa using hk)
  rw [h0, zero_add] at g1
  have hone1 : (readAll cf s positions).mustFadeIn_ = true ∨
      (readAll cf s positions).mustFadeOut_ = true := by
    rw [g2, g3]
    exact hone0
  have hfs1 : GetFadeSamples (readAll cf s positions) = (N : ℚ) := by
    unfold GetFadeSamples
    rw [g4]
    exact hfs
  obtain ⟨r1, r2, _, _, rb, rf, rB, rclear, rkeep⟩ :=
    Read_fading cf (readAll cf s positions) pos hone1
  rw [← r1] at r2
  rw [hfs1, g1] at r1 rclear rkeep
  rw [g2] at r2
  rw [interpolated_congr s (readAll cf s positions) pos g5 g6 g7] at r2
  rw [Int.cast_natCast] at r1
  refine ⟨g1, g2, g3, r1, r2, fun hz => ?_, fun h24 => ?_, fun hlt => ?_, fun heq => ?_⟩
  · rw [r1, hz]
    simp [float32_zero]
  · rw [r1]
    exact (fade_position positions.length N hN h24 hk).2.1
  · have hno : ¬ (((positions.length : Int) : ℚ) + 1 > (N : ℚ)) := by
      have : (positions.length : ℚ) + 1 ≤ (N : ℚ) := by exact_mod_cast hlt
      push_cast
      exact not_lt.mpr this
    obtain ⟨k1, k2⟩ := rkeep hno
    rw [k1, k2, g2, g3]
    exact ⟨rfl, rfl⟩
  · have hyes : ((positions.length : Int) : ℚ) + 1 > (N : ℚ) := by
      rw [heq]
      push_cast
      linarith
    obtain ⟨c1, c2⟩ := rclear hyes
    refine ⟨fun h24 => ?_, c1, c2, fun later pos1 => ?_⟩
    · rw [r1]
      exact (fade_position positions.length N hN h24 hk).2.2 heq
    · rw [readAll_no_fade cf later _ c1 c2, Read_no_fade cf _ pos1 c1 c2]
      rw [interpolated_congr s _ pos1 (rb.trans g5) (rf.trans g6) (rB.trans g7)]

theorem C23_fade_window_witness :
    1 ≤ 2 ∧ GetFadeSamples fadingLooper = ((2 : ℕ) : ℚ) ∧ fadingLooper.fadeIndex_ = 0 ∧
    fadingLooper.mustFadeIn_ = true ∧ fadingLooper.mustFadeOut_ = false ∧
    ((Read (fun _ _ b => b) (readAll (fun _ _ b => b) fadingLooper [0, 1]) 2).1.cfPos_ = 1 ∨
      (Read (fun _ _ b => b) (readAll (fun _ _ b => b) fadingLooper [0, 1]) 2).1.cfPos_
        = 16777215 / 16777216) ∧
    (Read (fun _ _ b => b) (readAll (fun _ _ b => b) fadingLooper [0, 1]) 2).1.mustFadeIn_
      = false :=
  ⟨by decide, by norm_num [GetFadeSamples, fadingLooper], rfl, rfl, rfl,
    ((C23_fade_window (fun _ _ b => b) fadingLooper 2 [0, 1] 2 (by decide)
      (by norm_num [GetFadeSamples, fadingLooper]) rfl (Or.inl ⟨rfl, rfl⟩)
      (by decide)).2.2.2.2.2.2.2.2 rfl).1 (by decide),
    ((C23_fade_window (fun _ _ b => b) fadingLooper 2 [0, 1] 2 (by decide)
      (by norm_num [GetFadeSamples, fadingLooper]) rfl (Or.inl ⟨rfl, rfl⟩)
      (by decide)).2.2.2.2.2.2.2.2 rfl).2.1⟩


/-! ## The stereo looper: pending values of the setters -/

theorem toInt32_intCast {K : Type} [LinearOrderedField K] [FloorRing K]
    (n : Int) : toInt32 (n : K) = n := by
  unfold toInt32
  split_ifs
  · exact Int.floor_intCast n
  · exact Int.ceil_intCast n

theorem toInt32_mono {K : Type} [LinearOrderedField K] [FloorRing K]
    (a b : K) (h : a ≤ b) : toInt32 a ≤ toInt32 b := by
  unfold toInt32
  split_ifs with ha hb hb
  · exact Int.floor_mono h
  · exact absurd (le_trans ha h) hb
  · have h1 : ⌈a⌉ ≤ 0 := Int.ceil_le.mpr (by push_cast; exact le_of_lt (not_le.mp ha))
    have h2 : 0 ≤ ⌊b⌋ := Int.floor_nonneg.mpr hb
    omega
  · exact Int.ceil_mono h

theorem toInt32_clamp {K : Type} [LinearOrderedField K] [FloorRing K]
    (length kMin : K) (k B : Int) (hk : kMin = (k : K)) :
    toInt32 (min (max length kMin) (B : K)) ≤ B ∧
    (k ≤ B → k ≤ toInt32 (min (max length kMin) (B : K))) ∧
    (B < k → toInt32 (min (max length kMin) (B : K)) = B) := by
  refine ⟨?_, fun h => ?_, fun h => ?_⟩
  · have := toInt32_mono _ _ (min_le_right (max length kMin) (B : K))
    rwa [toInt32_intCast] at this
  · have hq : (k : K) ≤ (B : K) := by exact_mod_cast h
    have hle : (k : K) ≤ min (max length kMin) (B : K) :=
      le_min (by rw [hk]; exact le_max_right _ _) hq
    have := toInt32_mono _ _ hle
    rwa [toInt32_intCast] at this
  · have hq : (B : K) < (k : K) := by exact_mod_cast h
    have hmin : min (max length kMin) (B : K) = (B : K) :=
      min_eq_right (le_trans (le_of_lt hq) (by rw [hk]; exact le_max_right _ _))
    rw [hmin, toInt32_intCast]

theorem SetLoopLength_pending {K : Type} [LinearOrderedField K] [FloorRing K]
    {L F E : Type} (ops : LooperOps K L) (dsp : DspEnv K F E)
    (st : StereoLooper K L F E) (channel : Channel) (length : K) :
    ((channel = Channel.LEFT ∨ channel = Channel.BOTH) →
      (StereoLooper.SetLoopLength ops dsp st channel length).nextLeftLoopLength
        = toInt32 (min (max length dsp.kMinLoopLengthSamples)
            (ops.GetBufferSamples st.loopers_.LEFT : K))) ∧
    ((channel = Channel.RIGHT ∨ channel = Channel.BOTH) →
      (StereoLooper.SetLoopLength ops dsp st channel length).nextRightLoopLength
        = toInt32 (min (max length dsp.kMinLoopLengthSamples)
            (ops.GetBufferSamples st.loopers_.RIGHT : K))) := by
  constructor
  · intro h
    rcases h with h | h <;> subst h <;> unfold StereoLooper.SetLoopLength <;> dsimp only <;>
      split_ifs <;> first | rfl | (exfalso; simp_all)
  · intro h
    rcases h with h | h <;> subst h <;> unfold StereoLooper.SetLoopLength <;> dsimp only <;>
      split_ifs <;> first | rfl | (exfalso; simp_all)

/-- C25 (as stated, refuted): with stand-in loopers that have nothing buffered
(`bufferSamples = 0`) and a floor `kMinLoopLengthSamples = 48`,
`SetLoopLength(BOTH, 1000)` leaves both pending loop lengths at 0, which is
below the floor. -/
theorem C25_pending_length_zero :
    probeDsp.kMinLoopLengthSamples = 48 ∧
    probeOps.GetBufferSamples emptyProbeLooper = 0 ∧
    (StereoLooper.SetLoopLength probeOps probeDsp
      (probeStereo StereoLooper.State.READY emptyProbeLooper emptyProbeLooper 500 500)
      Channel.BOTH 1000).nextLeftLoopLength = 0 ∧
    (StereoLooper.SetLoopLength probeOps probeDsp
      (probeStereo StereoLooper.State.READY emptyProbeLooper emptyProbeLooper 500 500)
      Channel.BOTH 1000).nextRightLoopLength = 0 := by
  have h := SetLoopLength_pending probeOps probeDsp
    (probeStereo StereoLooper.State.READY emptyProbeLooper emptyProbeLooper 500 500)
    Channel.BOTH 1000
  have hz : toInt32 (min (max (1000 : ℚ) probeDsp.kMinLoopLengthSamples)
      ((0 : Int) : ℚ)) = 0 :=
    (toInt32_clamp 1000 probeDsp.kMinLoopLengthSamples 48 0 (by norm_num [probeDsp])).2.2
      (by decide)
  refine ⟨rfl, rfl, ?_, ?_⟩
  · rw [h.1 (Or.inr rfl)]
    exact hz
  · rw [h.2 (Or.inr rfl)]
    exact hz

/-- C25 (amended): with a floor `kMinLoopLengthSamples` that is an integer
number `k` of samples, for every channel selector, every requested length and
every looper state, `StereoLooper::SetLoopLength` leaves each addressed
channel's pending loop length at a value `<=` that channel's `bufferSamples`,
and `>= k` whenever that channel's `bufferSamples` is at least `k`; when the
channel has buffered fewer samples than the floor, the pending length is its
`bufferSamples` (zero when nothing is buffered). -/
theorem C25_pending_loop_length {K : Type} [LinearOrderedField K] [FloorRing K]
    {L F E : Type} (ops : LooperOps K L) (dsp : DspEnv K F E)
    (st : StereoLooper K L F E) (channel : Channel) (length : K) (k : Int)
    (hk : dsp.kMinLoopLengthSamples = (k : K)) :
    ((channel = Channel.LEFT ∨ channel = Channel.BOTH) →
      (StereoLooper.SetLoopLength ops dsp st channel length).nextLeftLoopLength
        ≤ ops.GetBufferSamples st.loopers_.LEFT ∧
      (k ≤ ops.GetBufferSamples st.loopers_.LEFT →
        k ≤ (StereoLooper.SetLoopLength ops dsp st channel length).nextLeftLoopLength) ∧
      (ops.GetBufferSamples st.loopers_.LEFT < k →
        (StereoLooper.SetLoopLength ops dsp st channel length).nextLeftLoopLength
          = ops.GetBufferSamples st.loopers_.LEFT)) ∧
    ((channel = Channel.RIGHT ∨ channel = Channel.BOTH) →
      (StereoLooper.SetLoopLength ops dsp st channel length).nextRightLoopLength
        ≤ ops.GetBufferSamples st.loopers_.RIGHT ∧
      (k ≤ ops.GetBufferSamples st.loopers_.RIGHT →
        k ≤ (StereoLooper.SetLoopLength ops dsp st channel length).nextRightLoopLength) ∧
      (ops.GetBufferSamples st.loopers_.RIGHT < k →
        (StereoLooper.SetLoopLength ops dsp st channel length).nextRightLoopLength
          = ops.GetBufferSamples st.loopers_.RIGHT)) := by
  obtain ⟨hl, hr⟩ := SetLoopLength_pending ops dsp st channel length
  constructor
  · intro h
    rw [hl h]
    exact toInt32_clamp length _ k _ hk
  · intro h
    rw [hr h]
    exact toInt32_clamp length _ k _ hk

theorem C25_pending_loop_length_witness :
    probeDsp.kMinLoopLengthSamples = ((48 : Int) : ℚ) ∧
    (48 : Int) ≤ (StereoLooper.SetLoopLength probeOps probeDsp
      (probeStereo StereoLooper.State.READY (probeLooper 500 true) (probeLooper 500 true)
        500 500) Channel.LEFT 10).nextLeftLoopLength :=
  ⟨by norm_num [probeDsp],
    ((C25_pending_loop_length probeOps probeDsp
      (probeStereo StereoLooper.State.READY (probeLooper 500 true) (probeLooper 500 true)
        500 500) Channel.LEFT 10 48 (by norm_num [probeDsp])).1 (Or.inl rfl)).2.1
      (by decide)⟩


theorem SetLoopStart_scoping {K : Type} [LinearOrderedField K] [FloorRing K]
    {L F E : Type} (ops : LooperOps K L) (st : StereoLooper K L F E)
    (x : K) :
    StereoLooper.rightPending (StereoLooper.SetLoopStart ops st Channel.LEFT x)
      = StereoLooper.rightPending st ∧
    StereoLooper.leftPending (StereoLooper.SetLoopStart ops st Channel.RIGHT x)
      = StereoLooper.leftPending st ∧
    StereoLooper.leftPending (StereoLooper.SetLoopStart ops st Channel.BOTH x)
      = StereoLooper.leftPending (StereoLooper.SetLoopStart ops st Channel.LEFT x) ∧
    StereoLooper.rightPending (StereoLooper.SetLoopStart ops st Channel.BOTH x)
      = StereoLooper.rightPending (StereoLooper.SetLoopStart ops st Channel.RIGHT x) ∧
    ∀ channel : Channel,
      StereoLooper.sharedMembers (StereoLooper.SetLoopStart ops st channel x)
        = StereoLooper.sharedMembers st ∧
      (StereoLooper.SetLoopStart ops st channel x).conf_ = st.conf_ ∧
      (StereoLooper.SetLoopStart ops st channel x).loopers_ = st.loopers_ := by
  refine ⟨?_, ?_, ?_, ?_, fun channel => ?_⟩
  · simp [StereoLooper.SetLoopStart, StereoLooper.rightPending]
  · simp [StereoLooper.SetLoopStart, StereoLooper.leftPending]
  · simp [StereoLooper.SetLoopStart, StereoLooper.leftPending]
  · simp [StereoLooper.SetLoopStart, StereoLooper.rightPending]
  · cases channel <;> simp [StereoLooper.SetLoopStart, StereoLooper.sharedMembers]

theorem SetWriteRate_scoping {K : Type} [LinearOrderedField K] [FloorRing K]
    {L F E : Type} (st : StereoLooper K L F E) (x : K) :
    StereoLooper.rightPending (StereoLooper.SetWriteRate st Channel.LEFT x)
      = StereoLooper.rightPending st ∧
    StereoLooper.leftPending (StereoLooper.SetWriteRate st Channel.RIGHT x)
      = StereoLooper.leftPending st ∧
    StereoLooper.leftPending (StereoLooper.SetWriteRate st Channel.BOTH x)
      = StereoLooper.leftPending (StereoLooper.SetWriteRate st Channel.LEFT x) ∧
    StereoLooper.rightPending (StereoLooper.SetWriteRate st Channel.BOTH x)
      = StereoLooper.rightPending (StereoLooper.SetWriteRate st Channel.RIGHT x) ∧
    ∀ channel : Channel,
      StereoLooper.sharedMembers (StereoLooper.SetWriteRate st channel x)
        = StereoLooper.sharedMembers st ∧
      (StereoLooper.SetWriteRate st channel x).conf_ = st.conf_ ∧
      (StereoLooper.SetWriteRate st channel x).loopers_ = st.loopers_ := by
  refine ⟨?_, ?_, ?_, ?_, fun channel => ?_⟩
  · simp [StereoLooper.SetWriteRate, StereoLooper.rightPending]
  · simp [StereoLooper.SetWriteRate, StereoLooper.leftPending]
  · simp [StereoLooper.SetWriteRate, StereoLooper.leftPending]
  · simp [StereoLooper.SetWriteRate, StereoLooper.rightPending]
  · cases channel <;> simp [StereoLooper.SetWriteRate, StereoLooper.sharedMembers]

theorem SetReadRate_scoping {K : Type} [LinearOrderedField K] [FloorRing K]
    {L F E : Type} (st : StereoLooper K L F E) (x : K) :
    StereoLooper.rightPending (StereoLooper.SetReadRate st Channel.LEFT x)
      = StereoLooper.rightPending st ∧
    StereoLooper.leftPending (StereoLooper.SetReadRate st Channel.RIGHT x)
      = StereoLooper.leftPending st ∧
    StereoLooper.leftPending (StereoLooper.SetReadRate st Channel.BOTH x)
      = StereoLooper.leftPending (StereoLooper.SetReadRate st Channel.LEFT x) ∧
    StereoLooper.rightPending (StereoLooper.SetReadRate st Channel.BOTH x)
      = StereoLooper.rightPending (StereoLooper.SetReadRate st Channel.RIGHT x) ∧
    ∀ channel : Channel,
      StereoLooper.sharedMembers (StereoLooper.SetReadRate st channel x)
        = StereoLooper.sharedMembers st ∧
      (StereoLooper.SetReadRate st channel x).loopers_ = st.loopers_ := by
  refine ⟨?_, ?_, ?_, ?_, fun channel => ?_⟩
  · simp [StereoLooper.SetReadRate, StereoLooper.rightPending]
  · simp [StereoLooper.SetReadRate, StereoLooper.leftPending]
  · simp [StereoLooper.SetReadRate, StereoLooper.leftPending]
  · simp [StereoLooper.SetReadRate, StereoLooper.rightPending]
  · cases channel <;> simp [StereoLooper.SetReadRate, StereoLooper.sharedMembers]

theorem SetFreeze_scoping {K : Type} [LinearOrderedField K] [FloorRing K]
    {L F E : Type} (st : StereoLooper K L F E) (x : K) :
    StereoLooper.rightPending (StereoLooper.SetFreeze st Channel.LEFT x)
      = StereoLooper.rightPending st ∧
    StereoLooper.leftPending (StereoLooper.SetFreeze st Channel.RIGHT x)
      = StereoLooper.leftPending st ∧
    StereoLooper.leftPending (StereoLooper.SetFreeze st Channel.BOTH x)
      = StereoLooper.leftPending (StereoLooper.SetFreeze st Channel.LEFT x) ∧
    StereoLooper.rightPending (StereoLooper.SetFreeze st Channel.BOTH x)
      = StereoLooper.rightPending (StereoLooper.SetFreeze st Channel.RIGHT x) ∧
    ∀ channel : Channel,
      (StereoLooper.SetFreeze st channel x).freeze_ = x ∧
      (StereoLooper.SetFreeze st channel x).conf_ = st.conf_ ∧
      (StereoLooper.SetFreeze st channel x).loopers_ = st.loopers_ := by
  refine ⟨?_, ?_, ?_, ?_, fun channel => ?_⟩
  · unfold StereoLooper.SetFreeze StereoLooper.rightPending
    simp only [reduceCtorEq, or_false, false_or, or_true, true_or, if_true, if_false]
    split_ifs <;> rfl
  · unfold StereoLooper.SetFreeze StereoLooper.leftPending
    simp only [reduceCtorEq, or_false, false_or, or_true, true_or, if_true, if_false]
    split_ifs <;> rfl
  · unfold StereoLooper.SetFreeze StereoLooper.leftPending
    simp only [reduceCtorEq, or_false, false_or, or_true, true_or, if_true, if_false]
    split_ifs <;> rfl
  · unfold StereoLooper.SetFreeze StereoLooper.rightPending
    simp only [reduceCtorEq, or_false, false_or, or_true, true_or, if_true, if_false]
    split_ifs <;> rfl
  · unfold StereoLooper.SetFreeze
    dsimp only
    split_ifs <;> exact ⟨rfl, rfl, rfl⟩


theorem SetLoopLength_scoping {K : Type} [LinearOrderedField K] [FloorRing K]
    {L F E : Type} (ops : LooperOps K L) (dsp : DspEnv K F E)
    (st : StereoLooper K L F E) (x : K) :
    StereoLooper.rightPending (StereoLooper.SetLoopLength ops dsp st Channel.LEFT x)
      = StereoLooper.rightPending st ∧
    StereoLooper.leftPending (StereoLooper.SetLoopLength ops dsp st Channel.RIGHT x)
      = StereoLooper.leftPending st ∧
    StereoLooper.leftPending (StereoLooper.SetLoopLength ops dsp st Channel.BOTH x)
      = StereoLooper.leftPending (StereoLooper.SetLoopLength ops dsp st Channel.LEFT x) ∧
    StereoLooper.rightPending (StereoLooper.SetLoopLength ops dsp st Channel.BOTH x)
      = StereoLooper.rightPending (StereoLooper.SetLoopLength ops dsp st Channel.RIGHT x) ∧
    ∀ channel : Channel,
      StereoLooper.sharedMembers (StereoLooper.SetLoopLength ops dsp st channel x)
        = StereoLooper.sharedMembers st ∧
      (StereoLooper.SetLoopLength ops dsp st channel x).conf_ = st.conf_ ∧
      (StereoLooper.SetLoopLength ops dsp st channel x).loopers_ = st.loopers_ := by
  refine ⟨?_, ?_, ?_, ?_, fun channel => ?_⟩
  · unfold StereoLooper.SetLoopLength StereoLooper.rightPending
    simp only [reduceCtorEq, or_false, false_or, or_true, true_or, if_true, if_false]
    split_ifs <;> rfl
  · unfold StereoLooper.SetLoopLength StereoLooper.leftPending
    simp only [reduceCtorEq, or_false, false_or, or_true, true_or, if_true, if_false]
    split_ifs <;> rfl
  · unfold StereoLooper.SetLoopLength StereoLooper.leftPending
    simp only [reduceCtorEq, or_false, false_or, or_true, true_or, if_true, if_false]
    split_ifs <;> rfl
  · unfold StereoLooper.SetLoopLength StereoLooper.rightPending
    simp only [reduceCtorEq, or_false, false_or, or_true, true_or, if_true, if_false]
    split_ifs <;> rfl
  · unfold StereoLooper.SetLoopLength StereoLooper.sharedMembers
    dsimp only
    split_ifs <;> exact ⟨rfl, rfl, rfl⟩

theorem SetDirection_scoping {K : Type} [LinearOrderedField K] [FloorRing K]
    {L F E : Type} (ops : LooperOps K L) (st : StereoLooper K L F E)
    (d : Direction) :
    StereoLooper.rightPending (StereoLooper.SetDirection ops st Channel.LEFT d)
      = StereoLooper.rightPending st ∧
    StereoLooper.leftPending (StereoLooper.SetDirection ops st Channel.RIGHT d)
      = StereoLooper.leftPending st ∧
    StereoLooper.leftPending (StereoLooper.SetDirection ops st Channel.BOTH d)
      = StereoLooper.leftPending (StereoLooper.SetDirection ops st Channel.LEFT d) ∧
    StereoLooper.rightPending (StereoLooper.SetDirection ops st Channel.BOTH d)
      = StereoLooper.rightPending (StereoLooper.SetDirection ops st Channel.RIGHT d) ∧
    ∀ channel : Channel, channel ≠ Channel.BOTH →
      StereoLooper.sharedMembers (StereoLooper.SetDirection ops st channel d)
        = StereoLooper.sharedMembers st ∧
      (StereoLooper.SetDirection ops st channel d).conf_ = st.conf_ := by
  refine ⟨?_, ?_, ?_, ?_, fun channel hne => ?_⟩
  · unfold StereoLooper.SetDirection StereoLooper.rightPending
    simp only [reduceCtorEq, or_false, false_or, or_true, true_or, if_true, if_false]
    split_ifs <;> rfl
  · unfold StereoLooper.SetDirection StereoLooper.leftPending
    simp only [reduceCtorEq, or_false, false_or, or_true, true_or, if_true, if_false]
    split_ifs <;> rfl
  · unfold StereoLooper.SetDirection StereoLooper.leftPending
    simp only [reduceCtorEq, or_false, false_or, or_true, true_or, if_true, if_false]
    split_ifs <;> rfl
  · unfold StereoLooper.SetDirection StereoLooper.rightPending
    simp only [reduceCtorEq, or_false, false_or, or_true, true_or, if_true, if_false]
    split_ifs <;> rfl
  · have hb : ¬ Channel.BOTH = channel := fun h => hne h.symm
    unfold StereoLooper.SetDirection StereoLooper.sharedMembers
    simp only [hb, or_false, if_false]
    split_ifs <;> exact ⟨rfl, rfl⟩

/-- C26 (as stated, refuted): in `RECORDING` with freeze amount 0, the
single-channel call `SetFreeze(LEFT, 1)` changes the freeze amount `freeze_`
and the top-level state, which both channels share. -/
theorem C26_SetFreeze_changes_shared_state :
    (probeStereo StereoLooper.State.RECORDING (probeLooper 500 true) (probeLooper 500 true)
      500 500).freeze_ = 0 ∧
    (StereoLooper.SetFreeze
      (probeStereo StereoLooper.State.RECORDING (probeLooper 500 true) (probeLooper 500 true)
        500 500) Channel.LEFT 1).freeze_ = 1 ∧
    (StereoLooper.SetFreeze
      (probeStereo StereoLooper.State.RECORDING (probeLooper 500 true) (probeLooper 500 true)
        500 500) Channel.LEFT 1).state_ = StereoLooper.State.FROZEN ∧
    (StereoLooper.SetFreeze
      (probeStereo StereoLooper.State.RECORDING (probeLooper 500 true) (probeLooper 500 true)
        500 500) Channel.LEFT 1).nextRightFreeze = 0 := by
  simp [StereoLooper.SetFreeze, probeStereo]

/-- C26 (amended): channel scoping of `SetLoopStart`, `SetLoopLength`,
`SetReadRate`, `SetWriteRate`, `SetDirection` and `SetFreeze`. A call with
`LEFT` leaves every right-channel pending field unchanged, a call with `RIGHT`
leaves every left-channel pending field unchanged, and a call with `BOTH` sets
the left pending fields as the `LEFT` call does and the right ones as the
`RIGHT` call does. `SetLoopStart`, `SetLoopLength` and `SetWriteRate` change no
shared member, not `conf_` and no looper; `SetReadRate` changes no shared
member (`conf_` apart) and no looper; `SetDirection` with `LEFT` or `RIGHT`
changes no shared member and not `conf_`; `SetFreeze`, for every channel
selector, stores the amount in the shared `freeze_` and, outside `READY`, sets
the top-level state from it, and changes neither `conf_` nor a looper. -/
theorem C26_channel_scoping {K : Type} [LinearOrderedField K] [FloorRing K]
    {L F E : Type} (ops : LooperOps K L) (dsp : DspEnv K F E)
    (st : StereoLooper K L F E) (x : K) (d : Direction) :
    (StereoLooper.rightPending (StereoLooper.SetLoopStart ops st Channel.LEFT x)
        = StereoLooper.rightPending st ∧
      StereoLooper.rightPending (StereoLooper.SetLoopLength ops dsp st Channel.LEFT x)
        = StereoLooper.rightPending st ∧
      StereoLooper.rightPending (StereoLooper.SetReadRate st Channel.LEFT x)
        = StereoLooper.rightPending st ∧
      StereoLooper.rightPending (StereoLooper.SetWriteRate st Channel.LEFT x)
        = StereoLooper.rightPending st ∧
      StereoLooper.rightPending (StereoLooper.SetDirection ops st Channel.LEFT d)
        = StereoLooper.rightPending st ∧
      StereoLooper.rightPending (StereoLooper.SetFreeze st Channel.LEFT x)
        = StereoLooper.rightPending st) ∧
    (StereoLooper.leftPending (StereoLooper.SetLoopStart ops st Channel.RIGHT x)
        = StereoLooper.leftPending st ∧
      StereoLooper.leftPending (StereoLooper.SetLoopLength ops dsp st Channel.RIGHT x)
        = StereoLooper.leftPending st ∧
      StereoLooper.leftPending (StereoLooper.SetReadRate st Channel.RIGHT x)
        = StereoLooper.leftPending st ∧
      StereoLooper.leftPending (StereoLooper.SetWriteRate st Channel.RIGHT x)
        = StereoLooper.leftPending st ∧
      StereoLooper.leftPending (StereoLooper.SetDirection ops st Channel.RIGHT d)
        = StereoLooper.leftPending st ∧
      StereoLooper.leftPending (StereoLooper.SetFreeze st Channel.RIGHT x)
        = StereoLooper.leftPending st) ∧
    (StereoLooper.leftPending (StereoLooper.SetLoopStart ops st Channel.BOTH x)
        = StereoLooper.leftPending (StereoLooper.SetLoopStart ops st Channel.LEFT x) ∧
      StereoLooper.rightPending (StereoLooper.SetLoopStart ops st Channel.BOTH x)
        = StereoLooper.rightPending (StereoLooper.SetLoopStart ops st Channel.RIGHT x) ∧
      StereoLooper.leftPending (StereoLooper.SetLoopLength ops dsp st Channel.BOTH x)
        = StereoLooper.leftPending (StereoLooper.SetLoopLength ops dsp st Channel.LEFT x) ∧
      StereoLooper.rightPending (StereoLooper.SetLoopLength ops dsp st Channel.BOTH x)
        = StereoLooper.rightPending (StereoLooper.SetLoopLength ops dsp st Channel.RIGHT x) ∧
      StereoLooper.leftPending (StereoLooper.SetReadRate st Channel.BOTH x)
        = StereoLooper.leftPending (StereoLooper.SetReadRate st Channel.LEFT x) ∧
      StereoLooper.rightPending (StereoLooper.SetReadRate st Channel.BOTH x)
        = StereoLooper.rightPending (StereoLooper.SetReadRate st Channel.RIGHT x) ∧
      StereoLooper.leftPending (StereoLooper.SetWriteRate st Channel.BOTH x)
        = StereoLooper.leftPending (StereoLooper.SetWriteRate st Channel.LEFT x) ∧
      StereoLooper.rightPending (StereoLooper.SetWriteRate st Channel.BOTH x)
        = StereoLooper.rightPending (StereoLooper.SetWriteRate st Channel.RIGHT x) ∧
      StereoLooper.leftPending (StereoLooper.SetDirection ops st Channel.BOTH d)
        = StereoLooper.leftPending (StereoLooper.SetDirection ops st Channel.LEFT d) ∧
      StereoLooper.rightPending (StereoLooper.SetDirection ops st Channel.BOTH d)
        = StereoLooper.rightPending (StereoLooper.SetDirection ops st Channel.RIGHT d) ∧
      StereoLooper.leftPending (StereoLooper.SetFreeze st Channel.BOTH x)
        = StereoLooper.leftPending (StereoLooper.SetFreeze st Channel.LEFT x) ∧
      StereoLooper.rightPending (StereoLooper.SetFreeze st Channel.BOTH x)
        = StereoLooper.rightPending (StereoLooper.SetFreeze st Channel.RIGHT x)) ∧
    (∀ channel : Channel,
      (StereoLooper.sharedMembers (StereoLooper.SetLoopStart ops st channel x)
          = StereoLooper.sharedMembers st ∧
        (StereoLooper.SetLoopStart ops st channel x).conf_ = st.conf_ ∧
        (StereoLooper.SetLoopStart ops st channel x).loopers_ = st.loopers_) ∧
      (StereoLooper.sharedMembers (StereoLooper.SetLoopLength ops dsp st channel x)
          = StereoLooper.sharedMembers st ∧
        (StereoLooper.SetLoopLength ops dsp st channel x).conf_ = st.conf_ ∧
        (StereoLooper.SetLoopLength ops dsp st channel x).loopers_ = st.loopers_) ∧
      (StereoLooper.sharedMembers (StereoLooper.SetWriteRate st channel x)
          = StereoLooper.sharedMembers st ∧
        (StereoLooper.SetWriteRate st channel x).conf_ = st.conf_ ∧
        (StereoLooper.SetWriteRate st channel x).loopers_ = st.loopers_) ∧
      (StereoLooper.sharedMembers (StereoLooper.SetReadRate st channel x)
          = StereoLooper.sharedMembers st ∧
        (StereoLooper.SetReadRate st channel x).loopers_ = st.loopers_) ∧
      (channel ≠ Channel.BOTH →
        StereoLooper.sharedMembers (StereoLooper.SetDirection ops st channel d)
          = StereoLooper.sharedMembers st ∧
        (StereoLooper.SetDirection ops st channel d).conf_ = st.conf_) ∧
      ((StereoLooper.SetFreeze st channel x).freeze_ = x ∧
        (StereoLooper.SetFreeze st channel x).state_
          = (if StereoLooper.State.READY ≠ st.state_ then
              (if x = 1 then StereoLooper.State.FROZEN else StereoLooper.State.RECORDING)
            else st.state_) ∧
        (StereoLooper.SetFreeze st channel x).conf_ = st.conf_ ∧
        (StereoLooper.SetFreeze st channel x).loopers_ = st.loopers_)) := by
  obtain ⟨a1, a2, a3, a4, a5⟩ := SetLoopStart_scoping ops st x
  obtain ⟨b1, b2, b3, b4, b5⟩ := SetLoopLength_scoping ops dsp st x
  obtain ⟨c1, c2, c3, c4, c5⟩ := SetReadRate_scoping st x
  obtain ⟨d1, d2, d3, d4, d5⟩ := SetWriteRate_scoping st x
  obtain ⟨e1, e2, e3, e4, e5⟩ := SetDirection_scoping ops st d
  obtain ⟨f1, f2, f3, f4, f5⟩ := SetFreeze_scoping st x
  exact ⟨⟨a1, b1, c1, d1, e1, f1⟩, ⟨a2, b2, c2, d2, e2, f2⟩,
    ⟨a3, a4, b3, b4, c3, c4, d3, d4, e3, e4, f3, f4⟩,
    fun channel => ⟨a5 channel, b5 channel, d5 channel, c5 channel, e5 channel,
      ⟨(f5 channel).1, StereoLooper.SetFreeze_state st channel x, (f5 channel).2.1,
        (f5 channel).2.2⟩⟩⟩


end wreath
